import Mathlib

/-!
# Ethernet communication module of the WolkSensor firmware

A shallow embedding of `SDK/core/ethernet_communication_module.c`: the transport
state machine (six states below one root), its event queue, the sticky
operation record, the open-retry counter and the receive timeout timer.

The handlers are translated from the C source.  The generic state machine
engine (`state_machine.c`) and the event queue (`event_buffer.c`) are not part
of the available sources; they are modelled from the specification and marked
as such.  The platform adapter is an oracle: the result of every call is a
function of the number of earlier calls to the same primitive and of the
arguments of the call.
-/

namespace Ethernet

/-! ## Constants and enumerations -/

/-- Capacity of the event queue (`#define EVENTS_BUFFER_SIZE 10`). -/
def EVENTS_BUFFER_SIZE : Nat := 10

/-- Bound on connection attempts (`#define OPEN_SOCKET_MAX_RETRIES 3`). -/
def OPEN_SOCKET_MAX_RETRIES : Nat := 3

/-- Receive timeout in ticks (`#define RECEIVE_TIMEOUT 3`). -/
def RECEIVE_TIMEOUT : Nat := 3

/-- The enumeration `ethernet_communication_module_states_t`. -/
inductive ethernet_communication_module_states_t where
  | STATE_SOCKET_CLOSED
  | STATE_OPENING_SOCKET
  | STATE_SOCKET_OPENED
  | STATE_SEND
  | STATE_RECEIVE
  | STATE_CLOSING_SOCKET
  deriving DecidableEq, Repr

open ethernet_communication_module_states_t

/-- Numeric value of a state of the enumeration, the `id` stored in `states[id]`. -/
def state_id : ethernet_communication_module_states_t → Nat
  | STATE_SOCKET_CLOSED => 0
  | STATE_OPENING_SOCKET => 1
  | STATE_SOCKET_OPENED => 2
  | STATE_SEND => 3
  | STATE_RECEIVE => 4
  | STATE_CLOSING_SOCKET => 5

/-- The tag of an `event_t`: the six tags of `ethernet_communication_module_events_t`
and the two pseudo-tags of the engine. -/
inductive event_t where
  | EVENT_SEND
  | EVENT_RECEIVE
  | EVENT_OPEN_SOCKET
  | EVENT_CLOSE_SOCKET
  | EVENT_SOCKET_CLOSED
  | EVENT_TIMEOUT
  | EVENT_ENTERING_STATE
  | EVENT_LEAVING_STATE
  deriving DecidableEq, Repr

open event_t

/-- The three kinds of `ethernet_communication_module_error_type_t`. -/
inductive ethernet_communication_module_error_type_t where
  | ETHERNET_PARAMETERS_MISSING
  | ETHERNET_OPERATION_FAILED
  | ETHERNET_SOCKET_CLOSED
  deriving DecidableEq, Repr

open ethernet_communication_module_error_type_t

/-- A node of the state tree: `none` is the root `state_machine`, `some s` is `states[s]`. -/
abbrev Node := Option ethernet_communication_module_states_t

/-- The `parent` pointers registered by `init_ethernet_communication_module`:
`STATE_SEND` and `STATE_RECEIVE` hang below `STATE_SOCKET_OPENED`, the other
four states below the root. -/
def parent : ethernet_communication_module_states_t → Node
  | STATE_SOCKET_CLOSED => none
  | STATE_OPENING_SOCKET => none
  | STATE_SOCKET_OPENED => none
  | STATE_SEND => some STATE_SOCKET_OPENED
  | STATE_RECEIVE => some STATE_SOCKET_OPENED
  | STATE_CLOSING_SOCKET => none

/-! ## Platform and module state -/

/-- A call of a primitive of the platform adapter, with its arguments. -/
inductive Call where
  | open_socket (ip : List Nat) (port : Nat)
  | send (socket : Int) (data : Nat) (size : Nat)
  | receive (socket : Int) (buffer : Nat) (size : Nat)
  | close_socket (socket : Int)
  | send_response
  deriving DecidableEq, Repr

/-- Modelled from the spec: the declarations of
`ethernet_communication_module_dependencies.h` and of the error kinds in
`ethernet_communication_module.h` are missing.  The four socket primitives are
oracles whose first argument is the number of earlier calls of the same
primitive; `error_value` is the numeric value of each error kind. -/
structure ethernet_communication_module_dependencies_t where
  open_socket : Nat → List Nat → Nat → Int
  send : Nat → Int → Nat → Nat → Int
  receive : Nat → Int → Nat → Nat → Int
  close_socket : Nat → Int → Bool
  error_value : ethernet_communication_module_error_type_t → Nat

/-- The operation record `ethernet_communication_module_data_t`. -/
structure ethernet_communication_module_data_t where
  error : Nat
  platform_specific_error_code : Int
  deriving DecidableEq, Repr

/-- All mutable state of the module: the `current_state` links of the root and
of `states[6]`, the file-scope variables of the C file, the configuration
globals read by `connection_parameters_set`, the caller memory reached through
`received_data_size`, and the bookkeeping of the adapter oracle (call counters,
log of calls) and of the engine (log of handler invocations).  Pointers are
addresses, `0` is `NULL`. -/
structure Module where
  state_machine_current_state : Node
  states_current_state : ethernet_communication_module_states_t → Node
  events_buffer : List event_t
  data : Nat
  data_size : Nat
  buffer : Nat
  buffer_size : Nat
  received_data_size : Nat
  open_socket_id : Int
  timeout_timer : Nat
  ethernet_communication_module_data : ethernet_communication_module_data_t
  platform_specific_error_code : Int
  open_socket_retries : Nat
  server_ip : List Nat
  server_port : Nat
  memory : Nat → Nat
  open_socket_calls : Nat
  send_calls : Nat
  receive_calls : Nat
  close_socket_calls : Nat
  adapter_log : List Call
  dispatch_log : List (Node × event_t)

/-! ## Event queue -/

/-- Modelled from the spec: `add_event_type` of the missing `event_buffer.c`.
Appends a record; on overflow the oldest record is dropped. -/
def add_event_type (events_buffer : List event_t) (type : event_t) : List event_t :=
  if events_buffer.length < EVENTS_BUFFER_SIZE then events_buffer ++ [type]
  else events_buffer.drop 1 ++ [type]

/-- Modelled from the spec: `pop_event` of the missing `event_buffer.c`.
Removes and returns the oldest record, or signals that the queue is empty. -/
def pop_event (events_buffer : List event_t) : Option (event_t × List event_t) :=
  match events_buffer with
  | [] => none
  | e :: rest => some (e, rest)

/-- Modelled from the spec: `circular_buffer_clear` of the missing
`event_buffer.c`.  Discards all pending records. -/
def circular_buffer_clear (_events_buffer : List event_t) : List event_t := []

/-- Push onto the module queue. -/
def push (type : event_t) (m : Module) : Module :=
  { m with events_buffer := add_event_type m.events_buffer type }

/-- Flush of the module queue. -/
def flush (m : Module) : Module :=
  { m with events_buffer := circular_buffer_clear m.events_buffer }

/-! ## Helpers of the C file -/

/-- Source function `schedule_timeout`: the `uint16_t` period is stored in the `uint8_t` timer. -/
def schedule_timeout (period : Nat) (m : Module) : Module :=
  { m with timeout_timer := period % 256 }

/-- Source function `second_expired_listener`: the tick signal. -/
def second_expired_listener (m : Module) : Module :=
  if m.timeout_timer ≠ 0 then
    let m1 := { m with timeout_timer := m.timeout_timer - 1 }
    if m1.timeout_timer = 0 then push EVENT_TIMEOUT m1 else m1
  else m

/-- Source function `socket_closed_listener`: the socket-closed notification. -/
def socket_closed_listener (m : Module) : Module :=
  push EVENT_SOCKET_CLOSED m

/-- Source function `platform_specific_error_code_listener`. -/
def platform_specific_error_code_listener (error_code : Int) (m : Module) : Module :=
  { m with platform_specific_error_code := error_code }

/-- Source function `set_ethernet_communication_module_error`. -/
def set_ethernet_communication_module_error
    (deps : ethernet_communication_module_dependencies_t)
    (error_type : ethernet_communication_module_error_type_t) (state : Nat)
    (m : Module) : Module :=
  if m.ethernet_communication_module_data.error = 0 then
    { m with ethernet_communication_module_data :=
        { error := deps.error_value error_type ||| state,
          platform_specific_error_code := m.platform_specific_error_code } }
  else m

/-- The first byte `*server_ip` of the configured address, a C string: `0` when
the string is empty. -/
def first_byte : List Nat → Nat
  | [] => 0
  | b :: _ => b

/-- Source function `connection_parameters_set`: `*server_ip != 0 && server_port != 0`. -/
def connection_parameters_set (m : Module) : Bool :=
  first_byte m.server_ip != 0 && m.server_port != 0

/-- The `memset` of the operation record to zero. -/
def zero_data : ethernet_communication_module_data_t :=
  { error := 0, platform_specific_error_code := 0 }

/-- The store `*received_data_size = value` into the caller's `uint16_t`. -/
def store_received_data_size (value : Nat) (m : Module) : Module :=
  { m with memory := Function.update m.memory m.received_data_size (value % 65536) }

/-- The caller's received length, `*received_data_size`. -/
def out_len (m : Module) : Nat := m.memory m.received_data_size

/-- The call `ethernet_communication_module_dependencies.open_socket(server_ip, server_port)`. -/
def call_open_socket (deps : ethernet_communication_module_dependencies_t) (m : Module) :
    Int × Module :=
  (deps.open_socket m.open_socket_calls m.server_ip m.server_port,
   { m with
      open_socket_calls := m.open_socket_calls + 1,
      adapter_log := m.adapter_log ++ [Call.open_socket m.server_ip m.server_port] })

/-- The call `ethernet_communication_module_dependencies.send(open_socket_id, data, data_size)`. -/
def call_send (deps : ethernet_communication_module_dependencies_t) (m : Module) :
    Int × Module :=
  (deps.send m.send_calls m.open_socket_id m.data m.data_size,
   { m with
      send_calls := m.send_calls + 1,
      adapter_log := m.adapter_log ++ [Call.send m.open_socket_id m.data m.data_size] })

/-- The call `ethernet_communication_module_dependencies.receive(open_socket_id, buffer, buffer_size)`. -/
def call_receive (deps : ethernet_communication_module_dependencies_t) (m : Module) :
    Int × Module :=
  (deps.receive m.receive_calls m.open_socket_id m.buffer m.buffer_size,
   { m with
      receive_calls := m.receive_calls + 1,
      adapter_log := m.adapter_log ++ [Call.receive m.open_socket_id m.buffer m.buffer_size] })

/-- The call `ethernet_communication_module_dependencies.close_socket(open_socket_id)`. -/
def call_close_socket (deps : ethernet_communication_module_dependencies_t) (m : Module) :
    Bool × Module :=
  (deps.close_socket m.close_socket_calls m.open_socket_id,
   { m with
      close_socket_calls := m.close_socket_calls + 1,
      adapter_log := m.adapter_log ++ [Call.close_socket m.open_socket_id] })

/-- Source function `send_command_response_string`, recorded in the adapter log. -/
def send_command_response_string (m : Module) : Module :=
  { m with adapter_log := m.adapter_log ++ [Call.send_response] }

/-! ## State handlers

Every handler takes the function `transition` it calls (the engine, which in
turn calls handlers), the state it is invoked on and the event, and returns
the handled flag and the new module state; `none` means that the nested
transition did not return. -/

/-- Source function `ethernet_communication_module_handler`, the handler of the root. -/
def ethernet_communication_module_handler (event : event_t) (m : Module) :
    Option (Bool × Module) :=
  match event with
  | EVENT_ENTERING_STATE => some (true, m)
  | EVENT_LEAVING_STATE => some (false, m)
  | _ => some (true, m)

/-- Source function `state_socket_closed`. -/
def state_socket_closed (deps : ethernet_communication_module_dependencies_t)
    (transition : ethernet_communication_module_states_t → Module → Option Module)
    (state : ethernet_communication_module_states_t) (event : event_t) (m : Module) :
    Option (Bool × Module) :=
  match event with
  | EVENT_ENTERING_STATE => some (true, m)
  | EVENT_SEND =>
    if connection_parameters_set m then
      (transition STATE_OPENING_SOCKET (push EVENT_SEND m)).map (fun m1 => (true, m1))
    else
      some (true, set_ethernet_communication_module_error deps ETHERNET_PARAMETERS_MISSING
        (state_id state) m)
  | EVENT_RECEIVE =>
    if connection_parameters_set m then
      (transition STATE_OPENING_SOCKET (push EVENT_RECEIVE m)).map (fun m1 => (true, m1))
    else
      some (true, set_ethernet_communication_module_error deps ETHERNET_PARAMETERS_MISSING
        (state_id state) m)
  | EVENT_LEAVING_STATE => some (false, m)
  | _ => some (false, m)

/-- Source function `state_opening_socket`; the `static uint8_t open_socket_retries`
is the field of the same name. -/
def state_opening_socket (deps : ethernet_communication_module_dependencies_t)
    (transition : ethernet_communication_module_states_t → Module → Option Module)
    (state : ethernet_communication_module_states_t) (event : event_t) (m : Module) :
    Option (Bool × Module) :=
  match event with
  | EVENT_ENTERING_STATE =>
    let m1 := send_command_response_string m
    let m2 := { m1 with open_socket_retries := 0 }
    some (true, push EVENT_OPEN_SOCKET m2)
  | EVENT_OPEN_SOCKET =>
    let r := call_open_socket deps m
    let m1 := { r.2 with open_socket_id := r.1 }
    if 0 ≤ r.1 then
      (transition STATE_SOCKET_OPENED m1).map (fun m2 => (true, m2))
    else
      let m2 := { m1 with open_socket_retries := (m1.open_socket_retries + 1) % 256 }
      if m2.open_socket_retries = OPEN_SOCKET_MAX_RETRIES then
        let m3 := set_ethernet_communication_module_error deps ETHERNET_OPERATION_FAILED
          (state_id state) m2
        (transition STATE_SOCKET_CLOSED (flush m3)).map (fun m4 => (true, m4))
      else
        some (true, push EVENT_OPEN_SOCKET m2)
  | EVENT_SEND => some (true, push EVENT_SEND m)
  | EVENT_RECEIVE => some (true, push EVENT_RECEIVE m)
  | EVENT_LEAVING_STATE => some (false, m)
  | _ => some (false, m)

/-- Source function `state_socket_opened`. -/
def state_socket_opened (deps : ethernet_communication_module_dependencies_t)
    (transition : ethernet_communication_module_states_t → Module → Option Module)
    (state : ethernet_communication_module_states_t) (event : event_t) (m : Module) :
    Option (Bool × Module) :=
  match event with
  | EVENT_ENTERING_STATE =>
    some (true, { m with states_current_state := Function.update m.states_current_state state none })
  | EVENT_SEND => (transition STATE_SEND m).map (fun m1 => (true, m1))
  | EVENT_RECEIVE => (transition STATE_RECEIVE m).map (fun m1 => (true, m1))
  | EVENT_CLOSE_SOCKET => (transition STATE_CLOSING_SOCKET m).map (fun m1 => (true, m1))
  | EVENT_SOCKET_CLOSED =>
    let m1 := set_ethernet_communication_module_error deps ETHERNET_SOCKET_CLOSED
      (state_id state) m
    (transition STATE_SOCKET_CLOSED (flush m1)).map (fun m2 => (true, m2))
  | EVENT_LEAVING_STATE => some (true, m)
  | _ => some (false, m)

/-- Source function `state_send`. -/
def state_send (deps : ethernet_communication_module_dependencies_t)
    (transition : ethernet_communication_module_states_t → Module → Option Module)
    (state : ethernet_communication_module_states_t) (event : event_t) (m : Module) :
    Option (Bool × Module) :=
  match event with
  | EVENT_ENTERING_STATE =>
    let r := call_send deps m
    if r.1 = (r.2.data_size : Int) then
      (transition STATE_SOCKET_OPENED r.2).map (fun m1 => (true, m1))
    else
      let m1 := set_ethernet_communication_module_error deps ETHERNET_OPERATION_FAILED
        (state_id state) r.2
      (transition STATE_CLOSING_SOCKET (flush m1)).map (fun m2 => (true, m2))
  | EVENT_LEAVING_STATE => some (false, m)
  | _ => some (false, m)

/-- Source function `state_receive`. -/
def state_receive (deps : ethernet_communication_module_dependencies_t)
    (transition : ethernet_communication_module_states_t → Module → Option Module)
    (state : ethernet_communication_module_states_t) (event : event_t) (m : Module) :
    Option (Bool × Module) :=
  match event with
  | EVENT_ENTERING_STATE =>
    some (true, push EVENT_RECEIVE (schedule_timeout RECEIVE_TIMEOUT m))
  | EVENT_RECEIVE =>
    let r := call_receive deps m
    if 0 < r.1 then
      (transition STATE_SOCKET_OPENED (store_received_data_size r.1.toNat r.2)).map
        (fun m1 => (true, m1))
    else if r.1 = 0 then
      some (true, push EVENT_RECEIVE (store_received_data_size 0 r.2))
    else
      let m1 := store_received_data_size 0 r.2
      let m2 := set_ethernet_communication_module_error deps ETHERNET_OPERATION_FAILED
        (state_id state) m1
      (transition STATE_CLOSING_SOCKET (flush m2)).map (fun m3 => (true, m3))
  | EVENT_SOCKET_CLOSED =>
    let m1 := set_ethernet_communication_module_error deps ETHERNET_SOCKET_CLOSED
      (state_id state) m
    (transition STATE_SOCKET_CLOSED (flush m1)).map (fun m2 => (true, m2))
  | EVENT_TIMEOUT => (transition STATE_SOCKET_OPENED m).map (fun m1 => (true, m1))
  | EVENT_LEAVING_STATE => some (false, schedule_timeout 0 m)
  | _ => some (false, m)

/-- Source function `state_closing_socket`. -/
def state_closing_socket (deps : ethernet_communication_module_dependencies_t)
    (transition : ethernet_communication_module_states_t → Module → Option Module)
    (state : ethernet_communication_module_states_t) (event : event_t) (m : Module) :
    Option (Bool × Module) :=
  match event with
  | EVENT_ENTERING_STATE =>
    let r := call_close_socket deps m
    if r.1 then
      (transition STATE_SOCKET_CLOSED { r.2 with open_socket_id := -1 }).map
        (fun m1 => (true, m1))
    else
      let m1 := set_ethernet_communication_module_error deps ETHERNET_OPERATION_FAILED
        (state_id state) r.2
      (transition STATE_SOCKET_CLOSED (flush m1)).map (fun m2 => (true, m2))
  | EVENT_LEAVING_STATE => some (false, m)
  | _ => some (true, m)

/-- The `handler` pointers registered by `init_ethernet_communication_module`. -/
def handler (deps : ethernet_communication_module_dependencies_t)
    (transition : ethernet_communication_module_states_t → Module → Option Module)
    (node : Node) (event : event_t) (m : Module) : Option (Bool × Module) :=
  match node with
  | none => ethernet_communication_module_handler event m
  | some STATE_SOCKET_CLOSED => state_socket_closed deps transition STATE_SOCKET_CLOSED event m
  | some STATE_OPENING_SOCKET => state_opening_socket deps transition STATE_OPENING_SOCKET event m
  | some STATE_SOCKET_OPENED => state_socket_opened deps transition STATE_SOCKET_OPENED event m
  | some STATE_SEND => state_send deps transition STATE_SEND event m
  | some STATE_RECEIVE => state_receive deps transition STATE_RECEIVE event m
  | some STATE_CLOSING_SOCKET => state_closing_socket deps transition STATE_CLOSING_SOCKET event m

/-! ## The state machine engine -/

/-- The `current_state` link of a node. -/
def current_state (m : Module) : Node → Node
  | none => m.state_machine_current_state
  | some s => m.states_current_state s

/-- Assignment to the `current_state` link of a node. -/
def set_current_state (node : Node) (child : Node) (m : Module) : Module :=
  match node with
  | none => { m with state_machine_current_state := child }
  | some s => { m with states_current_state := Function.update m.states_current_state s child }

/-- The walk `while(state->current_state != -1) state = &states[state->current_state]`
from a node, collecting the states it visits (root side first).  The walk is
bounded; `none` means that it did not end within the bound. -/
def active_path_from (m : Module) : Nat → Node → Option (List ethernet_communication_module_states_t)
  | 0, _ => none
  | fuel + 1, node =>
    match current_state m node with
    | none => some []
    | some child => (active_path_from m fuel (some child)).map (fun rest => child :: rest)

/-- The currently active path below the root.  Seven steps suffice for every
acyclic configuration of the seven nodes. -/
def active_path (m : Module) : Option (List ethernet_communication_module_states_t) :=
  active_path_from m 7 none

/-- The deepest currently active node, the one named by
`get_ethernet_communication_module_status`. -/
def active_leaf (m : Module) : Option Node :=
  (active_path m).map (fun path => path.getLast?)

/-- The states from a state up to the root (the root excluded), following `parent`. -/
def path_to_root : Nat → ethernet_communication_module_states_t →
    List ethernet_communication_module_states_t
  | 0, _ => []
  | fuel + 1, s =>
    match parent s with
    | none => [s]
    | some p => s :: path_to_root fuel p

/-- The root-to-leaf path of a target state (the root excluded). -/
def target_path (target : ethernet_communication_module_states_t) :
    List ethernet_communication_module_states_t :=
  (path_to_root 6 target).reverse

/-- Length of the common prefix of two paths. -/
def shared_length : List ethernet_communication_module_states_t →
    List ethernet_communication_module_states_t → Nat
  | a :: as, b :: bs => if a = b then shared_length as bs + 1 else 0
  | _, _ => 0

/-- One invocation of a handler by the engine, recorded in the dispatch log. -/
def invoke (h : Node → event_t → Module → Option (Bool × Module))
    (node : Node) (event : event_t) (m : Module) : Option (Bool × Module) :=
  h node event { m with dispatch_log := m.dispatch_log ++ [(node, event)] }

/-- Emission of a pseudo-event to each state of a list, in order; the handled
flag is not used. -/
def emit (h : Node → event_t → Module → Option (Bool × Module)) (event : event_t) :
    List ethernet_communication_module_states_t → Module → Option Module
  | [], m => some m
  | s :: rest, m =>
    match invoke h (some s) event m with
    | none => none
    | some r => emit h event rest r.2

/-- Update of the active-child links along a root-to-leaf path: the link of
each node of the path is set to its successor on the path. -/
def set_links : Node → List ethernet_communication_module_states_t → Module → Module
  | _, [], m => m
  | node, s :: rest, m => set_links (some s) rest (set_current_state node (some s) m)

/-- Modelled from the spec: `state_machine_transition` of the missing
`state_machine.c`, for a given handler table.  The target's root-to-leaf path
is compared with the active path; the leaving-state event goes to the active
states below the lowest common ancestor, leaf side first; the active-child
links are set along the target's path; the entering-state event goes to the
states of the target's path below the common ancestor, root side first.  The
common ancestor is a proper ancestor of the target, so the target itself is
always entered: the rows `Sending -> Opened` and `Receiving -> Opened` of the
transition table end with `Opened` as the active leaf, which takes the entry
action `clear active child` of `Opened`. -/
def transition_with (h : Node → event_t → Module → Option (Bool × Module))
    (target : ethernet_communication_module_states_t) (m : Module) : Option Module :=
  match active_path m with
  | none => none
  | some active =>
    let path := target_path target
    let k := shared_length active path.dropLast
    match emit h EVENT_LEAVING_STATE (active.drop k).reverse m with
    | none => none
    | some m1 => emit h EVENT_ENTERING_STATE (path.drop k) (set_links none path m1)

/-- Modelled from the spec: the dispatch of `state_machine_process_event` of the
missing `state_machine.c` along a chain of nodes (leaf side first): each
handler is invoked until one reports the event as handled. -/
def bubble (h : Node → event_t → Module → Option (Bool × Module)) (event : event_t) :
    List Node → Module → Option Module
  | [], m => some m
  | node :: rest, m =>
    match invoke h node event m with
    | none => none
    | some (true, m1) => some m1
    | some (false, m1) => bubble h event rest m1

/-- The chain from a node up to the root, the root included. -/
def chain_to_root : Node → List Node
  | none => [none]
  | some s => (path_to_root 6 s).map some ++ [none]

/-- Modelled from the spec: `state_machine_process_event` of the missing
`state_machine.c`, for a given handler table.  Dispatch begins at the deepest
currently active state and walks upward via the parent links. -/
def process_event_with (h : Node → event_t → Module → Option (Bool × Module))
    (event : event_t) (m : Module) : Option Module :=
  match active_leaf m with
  | none => none
  | some leaf => bubble h event (chain_to_root leaf) m

/-- Source function `transition` (the engine's `state_machine_transition` on the
handlers of this module).  Handlers call it while they run, so the definition
is by recursion on a bound of the nesting depth of transitions; `none` means
that the bound was reached. -/
def transition (deps : ethernet_communication_module_dependencies_t) :
    Nat → ethernet_communication_module_states_t → Module → Option Module
  | 0, _, _ => none
  | fuel + 1, target, m => transition_with (handler deps (transition deps fuel)) target m

/-- The engine's `state_machine_process_event(states, &state_machine, &event)` on
the handlers of this module. -/
def state_machine_process_event (deps : ethernet_communication_module_dependencies_t)
    (fuel : Nat) (event : event_t) (m : Module) : Option Module :=
  process_event_with (handler deps (transition deps fuel)) event m

/-- Source function `process_event`, the polling handle. -/
def process_event (deps : ethernet_communication_module_dependencies_t)
    (fuel : Nat) (m : Module) : Option (Bool × Module) :=
  match pop_event m.events_buffer with
  | some (event, rest) =>
    (state_machine_process_event deps fuel event { m with events_buffer := rest }).map
      (fun m1 => (true, m1))
  | none => some (false, m)

/-! ## Public operations -/

/-- Source function `ethernet_communication_module_send`. -/
def ethernet_communication_module_send (data_in : Nat) (data_in_size : Nat) (m : Module) :
    Module :=
  push EVENT_SEND
    { m with data := data_in, data_size := data_in_size,
             ethernet_communication_module_data := zero_data }

/-- Source function `ethernet_communication_module_receive`. -/
def ethernet_communication_module_receive (buffer_out : Nat) (buffer_out_size : Nat)
    (received_data_size_out : Nat) (m : Module) : Module :=
  push EVENT_RECEIVE
    { m with buffer := buffer_out, buffer_size := buffer_out_size,
             received_data_size := received_data_size_out,
             ethernet_communication_module_data := zero_data }

/-- Source function `ethernet_communication_module_close_socket`. -/
def ethernet_communication_module_close_socket (m : Module) : Module :=
  push EVENT_CLOSE_SOCKET { m with ethernet_communication_module_data := zero_data }

/-- The caller's loop `while (handle()) {}` with a bound on the number of
invocations: the number of events processed before the handle reports no
event, and the module state at that point; `none` when the bound is reached or
an invocation does not return. -/
def poll (deps : ethernet_communication_module_dependencies_t) (fuel : Nat) :
    Nat → Module → Option (Nat × Module)
  | 0, _ => none
  | bound + 1, m =>
    match process_event deps fuel m with
    | none => none
    | some (false, m1) => some (0, m1)
    | some (true, m1) => (poll deps fuel bound m1).map (fun r => (r.1 + 1, r.2))

/-! ## Initialisation -/

/-- The static initialisers of the file-scope variables of the C file, for a
given configuration (`server_ip`, `server_port`) and caller memory. -/
def power_on (server_ip : List Nat) (server_port : Nat) (memory : Nat → Nat) : Module :=
  { state_machine_current_state := none,
    states_current_state := fun _ => none,
    events_buffer := [],
    data := 0,
    data_size := 0,
    buffer := 0,
    buffer_size := 0,
    received_data_size := 0,
    open_socket_id := -1,
    timeout_timer := 0,
    ethernet_communication_module_data := zero_data,
    platform_specific_error_code := 0,
    open_socket_retries := 0,
    server_ip := server_ip,
    server_port := server_port,
    memory := memory,
    open_socket_calls := 0,
    send_calls := 0,
    receive_calls := 0,
    close_socket_calls := 0,
    adapter_log := [],
    dispatch_log := [] }

/-- Source function `init_ethernet_communication_module`: the queue is
initialised empty, the root gets `current_state = STATE_SOCKET_CLOSED`, every
state is registered with `current_state = -1`, and the machine makes the
transition to `STATE_SOCKET_CLOSED`. -/
def init_ethernet_communication_module (deps : ethernet_communication_module_dependencies_t)
    (fuel : Nat) (m : Module) : Option Module :=
  transition deps fuel STATE_SOCKET_CLOSED
    { m with events_buffer := [],
             state_machine_current_state := some STATE_SOCKET_CLOSED,
             states_current_state := fun _ => none }

/-! ## Configurations and runs -/

/-- The seven nodes of the state tree. -/
def all_nodes : List Node :=
  [none, some STATE_SOCKET_CLOSED, some STATE_OPENING_SOCKET, some STATE_SOCKET_OPENED,
   some STATE_SEND, some STATE_RECEIVE, some STATE_CLOSING_SOCKET]

/-- The tree invariant of the active-child links: the link of every node is
empty or names a child of that node. -/
def links_well_formed (m : Module) : Bool :=
  all_nodes.all (fun node =>
    match current_state m node with
    | none => true
    | some child => parent child == node)

/-- What can happen to the module between initialisation and a later moment:
the three public operations, one invocation of the polling handle, and the
three asynchronous signals of the platform. -/
inductive Action where
  | send (data_in : Nat) (data_in_size : Nat)
  | receive (buffer_out : Nat) (buffer_out_size : Nat) (received_data_size_out : Nat)
  | close_socket
  | poll
  | tick
  | socket_closed
  | error_code (code : Int)
  deriving DecidableEq, Repr

/-- Whether an action is a call of a public operation. -/
def Action.is_public : Action → Bool
  | Action.send _ _ => true
  | Action.receive _ _ _ => true
  | Action.close_socket => true
  | _ => false

/-- Effect of one action. -/
def perform (deps : ethernet_communication_module_dependencies_t) (fuel : Nat) :
    Action → Module → Option Module
  | Action.send d n, m => some (ethernet_communication_module_send d n m)
  | Action.receive b cap out, m => some (ethernet_communication_module_receive b cap out m)
  | Action.close_socket, m => some (ethernet_communication_module_close_socket m)
  | Action.poll, m => (process_event deps fuel m).map (fun r => r.2)
  | Action.tick, m => some (second_expired_listener m)
  | Action.socket_closed, m => some (socket_closed_listener m)
  | Action.error_code code, m => some (platform_specific_error_code_listener code m)

/-- Effect of a sequence of actions, first action first. -/
def run (deps : ethernet_communication_module_dependencies_t) (fuel : Nat) :
    List Action → Module → Option Module
  | [], m => some m
  | a :: rest, m =>
    match perform deps fuel a m with
    | none => none
    | some m1 => run deps fuel rest m1

/-- A sample adapter: `open_socket` always returns `open_result`, `send` returns
the requested size when `full_write` holds and one byte less otherwise,
`receive` returns `0` on its first three calls and `4` afterwards,
`close_socket` returns `close_result`; the error kinds have the sample values
`0x10`, `0x20`, `0x30`. -/
def sample_dependencies (open_result : Int) (full_write : Bool) (close_result : Bool) :
    ethernet_communication_module_dependencies_t :=
  { open_socket := fun _ _ _ => open_result,
    send := fun _ _ _ size => if full_write then (size : Int) else (size : Int) - 1,
    receive := fun i _ _ _ => if i < 3 then 0 else 4,
    close_socket := fun _ _ => close_result,
    error_value := fun e =>
      match e with
      | ETHERNET_PARAMETERS_MISSING => 16
      | ETHERNET_OPERATION_FAILED => 32
      | ETHERNET_SOCKET_CLOSED => 48 }

/-- A sample configuration resting in a top-level state, with the given child
link of `STATE_SOCKET_OPENED`, address, port and queue; every cell of the
caller memory holds `7`. -/
def sample_module (top : ethernet_communication_module_states_t) (opened_child : Node)
    (server_ip : List Nat) (server_port : Nat) (events : List event_t) : Module :=
  { power_on server_ip server_port (fun _ => 7) with
    state_machine_current_state := some top,
    states_current_state := fun s => if s = STATE_SOCKET_OPENED then opened_child else none,
    events_buffer := events,
    open_socket_id := 0 }

/-- A run of the module from initialisation: a receive into the cell at
address 300 is polled into Receiving, three ticks queue a Timeout behind the
pending Receive, one more attempt returns no byte, and the caller then issues a
new receive whose length cell is at address 301. -/
def stale_length_run : List Action :=
  [Action.receive 200 64 300, Action.poll, Action.poll, Action.poll, Action.poll,
   Action.tick, Action.tick, Action.tick, Action.poll, Action.receive 200 64 301]

/-- The latch relation between an earlier and a later value of the operation
record: the record is unchanged, or it was empty and has become non-empty. -/
def latched (r r1 : ethernet_communication_module_data_t) : Prop :=
  r1 = r ∨ (r.error = 0 ∧ r1.error ≠ 0)

/-- The targets of the transitions that the handler of a node may request on
an event, read off the `transition(...)` calls of the handlers. -/
def requested_targets : Node → event_t → List ethernet_communication_module_states_t
  | some STATE_SOCKET_CLOSED, EVENT_SEND => [STATE_OPENING_SOCKET]
  | some STATE_SOCKET_CLOSED, EVENT_RECEIVE => [STATE_OPENING_SOCKET]
  | some STATE_OPENING_SOCKET, EVENT_OPEN_SOCKET => [STATE_SOCKET_OPENED, STATE_SOCKET_CLOSED]
  | some STATE_SOCKET_OPENED, EVENT_SEND => [STATE_SEND]
  | some STATE_SOCKET_OPENED, EVENT_RECEIVE => [STATE_RECEIVE]
  | some STATE_SOCKET_OPENED, EVENT_CLOSE_SOCKET => [STATE_CLOSING_SOCKET]
  | some STATE_SOCKET_OPENED, EVENT_SOCKET_CLOSED => [STATE_SOCKET_CLOSED]
  | some STATE_SEND, EVENT_ENTERING_STATE => [STATE_SOCKET_OPENED, STATE_CLOSING_SOCKET]
  | some STATE_RECEIVE, EVENT_RECEIVE => [STATE_SOCKET_OPENED, STATE_CLOSING_SOCKET]
  | some STATE_RECEIVE, EVENT_SOCKET_CLOSED => [STATE_SOCKET_CLOSED]
  | some STATE_RECEIVE, EVENT_TIMEOUT => [STATE_SOCKET_OPENED]
  | some STATE_CLOSING_SOCKET, EVENT_ENTERING_STATE => [STATE_SOCKET_CLOSED]
  | _, _ => []

/-- Nesting depth of a transition to a target: entering Closing requests a
transition to Closed, entering Sending one to Opened or to Closing; entering
the other states requests none. -/
def nesting_rank : ethernet_communication_module_states_t → Nat
  | STATE_SEND => 3
  | STATE_CLOSING_SOCKET => 2
  | _ => 1

/-- Source function `init_events_buffer`: the queue starts empty, with capacity
`EVENTS_BUFFER_SIZE` and the drop-oldest policy of `add_event_type`. -/
def init_events_buffer : List event_t := []

/-- An operation on the event queue. -/
inductive queue_op where
  | push (type : event_t)
  | pop
  | clear
  deriving DecidableEq, Repr

/-- Effect of one queue operation; a pop on an empty queue leaves it empty. -/
def apply_queue_op : queue_op → List event_t → List event_t
  | queue_op.push type, q => add_event_type q type
  | queue_op.pop, q =>
    match pop_event q with
    | none => q
    | some r => r.2
  | queue_op.clear, q => circular_buffer_clear q

/-- Effect of a sequence of queue operations, first operation first. -/
def apply_queue_ops : List queue_op → List event_t → List event_t
  | [], q => q
  | op :: rest, q => apply_queue_ops rest (apply_queue_op op q)

/-- Push of a list of records, first record first. -/
def push_events (q : List event_t) (types : List event_t) : List event_t :=
  types.foldl add_event_type q

/-- The records returned by successive pops, in the order returned, until the
queue signals empty or `n` pops are done. -/
def pop_events : Nat → List event_t → List event_t
  | 0, _ => []
  | n + 1, q =>
    match pop_event q with
    | none => []
    | some r => r.1 :: pop_events n r.2

/-- Whether a queue holds none of the two pseudo-events of the engine. -/
def no_pseudo_events (q : List event_t) : Bool :=
  q.all (fun e => e != EVENT_ENTERING_STATE && e != EVENT_LEAVING_STATE)

/-- A run of actions that stops as soon as the active leaf is no longer
Opening: what is left of one sojourn in Opening. -/
def run_in_opening (deps : ethernet_communication_module_dependencies_t) (fuel : Nat) :
    List Action → Module → Option Module
  | [], m => some m
  | a :: rest, m =>
    if active_leaf m = some (some STATE_OPENING_SOCKET) then
      match perform deps fuel a m with
      | none => none
      | some m1 => run_in_opening deps fuel rest m1
    else some m

/-- The tick signal repeated `n` times. -/
def ticks : Nat → Module → Module
  | 0, m => m
  | n + 1, m => ticks n (second_expired_listener m)

/-- A sojourn in Opening that began when `open_socket` had been called `c0`
times is still going on: Opening is the active leaf, the queue holds no
pseudo-event, the retry counter is below the bound, and the calls of
`open_socket` made since the sojourn began are as many as the retry counter
says and all returned a negative value. -/
def in_opening_sojourn (deps : ethernet_communication_module_dependencies_t) (c0 : Nat)
    (m : Module) : Prop :=
  m.state_machine_current_state = some STATE_OPENING_SOCKET ∧
  m.states_current_state STATE_OPENING_SOCKET = none ∧
  m.states_current_state STATE_SOCKET_CLOSED = none ∧
  no_pseudo_events m.events_buffer = true ∧
  m.open_socket_retries < OPEN_SOCKET_MAX_RETRIES ∧
  m.open_socket_calls = c0 + m.open_socket_retries ∧
  ∀ i, i < m.open_socket_retries →
    deps.open_socket (c0 + i) m.server_ip m.server_port < 0

/-- A sojourn in Opening that began when `open_socket` had been called `c0`
times has ended in Opened: the last of at most three calls returned a
non-negative value, the calls before it a negative one. -/
def opening_sojourn_ended_in_opened (deps : ethernet_communication_module_dependencies_t)
    (c0 : Nat) (m : Module) : Prop :=
  active_leaf m = some (some STATE_SOCKET_OPENED) ∧
  ∃ j, j < OPEN_SOCKET_MAX_RETRIES ∧ m.open_socket_calls = c0 + j + 1 ∧
    (∀ i, i < j → deps.open_socket (c0 + i) m.server_ip m.server_port < 0) ∧
    0 ≤ deps.open_socket (c0 + j) m.server_ip m.server_port

/-- A sojourn in Opening that began when `open_socket` had been called `c0`
times has ended in Closed: exactly three calls were made and all returned a
negative value. -/
def opening_sojourn_ended_in_closed (deps : ethernet_communication_module_dependencies_t)
    (c0 : Nat) (m : Module) : Prop :=
  active_leaf m = some (some STATE_SOCKET_CLOSED) ∧
  m.open_socket_calls = c0 + OPEN_SOCKET_MAX_RETRIES ∧
  ∀ i, i < OPEN_SOCKET_MAX_RETRIES →
    deps.open_socket (c0 + i) m.server_ip m.server_port < 0

/-! ## Reachable configurations and the receive loop -/

/-- The invariant of the configurations between two invocations of the polling
handle: the active-child links form a path of the state tree, the root has an
active child, and the timeout timer runs only while the active leaf is
Receiving. -/
def settled (m : Module) : Prop :=
  links_well_formed m = true ∧ m.state_machine_current_state ≠ none ∧
    (m.timeout_timer ≠ 0 → active_leaf m = some (some STATE_RECEIVE))

/-- The configuration reached from the static initialisers by
`init_ethernet_communication_module` followed by a sequence of actions; `none`
when a step does not return within the bound. -/
def run_from_power_on (deps : ethernet_communication_module_dependencies_t) (fuel : Nat)
    (server_ip : List Nat) (server_port : Nat) (memory : Nat → Nat) (actions : List Action) :
    Option Module :=
  (init_ethernet_communication_module deps fuel (power_on server_ip server_port memory)).bind
    (run deps fuel actions)

/-- The configurations of the polling loop of a receive that never gets a byte.
The root's active child is Opened, the queue holds only Receive and Timeout
events and at least one Receive, and one of four cases holds: the active leaf is
Opened with the timer stopped and the queue not full; the active leaf is
Receiving with the timer stopped and the queue within its capacity; the active
leaf is Receiving with the queue not full; the active leaf is Receiving with
the queue within its capacity and a Timeout event at its head. -/
def receive_cycle (m : Module) : Prop :=
  m.state_machine_current_state = some STATE_SOCKET_OPENED ∧
  m.states_current_state STATE_RECEIVE = none ∧
  (∀ e ∈ m.events_buffer, e = EVENT_RECEIVE ∨ e = EVENT_TIMEOUT) ∧
  EVENT_RECEIVE ∈ m.events_buffer ∧
  ((m.states_current_state STATE_SOCKET_OPENED = none ∧ m.timeout_timer = 0 ∧
      m.events_buffer.length < EVENTS_BUFFER_SIZE) ∨
   (m.states_current_state STATE_SOCKET_OPENED = some STATE_RECEIVE ∧ m.timeout_timer = 0 ∧
      m.events_buffer.length ≤ EVENTS_BUFFER_SIZE) ∨
   (m.states_current_state STATE_SOCKET_OPENED = some STATE_RECEIVE ∧
      m.events_buffer.length < EVENTS_BUFFER_SIZE) ∨
   (m.states_current_state STATE_SOCKET_OPENED = some STATE_RECEIVE ∧
      m.events_buffer.length ≤ EVENTS_BUFFER_SIZE ∧
      m.events_buffer.head? = some EVENT_TIMEOUT))

/-- Whether an action queues no event other than a Timeout: an invocation of
the polling handle, a tick, or an error-code notification.  The public
operations and the socket-closed notification are the other actions. -/
def Action.is_passive : Action → Bool
  | Action.poll => true
  | Action.tick => true
  | Action.error_code _ => true
  | _ => false

/-- A run of the module from initialisation: a receive is polled into
Receiving, three ticks queue a Timeout behind the pending Receive, the caller
asks for the socket to be closed, and one more receive attempt returns no byte,
which leaves Timeout, CloseSocket and Receive queued in this order. -/
def close_before_receive_run : List Action :=
  [Action.receive 200 64 300, Action.poll, Action.poll, Action.poll, Action.poll,
   Action.tick, Action.tick, Action.tick, Action.close_socket, Action.poll]

/-- A run of the module from initialisation: a receive is polled into
Receiving, three ticks queue a Timeout behind the pending Receive, one more
receive attempt returns no byte, and the platform then signals that the socket
closed, which leaves Timeout, Receive and SocketClosed queued in this order. -/
def socket_closed_behind_receive_run : List Action :=
  [Action.receive 200 64 300, Action.poll, Action.poll, Action.poll, Action.poll,
   Action.tick, Action.tick, Action.tick, Action.poll, Action.socket_closed]

/-- A run of the module from initialisation: a receive is polled into
Receiving, three ticks queue a Timeout behind the pending Receive, one more
receive attempt returns no byte, and the caller then asks for the socket to be
closed, which leaves Timeout, Receive and CloseSocket queued in this order. -/
def close_behind_receive_run : List Action :=
  [Action.receive 200 64 300, Action.poll, Action.poll, Action.poll, Action.poll,
   Action.tick, Action.tick, Action.tick, Action.poll, Action.close_socket]

/-- A sample adapter whose `receive` never returns a byte and never fails;
`open_socket` and `send` succeed and `close_socket` returns `close_result`. -/
def silent_dependencies (close_result : Bool) : ethernet_communication_module_dependencies_t :=
  { sample_dependencies 0 true close_result with receive := fun _ _ _ _ => 0 }

/-! ## Active-child links -/

/-- Reading of the tree invariant link by link. -/
theorem wf_cases (m : Module) (h : links_well_formed m = true) :
    m.states_current_state STATE_SOCKET_CLOSED = none ∧
    m.states_current_state STATE_OPENING_SOCKET = none ∧
    m.states_current_state STATE_SEND = none ∧
    m.states_current_state STATE_RECEIVE = none ∧
    m.states_current_state STATE_CLOSING_SOCKET = none ∧
    (m.states_current_state STATE_SOCKET_OPENED = none ∨
     m.states_current_state STATE_SOCKET_OPENED = some STATE_SEND ∨
     m.states_current_state STATE_SOCKET_OPENED = some STATE_RECEIVE) ∧
    (m.state_machine_current_state = none ∨
     m.state_machine_current_state = some STATE_SOCKET_CLOSED ∨
     m.state_machine_current_state = some STATE_OPENING_SOCKET ∨
     m.state_machine_current_state = some STATE_SOCKET_OPENED ∨
     m.state_machine_current_state = some STATE_CLOSING_SOCKET) := by
  simp only [links_well_formed, all_nodes, List.all_cons, List.all_nil, Bool.and_true,
    Bool.and_eq_true, current_state] at h
  obtain ⟨h0, h1, h2, h3, h4, h5, h6⟩ := h
  refine ⟨?_, ?_, ?_, ?_, ?_, ?_, ?_⟩
  · cases hc : m.states_current_state STATE_SOCKET_CLOSED with
    | none => rfl
    | some c => rw [hc] at h1; cases c <;> simp [parent] at h1
  · cases hc : m.states_current_state STATE_OPENING_SOCKET with
    | none => rfl
    | some c => rw [hc] at h2; cases c <;> simp [parent] at h2
  · cases hc : m.states_current_state STATE_SEND with
    | none => rfl
    | some c => rw [hc] at h4; cases c <;> simp [parent] at h4
  · cases hc : m.states_current_state STATE_RECEIVE with
    | none => rfl
    | some c => rw [hc] at h5; cases c <;> simp [parent] at h5
  · cases hc : m.states_current_state STATE_CLOSING_SOCKET with
    | none => rfl
    | some c => rw [hc] at h6; cases c <;> simp [parent] at h6
  · cases hc : m.states_current_state STATE_SOCKET_OPENED with
    | none => simp
    | some c => rw [hc] at h3; cases c <;> simp [parent] at h3 ⊢
  · cases hc : m.state_machine_current_state with
    | none => simp
    | some c => rw [hc] at h0; cases c <;> simp [parent] at h0 ⊢

/-- The links of a well-formed configuration whose active leaf is a given state:
the active path is the root-to-leaf path of that state. -/
theorem leaf_links (m : Module) (h : links_well_formed m = true)
    (s : ethernet_communication_module_states_t) (hl : active_leaf m = some (some s)) :
    (parent s = none → m.state_machine_current_state = some s ∧ m.states_current_state s = none) ∧
    (parent s = some STATE_SOCKET_OPENED →
      m.state_machine_current_state = some STATE_SOCKET_OPENED ∧
      m.states_current_state STATE_SOCKET_OPENED = some s ∧ m.states_current_state s = none) := by
  obtain ⟨h1, h2, h3, h4, h5, h6, h7⟩ := wf_cases m h
  rcases h7 with h7 | h7 | h7 | h7 | h7
  · simp [active_leaf, active_path, active_path_from, current_state, h7] at hl
  · simp [active_leaf, active_path, active_path_from, current_state, h7, h1] at hl
    subst hl
    simp [parent, h7, h1]
  · simp [active_leaf, active_path, active_path_from, current_state, h7, h2] at hl
    subst hl
    simp [parent, h7, h2]
  · rcases h6 with h6 | h6 | h6 <;>
      simp [active_leaf, active_path, active_path_from, current_state, h7, h6, h3, h4] at hl <;>
      subst hl <;> simp [parent, h7, h6, h3, h4]
  · simp [active_leaf, active_path, active_path_from, current_state, h7, h5] at hl
    subst hl
    simp [parent, h7, h5]

/-! ## Operations issued while the socket is closed -/

/-- C1: a send or a receive issued while the active leaf is Closed, the queue
is empty and the address is empty or the port is zero: polling until the
handle reports no event processes exactly one event, leaves the record at
ParametersMissing combined with the id of Closed, never calls `open_socket`
(no adapter call at all), and leaves the active leaf Closed and the queue empty. -/
theorem parameters_missing_in_closed (deps : ethernet_communication_module_dependencies_t)
    (fuel bound : Nat) (m : Module) (d n b cap out : Nat)
    (hwf : links_well_formed m = true)
    (hleaf : active_leaf m = some (some STATE_SOCKET_CLOSED))
    (hq : m.events_buffer = [])
    (hparams : first_byte m.server_ip = 0 ∨ m.server_port = 0) :
    (∃ m1, poll deps fuel (bound + 2) (ethernet_communication_module_send d n m) = some (1, m1) ∧
      m1.ethernet_communication_module_data =
        { error := deps.error_value ETHERNET_PARAMETERS_MISSING ||| state_id STATE_SOCKET_CLOSED,
          platform_specific_error_code := m.platform_specific_error_code } ∧
      m1.open_socket_calls = m.open_socket_calls ∧
      m1.adapter_log = m.adapter_log ∧
      active_leaf m1 = some (some STATE_SOCKET_CLOSED) ∧
      m1.events_buffer = []) ∧
    (∃ m1, poll deps fuel (bound + 2) (ethernet_communication_module_receive b cap out m)
        = some (1, m1) ∧
      m1.ethernet_communication_module_data =
        { error := deps.error_value ETHERNET_PARAMETERS_MISSING ||| state_id STATE_SOCKET_CLOSED,
          platform_specific_error_code := m.platform_specific_error_code } ∧
      m1.open_socket_calls = m.open_socket_calls ∧
      m1.adapter_log = m.adapter_log ∧
      active_leaf m1 = some (some STATE_SOCKET_CLOSED) ∧
      m1.events_buffer = []) := by
  obtain ⟨hr, hc⟩ := (leaf_links m hwf _ hleaf).1 rfl
  constructor <;> rcases hparams with h | h <;>
  simp [poll, process_event, pop_event, ethernet_communication_module_send,
    ethernet_communication_module_receive, push, add_event_type,
    hq, EVENTS_BUFFER_SIZE, state_machine_process_event, process_event_with, active_leaf,
    active_path, active_path_from, current_state, hr, hc, chain_to_root, path_to_root, parent,
    bubble, invoke, handler, state_socket_closed, connection_parameters_set,
    set_ethernet_communication_module_error, zero_data, h]

/-- Witness of C1 on a closed sample configuration with an empty address and port 0. -/
theorem parameters_missing_in_closed_witness :
    links_well_formed (sample_module STATE_SOCKET_CLOSED none [] 0 []) = true ∧
    active_leaf (sample_module STATE_SOCKET_CLOSED none [] 0 []) = some (some STATE_SOCKET_CLOSED) ∧
    (∃ m1, poll (sample_dependencies (-1) true true) 3 2
        (ethernet_communication_module_send 100 5 (sample_module STATE_SOCKET_CLOSED none [] 0 []))
        = some (1, m1) ∧
      m1.ethernet_communication_module_data =
        { error := 16 ||| 0, platform_specific_error_code := 0 } ∧
      m1.adapter_log = [] ∧
      active_leaf m1 = some (some STATE_SOCKET_CLOSED) ∧
      m1.events_buffer = []) :=
  ⟨by decide, by decide,
   by
    obtain ⟨m1, h1, h2, _, h4, h5, h6⟩ :=
      (parameters_missing_in_closed (sample_dependencies (-1) true true) 3 0
        (sample_module STATE_SOCKET_CLOSED none [] 0 []) 100 5 200 64 300
        (by decide) (by decide) rfl (Or.inl rfl)).1
    exact ⟨m1, h1, h2, h4, h5, h6⟩⟩

/-- C2: a send or a receive issued while the active leaf is Closed with the
connection parameters configured and an empty queue, when `open_socket` returns
a negative value on each of its next three calls: polling reaches quiescence
after seven events with `open_socket` called exactly three times, the record at
OperationFailed combined with the id of Opening, the active leaf Closed and the
queue empty. -/
theorem open_fails_three_times (deps : ethernet_communication_module_dependencies_t)
    (fuel bound : Nat) (m : Module) (d n b cap out : Nat)
    (hfuel : 3 ≤ fuel)
    (hwf : links_well_formed m = true)
    (hleaf : active_leaf m = some (some STATE_SOCKET_CLOSED))
    (hq : m.events_buffer = [])
    (hip : first_byte m.server_ip ≠ 0) (hport : m.server_port ≠ 0)
    (hfail : ∀ i, i < 3 →
      deps.open_socket (m.open_socket_calls + i) m.server_ip m.server_port < 0) :
    (∃ m1, poll deps fuel (bound + 8) (ethernet_communication_module_send d n m) = some (7, m1) ∧
      m1.ethernet_communication_module_data =
        { error := deps.error_value ETHERNET_OPERATION_FAILED ||| state_id STATE_OPENING_SOCKET,
          platform_specific_error_code := m.platform_specific_error_code } ∧
      m1.open_socket_calls = m.open_socket_calls + 3 ∧
      m1.adapter_log = m.adapter_log ++
        [Call.send_response, Call.open_socket m.server_ip m.server_port,
         Call.open_socket m.server_ip m.server_port, Call.open_socket m.server_ip m.server_port] ∧
      active_leaf m1 = some (some STATE_SOCKET_CLOSED) ∧
      m1.events_buffer = []) ∧
    (∃ m1, poll deps fuel (bound + 8) (ethernet_communication_module_receive b cap out m)
        = some (7, m1) ∧
      m1.ethernet_communication_module_data =
        { error := deps.error_value ETHERNET_OPERATION_FAILED ||| state_id STATE_OPENING_SOCKET,
          platform_specific_error_code := m.platform_specific_error_code } ∧
      m1.open_socket_calls = m.open_socket_calls + 3 ∧
      m1.adapter_log = m.adapter_log ++
        [Call.send_response, Call.open_socket m.server_ip m.server_port,
         Call.open_socket m.server_ip m.server_port, Call.open_socket m.server_ip m.server_port] ∧
      active_leaf m1 = some (some STATE_SOCKET_CLOSED) ∧
      m1.events_buffer = []) := by
  obtain ⟨hr, hc⟩ := (leaf_links m hwf _ hleaf).1 rfl
  obtain ⟨h1, h2, h3, h4, h5, -, -⟩ := wf_cases m hwf
  obtain ⟨k, rfl⟩ : ∃ k, fuel = k + 3 := ⟨fuel - 3, by omega⟩
  have g0 := not_le.mpr (hfail 0 (by omega))
  have g1 := not_le.mpr (hfail 1 (by omega))
  have g2 := not_le.mpr (hfail 2 (by omega))
  simp only [Nat.add_zero] at g0
  constructor <;>
  simp [poll, process_event, pop_event, ethernet_communication_module_send,
    ethernet_communication_module_receive, push, add_event_type,
    hq, EVENTS_BUFFER_SIZE, state_machine_process_event, process_event_with, active_leaf,
    active_path, active_path_from, current_state, hr, chain_to_root, path_to_root, parent,
    bubble, invoke, handler, state_socket_closed, state_opening_socket, connection_parameters_set,
    set_ethernet_communication_module_error, zero_data, hip, hport, transition, transition_with,
    target_path, shared_length, emit, set_links, set_current_state, h1, h2,
    send_command_response_string, call_open_socket, g0, g1, g2, flush, circular_buffer_clear,
    OPEN_SOCKET_MAX_RETRIES, Nat.add_assoc]

/-- Witness of C2 on a closed sample configuration whose adapter never opens a socket. -/
theorem open_fails_three_times_witness :
    links_well_formed (sample_module STATE_SOCKET_CLOSED none [49] 80 []) = true ∧
    active_leaf (sample_module STATE_SOCKET_CLOSED none [49] 80 [])
      = some (some STATE_SOCKET_CLOSED) ∧
    (∃ m1, poll (sample_dependencies (-1) true true) 3 8
        (ethernet_communication_module_send 100 5 (sample_module STATE_SOCKET_CLOSED none [49] 80 []))
        = some (7, m1) ∧
      m1.ethernet_communication_module_data =
        { error := 32 ||| 1, platform_specific_error_code := 0 } ∧
      m1.open_socket_calls = 3 ∧
      active_leaf m1 = some (some STATE_SOCKET_CLOSED) ∧
      m1.events_buffer = []) :=
  ⟨by decide, by decide,
   by
    obtain ⟨m1, h1, h2, h3, _, h5, h6⟩ :=
      (open_fails_three_times (sample_dependencies (-1) true true) 3 0
        (sample_module STATE_SOCKET_CLOSED none [49] 80 []) 100 5 200 64 300
        (le_refl 3) (by decide) (by decide) rfl (by decide) (by decide)
        (fun _ _ => (by decide : (-1 : Int) < 0))).1
    exact ⟨m1, h1, h2, h3, h5, h6⟩⟩

/-! ## Operations issued while the socket is open -/

/-- C3: for every length `n`, `send(data, n)` issued while the active leaf is
Opened with an empty queue, with the adapter's write returning exactly `n`:
polling reaches quiescence after one event with an empty record, the active
leaf Opened (the child link of Opened is cleared), an empty queue and one write. -/
theorem send_in_opened (deps : ethernet_communication_module_dependencies_t)
    (fuel bound : Nat) (m : Module) (d n : Nat)
    (hfuel : 3 ≤ fuel)
    (hwf : links_well_formed m = true)
    (hleaf : active_leaf m = some (some STATE_SOCKET_OPENED))
    (hq : m.events_buffer = [])
    (hwrite : deps.send m.send_calls m.open_socket_id d n = (n : Int)) :
    ∃ m1, poll deps fuel (bound + 2) (ethernet_communication_module_send d n m) = some (1, m1) ∧
      m1.ethernet_communication_module_data = { error := 0, platform_specific_error_code := 0 } ∧
      active_leaf m1 = some (some STATE_SOCKET_OPENED) ∧
      m1.states_current_state STATE_SOCKET_OPENED = none ∧
      m1.events_buffer = [] ∧
      m1.adapter_log = m.adapter_log ++ [Call.send m.open_socket_id d n] := by
  obtain ⟨hr, hc⟩ := (leaf_links m hwf _ hleaf).1 rfl
  obtain ⟨h1, h2, h3, h4, h5, -, -⟩ := wf_cases m hwf
  obtain ⟨k, rfl⟩ : ∃ k, fuel = k + 3 := ⟨fuel - 3, by omega⟩
  simp [poll, process_event, pop_event, ethernet_communication_module_send, push, add_event_type,
    hq, EVENTS_BUFFER_SIZE, state_machine_process_event, process_event_with, active_leaf,
    active_path, active_path_from, current_state, hr, hc, chain_to_root, path_to_root, parent,
    bubble, invoke, handler, state_socket_opened, state_send,
    zero_data, transition, transition_with,
    target_path, shared_length, emit, set_links, set_current_state, h3,
    call_send, hwrite]

/-- Witness of C3: five bytes, the write returns 5. -/
theorem send_in_opened_witness :
    links_well_formed (sample_module STATE_SOCKET_OPENED none [49] 80 []) = true ∧
    active_leaf (sample_module STATE_SOCKET_OPENED none [49] 80 [])
      = some (some STATE_SOCKET_OPENED) ∧
    (sample_dependencies 0 true true).send 0 0 100 5 = 5 ∧
    (∃ m1, poll (sample_dependencies 0 true true) 3 2
        (ethernet_communication_module_send 100 5 (sample_module STATE_SOCKET_OPENED none [49] 80 []))
        = some (1, m1) ∧
      m1.ethernet_communication_module_data = { error := 0, platform_specific_error_code := 0 } ∧
      active_leaf m1 = some (some STATE_SOCKET_OPENED) ∧
      m1.events_buffer = []) :=
  ⟨by decide, by decide, by decide,
   by
    obtain ⟨m1, h1, h2, h3, _, h5, _⟩ :=
      send_in_opened (sample_dependencies 0 true true) 3 0
        (sample_module STATE_SOCKET_OPENED none [49] 80 []) 100 5
        (le_refl 3) (by decide) (by decide) rfl (by decide)
    exact ⟨m1, h1, h2, h3, h5⟩⟩

/-- One more invocation of the polling handle that processes an event. -/
theorem poll_step (deps : ethernet_communication_module_dependencies_t) (fuel bound : Nat)
    (m m1 : Module) (h : process_event deps fuel m = some (true, m1)) :
    poll deps fuel (bound + 1) m = (poll deps fuel bound m1).map (fun r => (r.1 + 1, r.2)) := by
  simp only [poll, h]

/-- One receive attempt in Receiving that returns no byte: the caller's length
is set to zero and the Receive event is queued again. -/
theorem receive_zero_step (deps : ethernet_communication_module_dependencies_t)
    (fuel : Nat) (m : Module)
    (hr : m.state_machine_current_state = some STATE_SOCKET_OPENED)
    (ho : m.states_current_state STATE_SOCKET_OPENED = some STATE_RECEIVE)
    (hc : m.states_current_state STATE_RECEIVE = none)
    (hq : m.events_buffer = [EVENT_RECEIVE])
    (h0 : deps.receive m.receive_calls m.open_socket_id m.buffer m.buffer_size = 0) :
    process_event deps fuel m = some (true,
      { m with
        memory := Function.update m.memory m.received_data_size 0,
        receive_calls := m.receive_calls + 1,
        adapter_log := m.adapter_log ++ [Call.receive m.open_socket_id m.buffer m.buffer_size],
        dispatch_log := m.dispatch_log ++ [(some STATE_RECEIVE, EVENT_RECEIVE)] }) := by
  simp [process_event, pop_event, push, add_event_type,
    hq, EVENTS_BUFFER_SIZE, state_machine_process_event, process_event_with, active_leaf,
    active_path, active_path_from, current_state, hr, ho, hc, chain_to_root, path_to_root, parent,
    bubble, invoke, handler, state_receive, call_receive, h0, store_received_data_size]

/-- The receive loop: in Receiving with only the Receive event queued, `k`
attempts without data followed by an attempt returning `c > 0` bytes lead to
quiescence in Opened after `k + 1` events, with the caller's length at `c`. -/
theorem receive_loop (deps : ethernet_communication_module_dependencies_t)
    (fuel bound c : Nat) (hfuel : 3 ≤ fuel) (hpos : 0 < c) (hlt : c < 65536) :
    ∀ (k : Nat) (m : Module),
      m.state_machine_current_state = some STATE_SOCKET_OPENED →
      m.states_current_state STATE_SOCKET_OPENED = some STATE_RECEIVE →
      m.states_current_state STATE_RECEIVE = none →
      m.events_buffer = [EVENT_RECEIVE] →
      (∀ i, i < k →
        deps.receive (m.receive_calls + i) m.open_socket_id m.buffer m.buffer_size = 0) →
      deps.receive (m.receive_calls + k) m.open_socket_id m.buffer m.buffer_size = (c : Int) →
      ∃ m1, poll deps fuel (bound + k + 2) m = some (k + 1, m1) ∧
        out_len m1 = c ∧
        m1.received_data_size = m.received_data_size ∧
        m1.ethernet_communication_module_data = m.ethernet_communication_module_data ∧
        active_leaf m1 = some (some STATE_SOCKET_OPENED) ∧
        m1.timeout_timer = 0 ∧
        m1.events_buffer = [] ∧
        m1.receive_calls = m.receive_calls + k + 1 := by
  obtain ⟨f, rfl⟩ : ∃ f, fuel = f + 3 := ⟨fuel - 3, by omega⟩
  intro k
  induction k with
  | zero =>
    intro m hr ho hc hq _ hdata
    have hpos2 : (0 : Int) < (c : Int) := by exact_mod_cast hpos
    simp only [Nat.add_zero] at hdata
    simp [poll, process_event, pop_event, push, add_event_type,
      hq, EVENTS_BUFFER_SIZE, state_machine_process_event, process_event_with, active_leaf,
      active_path, active_path_from, current_state, hr, ho, hc, chain_to_root, path_to_root,
      parent, bubble, invoke, handler, state_receive, state_socket_opened, call_receive, hdata,
      store_received_data_size, transition, transition_with, target_path, shared_length, emit,
      set_links, set_current_state, schedule_timeout, out_len, hpos, Nat.mod_eq_of_lt hlt, hpos2]
  | succ k ih =>
    intro m hr ho hc hq hzero hdata
    have h0 := hzero 0 (by omega)
    simp only [Nat.add_zero] at h0
    have hstep := receive_zero_step deps (f + 3) m hr ho hc hq h0
    obtain ⟨m1, hp, h1, h2, h3, h4, h5, h6, h7⟩ := ih
      { m with
        memory := Function.update m.memory m.received_data_size 0,
        receive_calls := m.receive_calls + 1,
        adapter_log := m.adapter_log ++ [Call.receive m.open_socket_id m.buffer m.buffer_size],
        dispatch_log := m.dispatch_log ++ [(some STATE_RECEIVE, EVENT_RECEIVE)] }
      hr ho hc hq
      (fun i hi => by
        have := hzero (i + 1) (by omega)
        simpa [Nat.add_assoc, Nat.add_comm 1 i] using this)
      (by simpa [Nat.add_assoc, Nat.add_comm 1 k] using hdata)
    refine ⟨m1, ?_, h1, h2, h3, h4, h5, h6, ?_⟩
    · show poll deps (f + 3) ((bound + k + 2) + 1) m = _
      rw [poll_step deps (f + 3) (bound + k + 2) m _ hstep, hp]
      rfl
    · simp only [h7]
      omega

/-- C4: a receive issued while the active leaf is Opened with an empty queue
and no asynchronous signal, when the adapter's receive returns 0 on its next
`k` calls and then `c` bytes with `0 < c < 65536`: polling reaches quiescence
after exactly `k + 2` events (the next invocation reports no event), the
caller's received length is `c`, the record is empty, the active leaf is Opened
and the timeout timer is 0. -/
theorem receive_after_zeros (deps : ethernet_communication_module_dependencies_t)
    (fuel bound : Nat) (m : Module) (b cap out k c : Nat)
    (hfuel : 3 ≤ fuel)
    (hwf : links_well_formed m = true)
    (hleaf : active_leaf m = some (some STATE_SOCKET_OPENED))
    (hq : m.events_buffer = [])
    (hpos : 0 < c) (hlt : c < 65536)
    (hzero : ∀ i, i < k → deps.receive (m.receive_calls + i) m.open_socket_id b cap = 0)
    (hdata : deps.receive (m.receive_calls + k) m.open_socket_id b cap = (c : Int)) :
    ∃ m1, poll deps fuel (bound + k + 3) (ethernet_communication_module_receive b cap out m)
        = some (k + 2, m1) ∧
      m1.received_data_size = out ∧
      out_len m1 = c ∧
      m1.ethernet_communication_module_data = { error := 0, platform_specific_error_code := 0 } ∧
      active_leaf m1 = some (some STATE_SOCKET_OPENED) ∧
      m1.timeout_timer = 0 ∧
      m1.events_buffer = [] ∧
      m1.receive_calls = m.receive_calls + k + 1 ∧
      process_event deps fuel m1 = some (false, m1) := by
  obtain ⟨hr, hc⟩ := (leaf_links m hwf _ hleaf).1 rfl
  obtain ⟨h1, h2, h3, h4, h5, -, -⟩ := wf_cases m hwf
  obtain ⟨f, rfl⟩ : ∃ f, fuel = f + 3 := ⟨fuel - 3, by omega⟩
  have hfirst : process_event deps (f + 3) (ethernet_communication_module_receive b cap out m)
      = some (true,
        { m with
          buffer := b, buffer_size := cap, received_data_size := out,
          ethernet_communication_module_data := zero_data,
          states_current_state :=
            Function.update m.states_current_state STATE_SOCKET_OPENED (some STATE_RECEIVE),
          timeout_timer := 3,
          events_buffer := [EVENT_RECEIVE],
          dispatch_log := m.dispatch_log ++
            [(some STATE_SOCKET_OPENED, EVENT_RECEIVE), (some STATE_RECEIVE, EVENT_ENTERING_STATE)] })
      := by
    simp [process_event, pop_event, ethernet_communication_module_receive, push, add_event_type,
      hq, EVENTS_BUFFER_SIZE, state_machine_process_event, process_event_with, active_leaf,
      active_path, active_path_from, current_state, hr, hc, chain_to_root, path_to_root, parent,
      bubble, invoke, handler, state_socket_opened, state_receive,
      zero_data, transition, transition_with, RECEIVE_TIMEOUT, schedule_timeout,
      target_path, shared_length, emit, set_links, set_current_state, h4]
  obtain ⟨m1, hp, g1, g2, g3, g4, g5, g6, g7⟩ := receive_loop deps (f + 3) bound c hfuel hpos hlt k
    { m with
      buffer := b, buffer_size := cap, received_data_size := out,
      ethernet_communication_module_data := zero_data,
      states_current_state :=
        Function.update m.states_current_state STATE_SOCKET_OPENED (some STATE_RECEIVE),
      timeout_timer := 3,
      events_buffer := [EVENT_RECEIVE],
      dispatch_log := m.dispatch_log ++
        [(some STATE_SOCKET_OPENED, EVENT_RECEIVE), (some STATE_RECEIVE, EVENT_ENTERING_STATE)] }
    hr (by simp) (by simp [h4]) rfl hzero hdata
  refine ⟨m1, ?_, g2, g1, ?_, g4, g5, g6, g7, ?_⟩
  · show poll deps (f + 3) ((bound + k + 2) + 1) _ = _
    rw [poll_step deps (f + 3) (bound + k + 2) _ _ hfirst, hp]
    rfl
  · rw [g3]; rfl
  · simp [process_event, pop_event, g6]

/-- Witness of C4: three attempts without data, then four bytes; five events
are processed and the sixth and seventh invocation report no event. -/
theorem receive_after_zeros_witness :
    links_well_formed (sample_module STATE_SOCKET_OPENED none [49] 80 []) = true ∧
    active_leaf (sample_module STATE_SOCKET_OPENED none [49] 80 [])
      = some (some STATE_SOCKET_OPENED) ∧
    (∃ m1, poll (sample_dependencies 0 true true) 3 6
        (ethernet_communication_module_receive 200 64 300
          (sample_module STATE_SOCKET_OPENED none [49] 80 []))
        = some (5, m1) ∧
      out_len m1 = 4 ∧
      m1.ethernet_communication_module_data = { error := 0, platform_specific_error_code := 0 } ∧
      active_leaf m1 = some (some STATE_SOCKET_OPENED) ∧
      m1.timeout_timer = 0 ∧
      process_event (sample_dependencies 0 true true) 3 m1 = some (false, m1)) :=
  ⟨by decide, by decide,
   by
    obtain ⟨m1, h1, _, h3, h4, h5, h6, _, _, h9⟩ :=
      receive_after_zeros (sample_dependencies 0 true true) 3 0
        (sample_module STATE_SOCKET_OPENED none [49] 80 []) 200 64 300 3 4
        (le_refl 3) (by decide) (by decide) rfl (by decide) (by decide)
        (fun i hi => by
          show (if 0 + i < 3 then (0 : Int) else 4) = 0
          simp [hi])
        (by decide)
    exact ⟨m1, h1, h3, h4, h5, h6, h9⟩⟩

/-! ## Asynchronous events while the socket is open -/

/-- The Timeout event in Receiving: the machine returns to Opened and disarms
the timer; the record, the queue and the caller memory are not written. -/
theorem timeout_in_receiving (deps : ethernet_communication_module_dependencies_t)
    (fuel : Nat) (m : Module)
    (hfuel : 3 ≤ fuel)
    (hwf : links_well_formed m = true)
    (hleaf : active_leaf m = some (some STATE_RECEIVE)) :
    ∃ m1, state_machine_process_event deps fuel EVENT_TIMEOUT m = some m1 ∧
      m1.ethernet_communication_module_data = m.ethernet_communication_module_data ∧
      active_leaf m1 = some (some STATE_SOCKET_OPENED) ∧
      m1.memory = m.memory ∧
      m1.received_data_size = m.received_data_size ∧
      m1.events_buffer = m.events_buffer ∧
      m1.timeout_timer = 0 := by
  obtain ⟨hr, ho, hc⟩ := (leaf_links m hwf _ hleaf).2 rfl
  obtain ⟨f, rfl⟩ : ∃ f, fuel = f + 3 := ⟨fuel - 3, by omega⟩
  simp [state_machine_process_event, process_event_with, active_leaf,
    active_path, active_path_from, current_state, hr, ho, hc, chain_to_root, path_to_root, parent,
    bubble, invoke, handler, state_socket_opened, state_receive,
    transition, transition_with, schedule_timeout,
    target_path, shared_length, emit, set_links, set_current_state]

/-- C5 fails on the code: in the run `stale_length_run` from initialisation the
Timeout event is delivered while the active leaf is Receiving and the caller's
received length holds 7; after the event is processed the record is empty and
the active leaf is Opened, but the received length still holds 7, not 0. -/
theorem timeout_leaves_received_length_stale :
    ((init_ethernet_communication_module (sample_dependencies 0 true true) 3
        (power_on [49] 80 (fun _ => 7))).bind
      (run (sample_dependencies 0 true true) 3 stale_length_run)).map
        (fun m => (active_leaf m, m.events_buffer, out_len m))
      = some (some (some STATE_RECEIVE), [EVENT_TIMEOUT, EVENT_RECEIVE, EVENT_RECEIVE], 7) ∧
    ((init_ethernet_communication_module (sample_dependencies 0 true true) 3
        (power_on [49] 80 (fun _ => 7))).bind
      (run (sample_dependencies 0 true true) 3 (stale_length_run ++ [Action.poll]))).map
        (fun m => (active_leaf m, m.ethernet_communication_module_data, out_len m))
      = some (some (some STATE_SOCKET_OPENED),
          { error := 0, platform_specific_error_code := 0 }, 7) := by
  constructor <;> decide

/-- C6: for every well-formed configuration whose active leaf is Receiving or
Opened and whose record is empty, dispatching SocketClosed empties the queue,
sets the record to SocketClosed combined with the id of the state that was the
active leaf, and leaves Closed as the active leaf. -/
theorem socket_closed_while_open (deps : ethernet_communication_module_dependencies_t)
    (fuel : Nat) (m : Module) (s : ethernet_communication_module_states_t)
    (hfuel : 3 ≤ fuel)
    (hwf : links_well_formed m = true)
    (hs : s = STATE_RECEIVE ∨ s = STATE_SOCKET_OPENED)
    (hleaf : active_leaf m = some (some s))
    (hrec : m.ethernet_communication_module_data.error = 0) :
    ∃ m1, state_machine_process_event deps fuel EVENT_SOCKET_CLOSED m = some m1 ∧
      m1.events_buffer = [] ∧
      m1.ethernet_communication_module_data =
        { error := deps.error_value ETHERNET_SOCKET_CLOSED ||| state_id s,
          platform_specific_error_code := m.platform_specific_error_code } ∧
      active_leaf m1 = some (some STATE_SOCKET_CLOSED) := by
  obtain ⟨h1, h2, h3, h4, h5, -, -⟩ := wf_cases m hwf
  obtain ⟨f, rfl⟩ : ∃ f, fuel = f + 3 := ⟨fuel - 3, by omega⟩
  rcases hs with rfl | rfl
  · obtain ⟨hr, ho, hc⟩ := (leaf_links m hwf _ hleaf).2 rfl
    simp [state_machine_process_event, process_event_with, active_leaf,
      active_path, active_path_from, current_state, hr, ho, hc, chain_to_root, path_to_root,
      parent, bubble, invoke, handler, state_socket_closed, state_receive,
      set_ethernet_communication_module_error, hrec, flush, circular_buffer_clear,
      transition, transition_with, schedule_timeout, state_socket_opened,
      target_path, shared_length, emit, set_links, set_current_state, h1]
  · obtain ⟨hr, hc⟩ := (leaf_links m hwf _ hleaf).1 rfl
    simp [state_machine_process_event, process_event_with, active_leaf,
      active_path, active_path_from, current_state, hr, hc, chain_to_root, path_to_root,
      parent, bubble, invoke, handler, state_socket_closed, state_socket_opened,
      set_ethernet_communication_module_error, hrec, flush, circular_buffer_clear,
      transition, transition_with,
      target_path, shared_length, emit, set_links, set_current_state, h1]

/-- Witness of C6: SocketClosed delivered in Receiving with two events pending. -/
theorem socket_closed_while_open_witness :
    links_well_formed (sample_module STATE_SOCKET_OPENED (some STATE_RECEIVE) [49] 80
      [EVENT_RECEIVE, EVENT_SEND]) = true ∧
    active_leaf (sample_module STATE_SOCKET_OPENED (some STATE_RECEIVE) [49] 80
      [EVENT_RECEIVE, EVENT_SEND]) = some (some STATE_RECEIVE) ∧
    (∃ m1, state_machine_process_event (sample_dependencies 0 true true) 3 EVENT_SOCKET_CLOSED
        (sample_module STATE_SOCKET_OPENED (some STATE_RECEIVE) [49] 80
          [EVENT_RECEIVE, EVENT_SEND]) = some m1 ∧
      m1.events_buffer = [] ∧
      m1.ethernet_communication_module_data =
        { error := 48 ||| 4, platform_specific_error_code := 0 } ∧
      active_leaf m1 = some (some STATE_SOCKET_CLOSED)) :=
  ⟨by decide, by decide,
   socket_closed_while_open (sample_dependencies 0 true true) 3
     (sample_module STATE_SOCKET_OPENED (some STATE_RECEIVE) [49] 80 [EVENT_RECEIVE, EVENT_SEND])
     STATE_RECEIVE (le_refl 3) (by decide) (Or.inl rfl) (by decide) rfl⟩

/-! ## Public operations and handler conventions -/

/-- C8: postcondition and frame of the three public operations.  Each stores
its own parameters (close_socket stores none), resets the whole record to zero
and pushes exactly one event (Send, Receive, CloseSocket) at the tail of the
queue, the oldest record being dropped when the queue already holds ten; every
other field of the module, among them the active-child links, the timeout
timer, the socket handle, the retry counter and the parameters of the other
operation, is unchanged. -/
theorem public_operations_frame (m : Module) (d n b cap out : Nat) :
    ethernet_communication_module_send d n m =
      { m with
        data := d, data_size := n,
        ethernet_communication_module_data := { error := 0, platform_specific_error_code := 0 },
        events_buffer :=
          (if m.events_buffer.length < 10 then m.events_buffer else m.events_buffer.drop 1)
            ++ [EVENT_SEND] } ∧
    ethernet_communication_module_receive b cap out m =
      { m with
        buffer := b, buffer_size := cap, received_data_size := out,
        ethernet_communication_module_data := { error := 0, platform_specific_error_code := 0 },
        events_buffer :=
          (if m.events_buffer.length < 10 then m.events_buffer else m.events_buffer.drop 1)
            ++ [EVENT_RECEIVE] } ∧
    ethernet_communication_module_close_socket m =
      { m with
        ethernet_communication_module_data := { error := 0, platform_specific_error_code := 0 },
        events_buffer :=
          (if m.events_buffer.length < 10 then m.events_buffer else m.events_buffer.drop 1)
            ++ [EVENT_CLOSE_SOCKET] } := by
  refine ⟨?_, ?_, ?_⟩ <;>
  · simp only [ethernet_communication_module_send, ethernet_communication_module_receive,
      ethernet_communication_module_close_socket, push, add_event_type, zero_data,
      EVENTS_BUFFER_SIZE]
    split <;> rfl

/-- C10 fails on the code: the handler of Opened reports the leaving-state
pseudo-event as handled (it returns true), while the root handler and the
handlers of Closed, Opening, Sending, Receiving and Closing report it as not
handled. -/
theorem opened_reports_leaving_state_handled
    (deps : ethernet_communication_module_dependencies_t)
    (tr : ethernet_communication_module_states_t → Module → Option Module) (m : Module) :
    handler deps tr (some STATE_SOCKET_OPENED) EVENT_LEAVING_STATE m = some (true, m) ∧
    handler deps tr none EVENT_LEAVING_STATE m = some (false, m) ∧
    handler deps tr (some STATE_SOCKET_CLOSED) EVENT_LEAVING_STATE m = some (false, m) ∧
    handler deps tr (some STATE_OPENING_SOCKET) EVENT_LEAVING_STATE m = some (false, m) ∧
    handler deps tr (some STATE_SEND) EVENT_LEAVING_STATE m = some (false, m) ∧
    handler deps tr (some STATE_RECEIVE) EVENT_LEAVING_STATE m
      = some (false, schedule_timeout 0 m) ∧
    handler deps tr (some STATE_CLOSING_SOCKET) EVENT_LEAVING_STATE m = some (false, m) :=
  ⟨rfl, rfl, rfl, rfl, rfl, rfl, rfl⟩

/-! ## The sticky operation record -/

theorem or_ne_zero_of_right (a b : Nat) (hb : b ≠ 0) : a ||| b ≠ 0 := by
  intro h
  apply hb
  apply Nat.eq_of_testBit_eq
  intro i
  have := congrArg (fun x => x.testBit i) h
  simp [Nat.testBit_or] at this
  simp [this.2]

/-- The latch relation is reflexive. -/
theorem latched_refl (r : ethernet_communication_module_data_t) : latched r r := Or.inl rfl

/-- The latch relation is transitive. -/
theorem latched_trans {r1 r2 r3 : ethernet_communication_module_data_t}
    (h12 : latched r1 r2) (h23 : latched r2 r3) : latched r1 r3 := by
  rcases h12 with h | ⟨h, h'⟩
  · rw [h] at h23; exact h23
  · rcases h23 with g | ⟨g, _⟩
    · rw [g]; exact Or.inr ⟨h, h'⟩
    · exact absurd g h'

/-- A report of a fault with a non-zero code respects the latch. -/
theorem set_error_latched (deps : ethernet_communication_module_dependencies_t)
    (k : ethernet_communication_module_error_type_t) (s : Nat) (m : Module)
    (hk : deps.error_value k ||| s ≠ 0) :
    latched m.ethernet_communication_module_data
      (set_ethernet_communication_module_error deps k s m).ethernet_communication_module_data := by
  unfold set_ethernet_communication_module_error
  split
  · next h => exact Or.inr ⟨h, hk⟩
  · exact Or.inl rfl

/-- Emission of a pseudo-event respects a relation on the record that the handlers respect. -/
theorem emit_latched (h : Node → event_t → Module → Option (Bool × Module))
    (hh : ∀ node event m r, h node event m = some r →
      latched m.ethernet_communication_module_data r.2.ethernet_communication_module_data)
    (event : event_t) :
    ∀ (l : List ethernet_communication_module_states_t) (m m1 : Module),
      emit h event l m = some m1 →
      latched m.ethernet_communication_module_data m1.ethernet_communication_module_data := by
  intro l
  induction l with
  | nil =>
    intro m m1 he
    simp only [emit, Option.some.injEq] at he
    subst he
    exact latched_refl _
  | cons s rest ih =>
    intro m m1 he
    simp only [emit, invoke] at he
    split at he
    · exact absurd he (by simp)
    · next r hr =>
      have h1 := hh _ _ _ _ hr
      exact latched_trans h1 (ih _ _ he)

/-- Dispatch along a chain respects a relation on the record that the handlers respect. -/
theorem bubble_latched (h : Node → event_t → Module → Option (Bool × Module))
    (hh : ∀ node event m r, h node event m = some r →
      latched m.ethernet_communication_module_data r.2.ethernet_communication_module_data)
    (event : event_t) :
    ∀ (l : List Node) (m m1 : Module),
      bubble h event l m = some m1 →
      latched m.ethernet_communication_module_data m1.ethernet_communication_module_data := by
  intro l
  induction l with
  | nil =>
    intro m m1 he
    simp only [bubble, Option.some.injEq] at he
    subst he
    exact latched_refl _
  | cons s rest ih =>
    intro m m1 he
    simp only [bubble, invoke] at he
    split at he
    · exact absurd he (by simp)
    · next m2 hr =>
      simp only [Option.some.injEq] at he
      subst he
      exact hh _ _ _ _ hr
    · next m2 hr =>
      have h1 := hh _ _ _ _ hr
      exact latched_trans h1 (ih m2 m1 he)

/-- Setting links does not touch the record. -/
theorem set_links_data (l : List ethernet_communication_module_states_t) :
    ∀ (node : Node) (m : Module),
      (set_links node l m).ethernet_communication_module_data
        = m.ethernet_communication_module_data := by
  induction l with
  | nil => intro node m; rfl
  | cons s rest ih =>
    intro node m
    simp only [set_links]
    rw [ih]
    cases node <;> rfl

/-- A transition respects the latch when the handlers do. -/
theorem transition_with_latched (h : Node → event_t → Module → Option (Bool × Module))
    (hh : ∀ node event m r, h node event m = some r →
      latched m.ethernet_communication_module_data r.2.ethernet_communication_module_data)
    (target : ethernet_communication_module_states_t) (m m1 : Module)
    (ht : transition_with h target m = some m1) :
    latched m.ethernet_communication_module_data m1.ethernet_communication_module_data := by
  unfold transition_with at ht
  split at ht
  · exact absurd ht (by simp)
  · simp only at ht
    split at ht
    · exact absurd ht (by simp)
    · next m2 hm2 =>
      have h1 := emit_latched h hh _ _ _ _ hm2
      have h2 := emit_latched h hh _ _ _ _ ht
      rw [set_links_data] at h2
      exact latched_trans h1 h2

/-- A report of a fault respects the latch, from a state with the same record. -/
theorem set_error_latched_of (deps : ethernet_communication_module_dependencies_t)
    (k : ethernet_communication_module_error_type_t) (s : Nat) (m m0 : Module)
    (hm : m.ethernet_communication_module_data = m0.ethernet_communication_module_data)
    (hk : deps.error_value k ||| s ≠ 0) :
    latched m0.ethernet_communication_module_data
      (set_ethernet_communication_module_error deps k s m).ethernet_communication_module_data := by
  rw [← hm]
  exact set_error_latched deps k s m hk

/-- A flush does not touch the record. -/
theorem flush_data (m : Module) :
    (flush m).ethernet_communication_module_data = m.ethernet_communication_module_data := rfl

/-- The latch for a handler result without a transition. -/
theorem latched_of_some {m x : Module} {r : Bool × Module} {b : Bool}
    (h : some (b, x) = some r)
    (hx : latched m.ethernet_communication_module_data x.ethernet_communication_module_data) :
    latched m.ethernet_communication_module_data r.2.ethernet_communication_module_data := by
  simp only [Option.some.injEq] at h
  subst h
  exact hx

/-- The latch for a handler result that ends with a transition. -/
theorem latched_of_map {tr : ethernet_communication_module_states_t → Module → Option Module}
    (htr : ∀ t m m1, tr t m = some m1 →
      latched m.ethernet_communication_module_data m1.ethernet_communication_module_data)
    {t : ethernet_communication_module_states_t} {m x : Module} {r : Bool × Module}
    (h : (tr t x).map (fun m1 => (true, m1)) = some r)
    (hx : latched m.ethernet_communication_module_data x.ethernet_communication_module_data) :
    latched m.ethernet_communication_module_data r.2.ethernet_communication_module_data := by
  cases hq : tr t x with
  | none => rw [hq] at h; exact absurd h (by simp)
  | some m1 =>
    rw [hq] at h
    simp only [Option.map_some', Option.some.injEq] at h
    subst h
    exact latched_trans hx (htr _ _ _ hq)

/-- Every handler respects the latch when the transitions it requests do. -/
theorem handler_latched (deps : ethernet_communication_module_dependencies_t)
    (tr : ethernet_communication_module_states_t → Module → Option Module)
    (hpm : deps.error_value ETHERNET_PARAMETERS_MISSING ≠ 0)
    (htr : ∀ t m m1, tr t m = some m1 →
      latched m.ethernet_communication_module_data m1.ethernet_communication_module_data)
    (node : Node) (event : event_t) (m : Module) (r : Bool × Module)
    (h : handler deps tr node event m = some r) :
    latched m.ethernet_communication_module_data r.2.ethernet_communication_module_data := by
  have hpm0 : deps.error_value ETHERNET_PARAMETERS_MISSING ||| state_id STATE_SOCKET_CLOSED ≠ 0 := by
    simpa [state_id] using hpm
  rcases node with _ | s
  · cases event <;> exact latched_of_some h (latched_refl _)
  · cases s <;> cases event <;>
      simp only [handler, state_socket_closed, state_opening_socket, state_socket_opened,
        state_send, state_receive, state_closing_socket] at h <;>
      (repeat' split at h) <;>
      first
      | exact latched_of_some h (latched_refl _)
      | exact latched_of_map htr h (latched_refl _)
      | exact latched_of_some h (set_error_latched_of deps _ _ _ _ rfl hpm0)
      | (refine latched_of_map htr h ?_
         rw [flush_data]
         refine set_error_latched_of deps _ _ _ _ rfl ?_
         exact or_ne_zero_of_right _ _ (by decide))

/-- Every transition respects the latch. -/
theorem transition_latched (deps : ethernet_communication_module_dependencies_t)
    (hpm : deps.error_value ETHERNET_PARAMETERS_MISSING ≠ 0) :
    ∀ (fuel : Nat) (t : ethernet_communication_module_states_t) (m m1 : Module),
      transition deps fuel t m = some m1 →
      latched m.ethernet_communication_module_data m1.ethernet_communication_module_data := by
  intro fuel
  induction fuel with
  | zero => intro t m m1 h; exact absurd h (by simp [transition])
  | succ fuel ih =>
    intro t m m1 h
    simp only [transition] at h
    exact transition_with_latched _ (handler_latched deps _ hpm ih) t m m1 h

/-- One invocation of the polling handle respects the latch. -/
theorem process_event_latched (deps : ethernet_communication_module_dependencies_t)
    (hpm : deps.error_value ETHERNET_PARAMETERS_MISSING ≠ 0)
    (fuel : Nat) (m : Module) (r : Bool × Module)
    (h : process_event deps fuel m = some r) :
    latched m.ethernet_communication_module_data r.2.ethernet_communication_module_data := by
  unfold process_event at h
  split at h
  · next event rest hpop =>
    cases hd : state_machine_process_event deps fuel event { m with events_buffer := rest } with
    | none => rw [hd] at h; exact absurd h (by simp)
    | some m1 =>
      rw [hd] at h
      simp only [Option.map_some', Option.some.injEq] at h
      subst h
      unfold state_machine_process_event process_event_with at hd
      split at hd
      · exact absurd hd (by simp)
      · have hb := bubble_latched _
          (handler_latched deps _ hpm (transition_latched deps hpm fuel)) _ _ _ _ hd
        exact hb
  · simp only [Option.some.injEq] at h
    subst h
    exact latched_refl _

/-- Every action other than a public operation respects the latch. -/
theorem perform_latched (deps : ethernet_communication_module_dependencies_t)
    (hpm : deps.error_value ETHERNET_PARAMETERS_MISSING ≠ 0)
    (fuel : Nat) (a : Action) (m m1 : Module) (ha : a.is_public = false)
    (h : perform deps fuel a m = some m1) :
    latched m.ethernet_communication_module_data m1.ethernet_communication_module_data := by
  cases a with
  | send d n => exact absurd ha (by simp [Action.is_public])
  | receive b cap out => exact absurd ha (by simp [Action.is_public])
  | close_socket => exact absurd ha (by simp [Action.is_public])
  | poll =>
    simp only [perform] at h
    cases hp : process_event deps fuel m with
    | none => rw [hp] at h; exact absurd h (by simp)
    | some r =>
      rw [hp] at h
      simp only [Option.map_some', Option.some.injEq] at h
      subst h
      exact process_event_latched deps hpm fuel m r hp
  | tick =>
    simp only [perform, Option.some.injEq] at h
    subst h
    unfold second_expired_listener
    split
    · simp only
      split <;> exact latched_refl _
    · exact latched_refl _
  | socket_closed =>
    simp only [perform, Option.some.injEq] at h
    subst h
    exact latched_refl _
  | error_code c =>
    simp only [perform, Option.some.injEq] at h
    subst h
    exact latched_refl _

/-- Every run without a public operation respects the latch. -/
theorem run_latched (deps : ethernet_communication_module_dependencies_t)
    (hpm : deps.error_value ETHERNET_PARAMETERS_MISSING ≠ 0) (fuel : Nat) :
    ∀ (as : List Action) (m m1 : Module),
      (∀ a, a ∈ as → a.is_public = false) →
      run deps fuel as m = some m1 →
      latched m.ethernet_communication_module_data m1.ethernet_communication_module_data := by
  intro as
  induction as with
  | nil =>
    intro m m1 _ h
    simp only [run, Option.some.injEq] at h
    subst h
    exact latched_refl _
  | cons a rest ih =>
    intro m m1 hall h
    simp only [run] at h
    split at h
    · exact absurd h (by simp)
    · next m2 hm2 =>
      exact latched_trans
        (perform_latched deps hpm fuel a m m2 (hall a (List.mem_cons_self _ _)) hm2)
        (ih m2 m1 (fun b hb => hall b (List.mem_cons_of_mem _ hb)) h)

/-- C7: the operation record is a first-fault-wins latch.  A report on an empty
record stores the kind combined with the state id and the platform code
signalled last; a report on a non-empty record changes nothing.  In every run
of poll steps and asynchronous signals between two public operations the record
changes at most once: of any two consecutive parts of such a run, one leaves
the record as it was.  A short write in Sending followed by a failing close in
Closing leaves the record tagged with Sending. -/
theorem first_fault_wins (deps : ethernet_communication_module_dependencies_t)
    (hpm : deps.error_value ETHERNET_PARAMETERS_MISSING ≠ 0) :
    (∀ (k : ethernet_communication_module_error_type_t) (s : Nat) (m : Module),
      m.ethernet_communication_module_data.error = 0 →
      set_ethernet_communication_module_error deps k s m =
        { m with ethernet_communication_module_data :=
            { error := deps.error_value k ||| s,
              platform_specific_error_code := m.platform_specific_error_code } }) ∧
    (∀ (k : ethernet_communication_module_error_type_t) (s : Nat) (code : Int) (m : Module),
      m.ethernet_communication_module_data.error = 0 →
      (set_ethernet_communication_module_error deps k s
          (platform_specific_error_code_listener code m)).ethernet_communication_module_data =
        { error := deps.error_value k ||| s, platform_specific_error_code := code }) ∧
    (∀ (k : ethernet_communication_module_error_type_t) (s : Nat) (m : Module),
      m.ethernet_communication_module_data.error ≠ 0 →
      set_ethernet_communication_module_error deps k s m = m) ∧
    (∀ (fuel : Nat) (as bs : List Action) (m m1 m2 : Module),
      (∀ a, a ∈ as ++ bs → a.is_public = false) →
      run deps fuel as m = some m1 → run deps fuel bs m1 = some m2 →
      m1.ethernet_communication_module_data = m.ethernet_communication_module_data ∨
      m2.ethernet_communication_module_data = m1.ethernet_communication_module_data) ∧
    (∀ (fuel bound : Nat) (m : Module) (d n : Nat),
      3 ≤ fuel → links_well_formed m = true →
      active_leaf m = some (some STATE_SOCKET_OPENED) → m.events_buffer = [] →
      deps.send m.send_calls m.open_socket_id d n ≠ (n : Int) →
      deps.close_socket m.close_socket_calls m.open_socket_id = false →
      ∃ m1, poll deps fuel (bound + 2) (ethernet_communication_module_send d n m) = some (1, m1) ∧
        m1.ethernet_communication_module_data =
          { error := deps.error_value ETHERNET_OPERATION_FAILED ||| state_id STATE_SEND,
            platform_specific_error_code := m.platform_specific_error_code } ∧
        m1.adapter_log = m.adapter_log ++
          [Call.send m.open_socket_id d n, Call.close_socket m.open_socket_id] ∧
        active_leaf m1 = some (some STATE_SOCKET_CLOSED) ∧
        m1.events_buffer = []) := by
  refine ⟨?_, ?_, ?_, ?_, ?_⟩
  · intro k s m h
    simp [set_ethernet_communication_module_error, h]
  · intro k s code m h
    simp [set_ethernet_communication_module_error, platform_specific_error_code_listener, h]
  · intro k s m h
    simp [set_ethernet_communication_module_error, h]
  · intro fuel as bs m m1 m2 hall h1 h2
    have l1 := run_latched deps hpm fuel as m m1
      (fun a ha => hall a (List.mem_append_left _ ha)) h1
    have l2 := run_latched deps hpm fuel bs m1 m2
      (fun a ha => hall a (List.mem_append_right _ ha)) h2
    rcases l1 with l1 | ⟨_, l1⟩
    · exact Or.inl l1
    · rcases l2 with l2 | ⟨l2, _⟩
      · exact Or.inr l2
      · exact absurd l2 l1
  · intro fuel bound m d n hfuel hwf hleaf hq hwrite hclose
    obtain ⟨hr, hc⟩ := (leaf_links m hwf _ hleaf).1 rfl
    obtain ⟨h1, h2, h3, h4, h5, -, -⟩ := wf_cases m hwf
    obtain ⟨f, rfl⟩ : ∃ f, fuel = f + 3 := ⟨fuel - 3, by omega⟩
    have hne : deps.error_value ETHERNET_OPERATION_FAILED ||| state_id STATE_SEND ≠ 0 :=
      or_ne_zero_of_right _ _ (by decide)
    simp [poll, process_event, pop_event, ethernet_communication_module_send, push,
      add_event_type, hq, EVENTS_BUFFER_SIZE, state_machine_process_event, process_event_with,
      active_leaf, active_path, active_path_from, current_state, hr, hc, chain_to_root,
      path_to_root, parent, bubble, invoke, handler, state_socket_opened, state_send,
      state_closing_socket, state_socket_closed, zero_data, transition, transition_with,
      target_path, shared_length, emit, set_links, set_current_state, h1, h3, h5,
      call_send, call_close_socket, hwrite, hclose, flush, circular_buffer_clear,
      set_ethernet_communication_module_error, hne]

/-- Witness of C7: five bytes sent in Opened, the write is one byte short and
the close fails; the record holds OperationFailed with the id of Sending (35),
not with the id of Closing (37). -/
theorem first_fault_wins_witness :
    (sample_dependencies 0 false false).error_value ETHERNET_PARAMETERS_MISSING ≠ 0 ∧
    links_well_formed (sample_module STATE_SOCKET_OPENED none [49] 80 []) = true ∧
    active_leaf (sample_module STATE_SOCKET_OPENED none [49] 80 [])
      = some (some STATE_SOCKET_OPENED) ∧
    (sample_dependencies 0 false false).send 0 0 100 5 ≠ 5 ∧
    (sample_dependencies 0 false false).close_socket 0 0 = false ∧
    (∃ m1, poll (sample_dependencies 0 false false) 3 2
        (ethernet_communication_module_send 100 5 (sample_module STATE_SOCKET_OPENED none [49] 80 []))
        = some (1, m1) ∧
      m1.ethernet_communication_module_data = { error := 35, platform_specific_error_code := 0 } ∧
      m1.ethernet_communication_module_data.error ≠ 32 ||| state_id STATE_CLOSING_SOCKET ∧
      active_leaf m1 = some (some STATE_SOCKET_CLOSED)) :=
  ⟨by decide, by decide, by decide, by decide, by decide,
   by
    obtain ⟨m1, h1, h2, _, h4, _⟩ :=
      (first_fault_wins (sample_dependencies 0 false false) (by decide)).2.2.2.2 3 0
        (sample_module STATE_SOCKET_OPENED none [49] 80 []) 100 5
        (le_refl 3) (by decide) (by decide) rfl (by decide) rfl
    refine ⟨m1, h1, h2, ?_, h4⟩
    rw [h2]
    decide⟩

/-! ## Termination of the dispatch -/

/-- The tree invariant depends on the links only. -/
theorem wf_congr (m1 m2 : Module)
    (h1 : m1.state_machine_current_state = m2.state_machine_current_state)
    (h2 : m1.states_current_state = m2.states_current_state) :
    links_well_formed m1 = links_well_formed m2 := by
  simp only [links_well_formed, all_nodes, List.all_cons, List.all_nil, current_state, h1, h2]

/-- The converse of `wf_cases`. -/
theorem wf_of_cases (m : Module)
    (h1 : m.states_current_state STATE_SOCKET_CLOSED = none)
    (h2 : m.states_current_state STATE_OPENING_SOCKET = none)
    (h3 : m.states_current_state STATE_SEND = none)
    (h4 : m.states_current_state STATE_RECEIVE = none)
    (h5 : m.states_current_state STATE_CLOSING_SOCKET = none)
    (h6 : m.states_current_state STATE_SOCKET_OPENED = none ∨
      m.states_current_state STATE_SOCKET_OPENED = some STATE_SEND ∨
      m.states_current_state STATE_SOCKET_OPENED = some STATE_RECEIVE)
    (h7 : m.state_machine_current_state = none ∨
      m.state_machine_current_state = some STATE_SOCKET_CLOSED ∨
      m.state_machine_current_state = some STATE_OPENING_SOCKET ∨
      m.state_machine_current_state = some STATE_SOCKET_OPENED ∨
      m.state_machine_current_state = some STATE_CLOSING_SOCKET) :
    links_well_formed m = true := by
  simp only [links_well_formed, all_nodes, List.all_cons, List.all_nil, current_state,
    h1, h2, h3, h4, h5]
  rcases h6 with h6 | h6 | h6 <;> rcases h7 with h7 | h7 | h7 | h7 | h7 <;>
    simp [h6, h7, parent]

/-- The walk along the active-child links of a well-formed configuration ends. -/
theorem wf_active_path (m : Module) (h : links_well_formed m = true) :
    ∃ p, active_path m = some p := by
  obtain ⟨h1, h2, h3, h4, h5, h6, h7⟩ := wf_cases m h
  rcases h6 with h6 | h6 | h6 <;> rcases h7 with h7 | h7 | h7 | h7 | h7 <;>
    simp [active_path, active_path_from, current_state, h1, h2, h3, h4, h5, h6, h7]

/-- Setting the links along the path of a target keeps the tree invariant. -/
theorem set_links_wf (t : ethernet_communication_module_states_t) (m : Module)
    (h : links_well_formed m = true) :
    links_well_formed (set_links none (target_path t) m) = true := by
  obtain ⟨h1, h2, h3, h4, h5, h6, h7⟩ := wf_cases m h
  apply wf_of_cases <;> cases t <;>
    simp [target_path, path_to_root, parent, set_links, set_current_state, Function.update,
      h1, h2, h3, h4, h5] <;>
    exact h6

/-- A transition function returns on every well-formed configuration, for a
given target, and keeps the tree invariant. -/
theorem total_of_map
    {tr : ethernet_communication_module_states_t → Module → Option Module}
    {t : ethernet_communication_module_states_t} {x : Module}
    (htot : ∀ m, links_well_formed m = true →
      ∃ m1, tr t m = some m1 ∧ links_well_formed m1 = true)
    (hx : links_well_formed x = true) :
    ∃ r, (tr t x).map (fun m1 => (true, m1)) = some r ∧ links_well_formed r.2 = true := by
  obtain ⟨m1, h1, h2⟩ := htot x hx
  exact ⟨(true, m1), by rw [h1]; rfl, h2⟩

/-- Clearing the child link of Opened keeps the tree invariant. -/
theorem clear_opened_wf (m : Module) (h : links_well_formed m = true) :
    links_well_formed
      { m with states_current_state :=
          Function.update m.states_current_state STATE_SOCKET_OPENED none } = true := by
  obtain ⟨h1, h2, h3, h4, h5, h6, h7⟩ := wf_cases m h
  refine wf_of_cases _ ?_ ?_ ?_ ?_ ?_ ?_ h7 <;> simp [Function.update, h1, h2, h3, h4, h5]

/-- A report of a fault does not touch the links. -/
theorem wf_set_error (deps : ethernet_communication_module_dependencies_t)
    (k : ethernet_communication_module_error_type_t) (s : Nat) (x m : Module)
    (h1 : x.state_machine_current_state = m.state_machine_current_state)
    (h2 : x.states_current_state = m.states_current_state)
    (hwf : links_well_formed m = true) :
    links_well_formed (set_ethernet_communication_module_error deps k s x) = true := by
  unfold set_ethernet_communication_module_error
  split
  · exact (wf_congr _ m h1 h2).trans hwf
  · exact (wf_congr _ m h1 h2).trans hwf

/-- A report of a fault followed by a flush does not touch the links. -/
theorem wf_flush_set_error (deps : ethernet_communication_module_dependencies_t)
    (k : ethernet_communication_module_error_type_t) (s : Nat) (x m : Module)
    (h1 : x.state_machine_current_state = m.state_machine_current_state)
    (h2 : x.states_current_state = m.states_current_state)
    (hwf : links_well_formed m = true) :
    links_well_formed (flush (set_ethernet_communication_module_error deps k s x)) = true :=
  (wf_congr _ _ rfl rfl).trans (wf_set_error deps k s x m h1 h2 hwf)

/-- Every handler returns, and keeps the tree invariant, when the transitions
it may request do. -/
theorem handler_total (deps : ethernet_communication_module_dependencies_t)
    (tr : ethernet_communication_module_states_t → Module → Option Module)
    (node : Node) (event : event_t)
    (htr : ∀ t, t ∈ requested_targets node event → ∀ m, links_well_formed m = true →
      ∃ m1, tr t m = some m1 ∧ links_well_formed m1 = true)
    (m : Module) (hwf : links_well_formed m = true) :
    ∃ r, handler deps tr node event m = some r ∧ links_well_formed r.2 = true := by
  rcases node with _ | s
  · cases event <;> exact ⟨_, rfl, hwf⟩
  · cases s <;> cases event <;>
      simp only [handler, state_socket_closed, state_opening_socket, state_socket_opened,
        state_send, state_receive, state_closing_socket] <;>
      (repeat' split) <;>
      first
      | exact ⟨_, rfl, hwf⟩
      | exact ⟨_, rfl, (wf_congr _ m rfl rfl).trans hwf⟩
      | exact ⟨_, rfl, clear_opened_wf m hwf⟩
      | exact ⟨_, rfl, wf_set_error deps _ _ _ m rfl rfl hwf⟩
      | (refine total_of_map (htr _ ?_) ((wf_congr _ m rfl rfl).trans hwf)
         decide)
      | (refine total_of_map (htr _ ?_) (wf_flush_set_error deps _ _ _ m rfl rfl hwf)
         decide)

/-- Emission of a pseudo-event returns when the handlers of the listed states do. -/
theorem emit_total (h : Node → event_t → Module → Option (Bool × Module)) (event : event_t) :
    ∀ (l : List ethernet_communication_module_states_t),
      (∀ s, s ∈ l → ∀ m, links_well_formed m = true →
        ∃ r, h (some s) event m = some r ∧ links_well_formed r.2 = true) →
      ∀ m, links_well_formed m = true →
        ∃ m1, emit h event l m = some m1 ∧ links_well_formed m1 = true := by
  intro l
  induction l with
  | nil => intro _ m hwf; exact ⟨m, rfl, hwf⟩
  | cons s rest ih =>
    intro hh m hwf
    obtain ⟨r, hr, hwr⟩ := hh s (List.mem_cons_self _ _)
      { m with dispatch_log := m.dispatch_log ++ [(some s, event)] }
      ((wf_congr _ m rfl rfl).trans hwf)
    obtain ⟨m1, h1, hw1⟩ := ih (fun s1 hs1 => hh s1 (List.mem_cons_of_mem _ hs1)) r.2 hwr
    refine ⟨m1, ?_, hw1⟩
    simp only [emit, invoke, hr]
    exact h1

/-- Dispatch along a chain returns when every handler does. -/
theorem bubble_total (h : Node → event_t → Module → Option (Bool × Module)) (event : event_t)
    (hh : ∀ node m, links_well_formed m = true →
      ∃ r, h node event m = some r ∧ links_well_formed r.2 = true) :
    ∀ (l : List Node) (m : Module), links_well_formed m = true →
      ∃ m1, bubble h event l m = some m1 ∧ links_well_formed m1 = true := by
  intro l
  induction l with
  | nil => intro m hwf; exact ⟨m, rfl, hwf⟩
  | cons node rest ih =>
    intro m hwf
    obtain ⟨r, hr, hwr⟩ := hh node
      { m with dispatch_log := m.dispatch_log ++ [(node, event)] }
      ((wf_congr _ m rfl rfl).trans hwf)
    obtain ⟨b, m2⟩ := r
    cases b with
    | true =>
      refine ⟨m2, ?_, hwr⟩
      simp only [bubble, invoke, hr]
    | false =>
      obtain ⟨m1, h1, hw1⟩ := ih m2 hwr
      refine ⟨m1, ?_, hw1⟩
      simp only [bubble, invoke, hr]
      exact h1

/-- A transition returns when the handlers return on the leaving-state event
and, for the states of the target's path, on the entering-state event. -/
theorem transition_with_total (h : Node → event_t → Module → Option (Bool × Module))
    (t : ethernet_communication_module_states_t)
    (hleave : ∀ s m, links_well_formed m = true →
      ∃ r, h (some s) EVENT_LEAVING_STATE m = some r ∧ links_well_formed r.2 = true)
    (henter : ∀ s, s ∈ target_path t → ∀ m, links_well_formed m = true →
      ∃ r, h (some s) EVENT_ENTERING_STATE m = some r ∧ links_well_formed r.2 = true)
    (m : Module) (hwf : links_well_formed m = true) :
    ∃ m1, transition_with h t m = some m1 ∧ links_well_formed m1 = true := by
  obtain ⟨p, hp⟩ := wf_active_path m hwf
  obtain ⟨m1, h1, hw1⟩ := emit_total h EVENT_LEAVING_STATE
    ((p.drop (shared_length p (target_path t).dropLast)).reverse)
    (fun s _ => hleave s) m hwf
  obtain ⟨m2, h2, hw2⟩ := emit_total h EVENT_ENTERING_STATE
    ((target_path t).drop (shared_length p (target_path t).dropLast))
    (fun s hs => henter s (List.mem_of_mem_drop hs))
    (set_links none (target_path t) m1) (set_links_wf t m1 hw1)
  refine ⟨m2, ?_, hw2⟩
  simp only [transition_with, hp, h1]
  exact h2

/-- A transition returns on every well-formed configuration once the bound on
the nesting depth reaches the rank of its target. -/
theorem transition_total (deps : ethernet_communication_module_dependencies_t) :
    ∀ (fuel : Nat) (t : ethernet_communication_module_states_t), nesting_rank t ≤ fuel →
      ∀ m, links_well_formed m = true →
        ∃ m1, transition deps fuel t m = some m1 ∧ links_well_formed m1 = true := by
  intro fuel
  induction fuel with
  | zero => intro t ht; cases t <;> simp [nesting_rank] at ht
  | succ fuel ih =>
    intro t ht m hwf
    simp only [transition]
    apply transition_with_total _ t _ _ m hwf
    · intro s m1 hw1
      exact handler_total deps _ (some s) EVENT_LEAVING_STATE
        (fun t1 ht1 => by cases s <;> simp [requested_targets] at ht1) m1 hw1
    · intro s hs m1 hw1
      apply handler_total deps _ (some s) EVENT_ENTERING_STATE _ m1 hw1
      intro t1 ht1
      apply ih
      revert ht ht1 hs
      cases t <;> cases s <;> cases t1 <;>
        simp [target_path, path_to_root, parent, requested_targets, nesting_rank]
      all_goals omega

/-- The dispatch of an event returns on every well-formed configuration and
keeps the tree invariant. -/
theorem state_machine_process_event_total
    (deps : ethernet_communication_module_dependencies_t) (fuel : Nat) (hfuel : 3 ≤ fuel)
    (event : event_t) (m : Module) (hwf : links_well_formed m = true) :
    ∃ m1, state_machine_process_event deps fuel event m = some m1 ∧
      links_well_formed m1 = true := by
  obtain ⟨p, hp⟩ := wf_active_path m hwf
  have hall : ∀ node m, links_well_formed m = true →
      ∃ r, handler deps (transition deps fuel) node event m = some r ∧
        links_well_formed r.2 = true := by
    intro node m1 hw1
    apply handler_total deps _ node event _ m1 hw1
    intro t _
    apply transition_total deps fuel t
    cases t <;> simp [nesting_rank] <;> omega
  obtain ⟨m1, h1, hw1⟩ := bubble_total _ event hall (chain_to_root p.getLast?) m hwf
  refine ⟨m1, ?_, hw1⟩
  simp only [state_machine_process_event, process_event_with, active_leaf, hp, Option.map_some']
  exact h1

/-- C9: one invocation of the polling handle on a well-formed configuration.
With an empty queue it returns false and changes nothing.  Otherwise it removes
the oldest event of the queue, dispatches that event to the state machine once
(the dispatch returns) and returns true with the state the dispatch produced.
In both cases it returns, and it returns false exactly when the queue was empty. -/
theorem polling_handle (deps : ethernet_communication_module_dependencies_t)
    (fuel : Nat) (m : Module) (hfuel : 3 ≤ fuel) (hwf : links_well_formed m = true) :
    (m.events_buffer = [] → process_event deps fuel m = some (false, m)) ∧
    (∀ event rest, m.events_buffer = event :: rest →
      ∃ m1, state_machine_process_event deps fuel event { m with events_buffer := rest }
          = some m1 ∧
        process_event deps fuel m = some (true, m1)) ∧
    (∃ b m1, process_event deps fuel m = some (b, m1) ∧ (b = false ↔ m.events_buffer = [])) := by
  have hnil : m.events_buffer = [] → process_event deps fuel m = some (false, m) := by
    intro hq
    simp only [process_event, pop_event, hq]
  have hcons : ∀ event rest, m.events_buffer = event :: rest →
      ∃ m1, state_machine_process_event deps fuel event { m with events_buffer := rest }
          = some m1 ∧
        process_event deps fuel m = some (true, m1) := by
    intro event rest hq
    obtain ⟨m1, h1, _⟩ := state_machine_process_event_total deps fuel hfuel event
      { m with events_buffer := rest } ((wf_congr _ m rfl rfl).trans hwf)
    refine ⟨m1, h1, ?_⟩
    simp only [process_event, pop_event, hq, h1, Option.map_some']
  refine ⟨hnil, hcons, ?_⟩
  cases hq : m.events_buffer with
  | nil => exact ⟨false, m, hnil hq, by simp⟩
  | cons event rest =>
    obtain ⟨m1, _, h2⟩ := hcons event rest hq
    exact ⟨true, m1, h2, by simp⟩

/-- Witness of C9: a closed sample configuration with one queued Send; the
invocation returns true, and with an empty queue it returns false. -/
theorem polling_handle_witness :
    links_well_formed (sample_module STATE_SOCKET_CLOSED none [] 0 [EVENT_SEND]) = true ∧
    (∃ m1, state_machine_process_event (sample_dependencies 0 true true) 3 EVENT_SEND
        { sample_module STATE_SOCKET_CLOSED none [] 0 [EVENT_SEND] with events_buffer := [] }
          = some m1 ∧
      process_event (sample_dependencies 0 true true) 3
        (sample_module STATE_SOCKET_CLOSED none [] 0 [EVENT_SEND]) = some (true, m1)) :=
  ⟨by decide,
   (polling_handle (sample_dependencies 0 true true) 3
     (sample_module STATE_SOCKET_CLOSED none [] 0 [EVENT_SEND]) (le_refl 3) (by decide)).2.1
     EVENT_SEND [] rfl⟩

/-! ## The timeout timer -/

/-- Ticks that do not exhaust the timer only decrement it. -/
theorem ticks_below (j : Nat) :
    ∀ (m : Module), j < m.timeout_timer →
      ticks j m = { m with timeout_timer := m.timeout_timer - j } := by
  induction j with
  | zero => intro m _; rfl
  | succ j ih =>
    intro m hj
    have h0 : m.timeout_timer ≠ 0 := by omega
    have h1 : m.timeout_timer - 1 ≠ 0 := by omega
    have hstep : second_expired_listener m = { m with timeout_timer := m.timeout_timer - 1 } := by
      simp [second_expired_listener, h0, h1]
    simp only [ticks, hstep]
    rw [ih _ (by show j < m.timeout_timer - 1; omega)]
    simp only [Module.mk.injEq, true_and, and_true]
    omega

/-- The tick that exhausts the timer pushes the Timeout event. -/
theorem tick_last (m : Module) (h : m.timeout_timer = 1) :
    second_expired_listener m =
      { m with timeout_timer := 0,
               events_buffer := add_event_type m.events_buffer EVENT_TIMEOUT } := by
  simp [second_expired_listener, h, push]

/-- A tick on a disarmed timer changes nothing. -/
theorem tick_disarmed (m : Module) (h : m.timeout_timer = 0) :
    second_expired_listener m = m := by
  simp [second_expired_listener, h]

/-- Ticks on a disarmed timer change nothing. -/
theorem ticks_disarmed (j : Nat) : ∀ (m : Module), m.timeout_timer = 0 → ticks j m = m := by
  induction j with
  | zero => intro m _; rfl
  | succ j ih =>
    intro m h
    simp only [ticks, tick_disarmed m h]
    exact ih m h

/-- Ticks compose. -/
theorem ticks_add (i j : Nat) : ∀ (m : Module), ticks (i + j) m = ticks j (ticks i m) := by
  induction i with
  | zero => intro m; simp [ticks]
  | succ i ih =>
    intro m
    have : i + 1 + j = (i + j) + 1 := by omega
    rw [this]
    simp only [ticks]
    exact ih _

/-- C14: a timer holding `n` with `1 ≤ n ≤ 255` and no re-arm: each of the
first `n - 1` ticks only decrements the timer, the `n`-th tick sets it to 0 and
pushes exactly one Timeout event, and every later tick (and every tick on a
timer at 0) changes nothing.  Entering Receiving arms the timer at 3 and queues
Receive, so the Timeout event is pushed by exactly the third tick. -/
theorem timeout_countdown (m : Module) (n : Nat) (h1 : 1 ≤ n) (hn : n ≤ 255)
    (ht : m.timeout_timer = n) :
    (∀ j, j < n → ticks j m = { m with timeout_timer := n - j }) ∧
    ticks n m =
      { m with timeout_timer := 0,
               events_buffer := add_event_type m.events_buffer EVENT_TIMEOUT } ∧
    (∀ j, ticks (n + j) m = ticks n m) ∧
    (∀ m0 : Module, m0.timeout_timer = 0 → second_expired_listener m0 = m0) ∧
    (∀ (deps : ethernet_communication_module_dependencies_t)
       (tr : ethernet_communication_module_states_t → Module → Option Module) (m0 : Module),
      ∃ m1, state_receive deps tr STATE_RECEIVE EVENT_ENTERING_STATE m0 = some (true, m1) ∧
        m1.timeout_timer = 3 ∧
        m1.events_buffer = add_event_type m0.events_buffer EVENT_RECEIVE ∧
        (ticks 1 m1).timeout_timer = 2 ∧ (ticks 1 m1).events_buffer = m1.events_buffer ∧
        (ticks 2 m1).timeout_timer = 1 ∧ (ticks 2 m1).events_buffer = m1.events_buffer ∧
        (ticks 3 m1).timeout_timer = 0 ∧
        (ticks 3 m1).events_buffer = add_event_type m1.events_buffer EVENT_TIMEOUT) := by
  have hlast : ticks n m =
      { m with timeout_timer := 0,
               events_buffer := add_event_type m.events_buffer EVENT_TIMEOUT } := by
    obtain ⟨k, rfl⟩ : ∃ k, n = k + 1 := ⟨n - 1, by omega⟩
    rw [ticks_add k 1 m, ticks_below k m (by omega)]
    simp only [ticks]
    rw [tick_last _ (by show m.timeout_timer - k = 1; omega)]
  refine ⟨?_, hlast, ?_, tick_disarmed, ?_⟩
  · intro j hj
    rw [ticks_below j m (by omega), ht]
  · intro j
    rw [ticks_add n j m, hlast]
    exact ticks_disarmed j _ rfl
  · intro deps tr m0
    refine ⟨_, rfl, rfl, rfl, ?_, ?_, ?_, ?_, ?_, ?_⟩ <;>
      simp [ticks, second_expired_listener, push, schedule_timeout, RECEIVE_TIMEOUT]

/-- Witness of C14: a timer at 3; two ticks leave it at 1 with the queue
untouched, the third tick pushes the Timeout event. -/
theorem timeout_countdown_witness :
    (schedule_timeout 3 (sample_module STATE_SOCKET_OPENED (some STATE_RECEIVE) [49] 80
      [EVENT_RECEIVE])).timeout_timer = 3 ∧
    (ticks 3 (schedule_timeout 3 (sample_module STATE_SOCKET_OPENED (some STATE_RECEIVE) [49] 80
      [EVENT_RECEIVE]))).events_buffer = [EVENT_RECEIVE, EVENT_TIMEOUT] ∧
    (ticks 3 (schedule_timeout 3 (sample_module STATE_SOCKET_OPENED (some STATE_RECEIVE) [49] 80
      [EVENT_RECEIVE]))).timeout_timer = 0 := by
  have h := (timeout_countdown
    (schedule_timeout 3 (sample_module STATE_SOCKET_OPENED (some STATE_RECEIVE) [49] 80
      [EVENT_RECEIVE])) 3 (by decide) (by decide) rfl).2.1
  refine ⟨rfl, ?_, ?_⟩
  · rw [h]; rfl
  · rw [h]

/-! ## The event queue -/

/-- A push keeps the bound of ten records. -/
theorem add_event_type_length (q : List event_t) (type : event_t)
    (h : q.length ≤ EVENTS_BUFFER_SIZE) :
    (add_event_type q type).length ≤ EVENTS_BUFFER_SIZE := by
  unfold add_event_type
  split
  · simp only [List.length_append, List.length_singleton]; omega
  · simp only [List.length_append, List.length_drop, List.length_singleton]
    simp only [EVENTS_BUFFER_SIZE] at h ⊢
    omega

/-- Every queue operation keeps the bound of ten records. -/
theorem apply_queue_op_length (op : queue_op) (q : List event_t)
    (h : q.length ≤ EVENTS_BUFFER_SIZE) :
    (apply_queue_op op q).length ≤ EVENTS_BUFFER_SIZE := by
  cases op with
  | push type => exact add_event_type_length q type h
  | pop =>
    cases q with
    | nil => simp [apply_queue_op, pop_event]
    | cons e rest =>
      simp only [apply_queue_op, pop_event]
      simp only [List.length_cons] at h
      omega
  | clear => simp [apply_queue_op, circular_buffer_clear]

/-- Every sequence of queue operations keeps the bound of ten records. -/
theorem apply_queue_ops_length (ops : List queue_op) :
    ∀ (q : List event_t), q.length ≤ EVENTS_BUFFER_SIZE →
      (apply_queue_ops ops q).length ≤ EVENTS_BUFFER_SIZE := by
  induction ops with
  | nil => intro q h; exact h
  | cons op rest ih =>
    intro q h
    exact ih _ (apply_queue_op_length op q h)

/-- A push puts the new record at the tail. -/
theorem add_event_type_last (q : List event_t) (type : event_t) :
    (add_event_type q type).getLast? = some type := by
  unfold add_event_type
  split <;> simp

/-- C15: starting from the empty queue of `init_events_buffer`, the queue holds
at most ten records after every sequence of push, pop and clear operations; a
push onto any such queue, full or not, returns a queue of at most ten records
whose newest record is the pushed one. -/
theorem queue_never_exceeds_capacity :
    (∀ ops : List queue_op,
      (apply_queue_ops ops init_events_buffer).length ≤ 10) ∧
    (∀ (ops : List queue_op) (type : event_t),
      (add_event_type (apply_queue_ops ops init_events_buffer) type).length ≤ 10 ∧
      (add_event_type (apply_queue_ops ops init_events_buffer) type).getLast? = some type) ∧
    (∀ (q : List event_t) (type : event_t), q.length = 10 →
      (add_event_type q type).length = 10 ∧
      (add_event_type q type).getLast? = some type) := by
  have h0 : init_events_buffer.length ≤ EVENTS_BUFFER_SIZE := by decide
  refine ⟨fun ops => apply_queue_ops_length ops _ h0, fun ops type => ⟨?_, ?_⟩, ?_⟩
  · exact add_event_type_length _ type (apply_queue_ops_length ops _ h0)
  · exact add_event_type_last _ type
  · intro q type hq
    refine ⟨?_, add_event_type_last q type⟩
    simp [add_event_type, EVENTS_BUFFER_SIZE, hq]

/-- Witness of C15: a push onto a full queue of ten records gives ten records,
the newest being the pushed one. -/
theorem queue_never_exceeds_capacity_witness :
    (List.replicate 10 EVENT_SEND).length = 10 ∧
    (add_event_type (List.replicate 10 EVENT_SEND) EVENT_TIMEOUT).length = 10 ∧
    (add_event_type (List.replicate 10 EVENT_SEND) EVENT_TIMEOUT).getLast? = some EVENT_TIMEOUT :=
  ⟨rfl, queue_never_exceeds_capacity.2.2 (List.replicate 10 EVENT_SEND) EVENT_TIMEOUT rfl⟩

/-- Successive pops return the front of the queue. -/
theorem pop_events_eq_take (n : Nat) : ∀ (q : List event_t), pop_events n q = q.take n := by
  induction n with
  | zero => intro q; simp [pop_events]
  | succ n ih =>
    intro q
    cases q with
    | nil => simp [pop_events, pop_event]
    | cons e rest => simp [pop_events, pop_event, ih]

/-- Pushes onto a queue with room for them append in order. -/
theorem push_events_eq_append (types : List event_t) :
    ∀ (q : List event_t), q.length + types.length ≤ EVENTS_BUFFER_SIZE →
      push_events q types = q ++ types := by
  induction types with
  | nil => intro q _; simp [push_events]
  | cons e rest ih =>
    intro q h
    simp only [List.length_cons] at h
    have hlt : q.length < EVENTS_BUFFER_SIZE := by omega
    have hstep : add_event_type q e = q ++ [e] := by simp [add_event_type, hlt]
    have := ih (q ++ [e]) (by simp only [List.length_append, List.length_singleton]; omega)
    simp only [push_events, List.foldl_cons, hstep] at this ⊢
    rw [this]
    simp

/-- C16: the queue is a drop-oldest FIFO.  Pop signals empty exactly on the
empty queue and otherwise returns the oldest record and the rest; records
pushed onto the empty queue (at most ten) are popped in the order they were
pushed, after which pop signals empty; a push of `x` onto a full queue
`e1 .. e10` gives `e2 .. e10, x`. -/
theorem queue_drop_oldest_fifo :
    (∀ q : List event_t, pop_event q = none ↔ q = []) ∧
    (∀ (q rest : List event_t) (e : event_t), pop_event q = some (e, rest) ↔ q = e :: rest) ∧
    (∀ types : List event_t, types.length ≤ 10 →
      pop_events types.length (push_events init_events_buffer types) = types ∧
      pop_event (apply_queue_ops (List.replicate types.length queue_op.pop)
        (push_events init_events_buffer types)) = none) ∧
    (∀ e1 e2 e3 e4 e5 e6 e7 e8 e9 e10 x : event_t,
      add_event_type [e1, e2, e3, e4, e5, e6, e7, e8, e9, e10] x
        = [e2, e3, e4, e5, e6, e7, e8, e9, e10, x]) ∧
    (∀ (q : List event_t) (x : event_t), q.length = 10 →
      add_event_type q x = q.drop 1 ++ [x]) := by
  refine ⟨?_, ?_, ?_, ?_, ?_⟩
  · intro q
    cases q <;> simp [pop_event]
  · intro q rest e
    cases q <;> simp [pop_event]
  · intro types h
    have hp : push_events init_events_buffer types = types := by
      have := push_events_eq_append types init_events_buffer
        (by simpa [init_events_buffer, EVENTS_BUFFER_SIZE] using h)
      simpa [init_events_buffer] using this
    rw [hp, pop_events_eq_take]
    refine ⟨List.take_length types, ?_⟩
    clear hp h
    induction types with
    | nil => rfl
    | cons e rest ih =>
      simpa [List.replicate, apply_queue_ops, apply_queue_op, pop_event] using ih
  · intro e1 e2 e3 e4 e5 e6 e7 e8 e9 e10 x
    rfl
  · intro q x hq
    simp [add_event_type, EVENTS_BUFFER_SIZE, hq]

/-- Witness of C16: three records pushed onto the empty queue come back in
order, and a push onto a full queue of ten drops the oldest record. -/
theorem queue_drop_oldest_fifo_witness :
    pop_events 3 (push_events init_events_buffer [EVENT_SEND, EVENT_TIMEOUT, EVENT_RECEIVE])
      = [EVENT_SEND, EVENT_TIMEOUT, EVENT_RECEIVE] ∧
    add_event_type (List.replicate 9 EVENT_SEND ++ [EVENT_RECEIVE]) EVENT_TIMEOUT
      = List.replicate 8 EVENT_SEND ++ [EVENT_RECEIVE, EVENT_TIMEOUT] :=
  ⟨(queue_drop_oldest_fifo.2.2.1 [EVENT_SEND, EVENT_TIMEOUT, EVENT_RECEIVE] (by decide)).1,
   queue_drop_oldest_fifo.2.2.2.2 (List.replicate 9 EVENT_SEND ++ [EVENT_RECEIVE])
     EVENT_TIMEOUT rfl⟩

/-! ## Unclaimed events and bubbling -/

/-- C17: an event that no state of the active chain claims is inert.  For every
well-formed configuration and every pair (active leaf, event) without a row in
the transition table, processing the event removes it from the queue and
changes no other field of the module: no link, no record, no timer, no adapter
call, no event queued.  Only the log of handler invocations grows: by the
invocations, with that event, of the handlers from the leaf up to the root. -/
theorem unclaimed_event_is_inert (deps : ethernet_communication_module_dependencies_t)
    (fuel : Nat) (m : Module) (s : ethernet_communication_module_states_t)
    (event : event_t) (rest : List event_t)
    (hwf : links_well_formed m = true)
    (hleaf : active_leaf m = some (some s))
    (hq : m.events_buffer = event :: rest)
    (hpair :
      (s = STATE_SOCKET_CLOSED ∧
        (event = EVENT_CLOSE_SOCKET ∨ event = EVENT_SOCKET_CLOSED ∨ event = EVENT_TIMEOUT ∨
          event = EVENT_OPEN_SOCKET)) ∨
      (s = STATE_OPENING_SOCKET ∧
        (event = EVENT_CLOSE_SOCKET ∨ event = EVENT_SOCKET_CLOSED ∨ event = EVENT_TIMEOUT)) ∨
      (s = STATE_SOCKET_OPENED ∧ (event = EVENT_TIMEOUT ∨ event = EVENT_OPEN_SOCKET)) ∨
      (s = STATE_RECEIVE ∧ event = EVENT_OPEN_SOCKET)) :
    process_event deps fuel m = some (true,
      { m with
        events_buffer := rest,
        dispatch_log := m.dispatch_log ++ (chain_to_root (some s)).map (fun node => (node, event)) })
    := by
  rcases hpair with ⟨rfl, h⟩ | ⟨rfl, h⟩ | ⟨rfl, h⟩ | ⟨rfl, rfl⟩
  · obtain ⟨hr, hc⟩ := (leaf_links m hwf _ hleaf).1 rfl
    rcases h with rfl | rfl | rfl | rfl <;>
      simp [process_event, pop_event, hq, state_machine_process_event, process_event_with,
        active_leaf, active_path, active_path_from, current_state, hr, hc, chain_to_root,
        path_to_root, parent, bubble, invoke, handler, state_socket_closed,
        ethernet_communication_module_handler]
  · obtain ⟨hr, hc⟩ := (leaf_links m hwf _ hleaf).1 rfl
    rcases h with rfl | rfl | rfl <;>
      simp [process_event, pop_event, hq, state_machine_process_event, process_event_with,
        active_leaf, active_path, active_path_from, current_state, hr, hc, chain_to_root,
        path_to_root, parent, bubble, invoke, handler, state_opening_socket,
        ethernet_communication_module_handler]
  · obtain ⟨hr, hc⟩ := (leaf_links m hwf _ hleaf).1 rfl
    rcases h with rfl | rfl <;>
      simp [process_event, pop_event, hq, state_machine_process_event, process_event_with,
        active_leaf, active_path, active_path_from, current_state, hr, hc, chain_to_root,
        path_to_root, parent, bubble, invoke, handler, state_socket_opened,
        ethernet_communication_module_handler]
  · obtain ⟨hr, ho, hc⟩ := (leaf_links m hwf _ hleaf).2 rfl
    simp [process_event, pop_event, hq, state_machine_process_event, process_event_with,
      active_leaf, active_path, active_path_from, current_state, hr, ho, hc, chain_to_root,
      path_to_root, parent, bubble, invoke, handler, state_socket_opened, state_receive,
      ethernet_communication_module_handler]

/-- Witness of C17: a Timeout event processed while the machine rests in Closed. -/
theorem unclaimed_event_is_inert_witness :
    links_well_formed (sample_module STATE_SOCKET_CLOSED none [49] 80 [EVENT_TIMEOUT, EVENT_SEND])
      = true ∧
    active_leaf (sample_module STATE_SOCKET_CLOSED none [49] 80 [EVENT_TIMEOUT, EVENT_SEND])
      = some (some STATE_SOCKET_CLOSED) ∧
    process_event (sample_dependencies 0 true true) 3
        (sample_module STATE_SOCKET_CLOSED none [49] 80 [EVENT_TIMEOUT, EVENT_SEND])
      = some (true,
          { sample_module STATE_SOCKET_CLOSED none [49] 80 [EVENT_TIMEOUT, EVENT_SEND] with
            events_buffer := [EVENT_SEND],
            dispatch_log :=
              [(some STATE_SOCKET_CLOSED, EVENT_TIMEOUT), (none, EVENT_TIMEOUT)] }) :=
  ⟨by decide, by decide,
   unclaimed_event_is_inert (sample_dependencies 0 true true) 3
     (sample_module STATE_SOCKET_CLOSED none [49] 80 [EVENT_TIMEOUT, EVENT_SEND])
     STATE_SOCKET_CLOSED EVENT_TIMEOUT [EVENT_SEND] (by decide) (by decide) rfl
     (Or.inl ⟨rfl, Or.inr (Or.inr (Or.inl rfl))⟩)⟩

/-- C20: bubbling in the Opened subtree.  For every well-formed configuration
whose active leaf is Receiving, a CloseSocket event is not claimed by Receiving
and is handled by Opened: Receiving and Opened are left (the timer is set to
0), Closing is entered, the adapter's `close_socket` is called exactly once, on
the current handle, and the active leaf ends as Closed, whatever the close
returns. -/
theorem close_socket_bubbles_from_receiving
    (deps : ethernet_communication_module_dependencies_t)
    (fuel : Nat) (m : Module)
    (hfuel : 3 ≤ fuel)
    (hwf : links_well_formed m = true)
    (hleaf : active_leaf m = some (some STATE_RECEIVE)) :
    ∃ m1, state_machine_process_event deps fuel EVENT_CLOSE_SOCKET m = some m1 ∧
      m1.dispatch_log = m.dispatch_log ++
        [(some STATE_RECEIVE, EVENT_CLOSE_SOCKET), (some STATE_SOCKET_OPENED, EVENT_CLOSE_SOCKET),
         (some STATE_RECEIVE, EVENT_LEAVING_STATE), (some STATE_SOCKET_OPENED, EVENT_LEAVING_STATE),
         (some STATE_CLOSING_SOCKET, EVENT_ENTERING_STATE),
         (some STATE_CLOSING_SOCKET, EVENT_LEAVING_STATE),
         (some STATE_SOCKET_CLOSED, EVENT_ENTERING_STATE)] ∧
      m1.timeout_timer = 0 ∧
      m1.adapter_log = m.adapter_log ++ [Call.close_socket m.open_socket_id] ∧
      m1.close_socket_calls = m.close_socket_calls + 1 ∧
      active_leaf m1 = some (some STATE_SOCKET_CLOSED) := by
  obtain ⟨hr, ho, hc⟩ := (leaf_links m hwf _ hleaf).2 rfl
  obtain ⟨h1, h2, h3, h4, h5, -, -⟩ := wf_cases m hwf
  obtain ⟨f, rfl⟩ : ∃ f, fuel = f + 3 := ⟨fuel - 3, by omega⟩
  by_cases herr : m.ethernet_communication_module_data.error = 0 <;>
  cases hclose : deps.close_socket m.close_socket_calls m.open_socket_id <;>
    simp [state_machine_process_event, process_event_with, active_leaf, herr,
      active_path, active_path_from, current_state, hr, ho, hc, chain_to_root, path_to_root,
      parent, bubble, invoke, handler, state_socket_closed, state_receive,
      state_closing_socket, state_socket_opened, call_close_socket, hclose,
      set_ethernet_communication_module_error, flush, circular_buffer_clear,
      transition, transition_with, schedule_timeout,
      target_path, shared_length, emit, set_links, set_current_state, h1, h5]

/-- Witness of C20: CloseSocket dispatched while the sample machine rests in Receiving. -/
theorem close_socket_bubbles_from_receiving_witness :
    links_well_formed (sample_module STATE_SOCKET_OPENED (some STATE_RECEIVE) [49] 80
      [EVENT_RECEIVE]) = true ∧
    active_leaf (sample_module STATE_SOCKET_OPENED (some STATE_RECEIVE) [49] 80
      [EVENT_RECEIVE]) = some (some STATE_RECEIVE) ∧
    (∃ m1, state_machine_process_event (sample_dependencies 0 true true) 3 EVENT_CLOSE_SOCKET
        (sample_module STATE_SOCKET_OPENED (some STATE_RECEIVE) [49] 80 [EVENT_RECEIVE])
        = some m1 ∧
      m1.timeout_timer = 0 ∧
      m1.adapter_log = [Call.close_socket 0] ∧
      active_leaf m1 = some (some STATE_SOCKET_CLOSED)) :=
  ⟨by decide, by decide,
   by
    obtain ⟨m1, h1, _, h3, h4, _, h6⟩ :=
      close_socket_bubbles_from_receiving (sample_dependencies 0 true true) 3
        (sample_module STATE_SOCKET_OPENED (some STATE_RECEIVE) [49] 80 [EVENT_RECEIVE])
        (le_refl 3) (by decide) (by decide)
    exact ⟨m1, h1, h3, h4, h6⟩⟩

/-! ## Faults -/

/-- C11 fails on the code when the close fails: a CloseSocket event is
dispatched to the sample machine resting in Opened with socket handle 0.  When
the adapter's `close_socket` succeeds the machine ends in Closed with the
handle at -1, an untouched queue and an empty record; when it fails the
machine ends in Closed with an empty queue and the record at OperationFailed
combined with the id of Closing (37), but the handle still holds 0. -/
theorem closing_keeps_handle_when_close_fails :
    (state_machine_process_event (sample_dependencies 0 true true) 3 EVENT_CLOSE_SOCKET
        (sample_module STATE_SOCKET_OPENED none [49] 80 [EVENT_SEND])).map
      (fun m => (active_leaf m, m.open_socket_id, m.events_buffer,
        m.ethernet_communication_module_data))
      = some (some (some STATE_SOCKET_CLOSED), -1, [EVENT_SEND],
          { error := 0, platform_specific_error_code := 0 }) ∧
    (state_machine_process_event (sample_dependencies 0 true false) 3 EVENT_CLOSE_SOCKET
        (sample_module STATE_SOCKET_OPENED none [49] 80 [EVENT_SEND])).map
      (fun m => (active_leaf m, m.open_socket_id, m.events_buffer,
        m.ethernet_communication_module_data))
      = some (some (some STATE_SOCKET_CLOSED), 0, [],
          { error := 37, platform_specific_error_code := 0 }) := by
  constructor <;> decide

/-- The entering-state event of Closing, in general: with a successful close
the handle is set to -1 before the transition to Closed is requested; with a
failing close the fault is reported, the queue is flushed and the handle is
left as it was. -/
theorem closing_socket_entered (deps : ethernet_communication_module_dependencies_t)
    (tr : ethernet_communication_module_states_t → Module → Option Module) (m : Module) :
    (deps.close_socket m.close_socket_calls m.open_socket_id = true →
      state_closing_socket deps tr STATE_CLOSING_SOCKET EVENT_ENTERING_STATE m =
        (tr STATE_SOCKET_CLOSED { (call_close_socket deps m).2 with open_socket_id := -1 }).map
          (fun m1 => (true, m1))) ∧
    (deps.close_socket m.close_socket_calls m.open_socket_id = false →
      state_closing_socket deps tr STATE_CLOSING_SOCKET EVENT_ENTERING_STATE m =
        (tr STATE_SOCKET_CLOSED
          (flush (set_ethernet_communication_module_error deps ETHERNET_OPERATION_FAILED
            (state_id STATE_CLOSING_SOCKET) (call_close_socket deps m).2))).map
          (fun m1 => (true, m1)) ∧
      (flush (set_ethernet_communication_module_error deps ETHERNET_OPERATION_FAILED
        (state_id STATE_CLOSING_SOCKET) (call_close_socket deps m).2)).open_socket_id
        = m.open_socket_id) := by
  constructor
  · intro h
    simp [state_closing_socket, call_close_socket, h]
  · intro h
    refine ⟨by simp [state_closing_socket, call_close_socket, h], ?_⟩
    unfold set_ethernet_communication_module_error
    split <;> rfl

/-- C12: every process step in which a handler reports a fault of kind
OperationFailed or SocketClosed ends with an empty queue and with Closed as the
active leaf, and with a non-empty record.  The steps are: the third
failed open in Opening; a short or failed write after a Send event in the Opened
subtree; a negative read in Receiving; SocketClosed in the Opened subtree; a
failing close after a CloseSocket event in the Opened subtree.  The path goes
to Closed directly or through Closing, whose close may succeed or fail. -/
theorem faults_converge_on_closed (deps : ethernet_communication_module_dependencies_t)
    (fuel : Nat) (m : Module) (s : ethernet_communication_module_states_t)
    (event : event_t) (rest : List event_t)
    (hfuel : 3 ≤ fuel)
    (hwf : links_well_formed m = true)
    (hleaf : active_leaf m = some (some s))
    (hq : m.events_buffer = event :: rest)
    (hfault :
      (s = STATE_OPENING_SOCKET ∧ event = EVENT_OPEN_SOCKET ∧
        deps.open_socket m.open_socket_calls m.server_ip m.server_port < 0 ∧
        (m.open_socket_retries + 1) % 256 = OPEN_SOCKET_MAX_RETRIES) ∨
      ((s = STATE_SOCKET_OPENED ∨ s = STATE_SEND ∨ s = STATE_RECEIVE) ∧ event = EVENT_SEND ∧
        deps.send m.send_calls m.open_socket_id m.data m.data_size ≠ (m.data_size : Int)) ∨
      (s = STATE_RECEIVE ∧ event = EVENT_RECEIVE ∧
        deps.receive m.receive_calls m.open_socket_id m.buffer m.buffer_size < 0) ∨
      ((s = STATE_SOCKET_OPENED ∨ s = STATE_SEND ∨ s = STATE_RECEIVE) ∧
        event = EVENT_SOCKET_CLOSED) ∨
      ((s = STATE_SOCKET_OPENED ∨ s = STATE_SEND ∨ s = STATE_RECEIVE) ∧
        event = EVENT_CLOSE_SOCKET ∧
        deps.close_socket m.close_socket_calls m.open_socket_id = false)) :
    ∃ m1, process_event deps fuel m = some (true, m1) ∧
      m1.events_buffer = [] ∧
      active_leaf m1 = some (some STATE_SOCKET_CLOSED) ∧
      m1.ethernet_communication_module_data.error ≠ 0 := by
  obtain ⟨h1, h2, h3, h4, h5, -, -⟩ := wf_cases m hwf
  obtain ⟨f, rfl⟩ : ∃ f, fuel = f + 3 := ⟨fuel - 3, by omega⟩
  have n1 : deps.error_value ETHERNET_OPERATION_FAILED ||| state_id STATE_OPENING_SOCKET ≠ 0 :=
    or_ne_zero_of_right _ _ (by decide)
  have n2 : deps.error_value ETHERNET_SOCKET_CLOSED ||| state_id STATE_SOCKET_OPENED ≠ 0 :=
    or_ne_zero_of_right _ _ (by decide)
  have n3 : deps.error_value ETHERNET_OPERATION_FAILED ||| state_id STATE_SEND ≠ 0 :=
    or_ne_zero_of_right _ _ (by decide)
  have n4 : deps.error_value ETHERNET_OPERATION_FAILED ||| state_id STATE_RECEIVE ≠ 0 :=
    or_ne_zero_of_right _ _ (by decide)
  have n5 : deps.error_value ETHERNET_SOCKET_CLOSED ||| state_id STATE_RECEIVE ≠ 0 :=
    or_ne_zero_of_right _ _ (by decide)
  have n6 : deps.error_value ETHERNET_OPERATION_FAILED ||| state_id STATE_CLOSING_SOCKET ≠ 0 :=
    or_ne_zero_of_right _ _ (by decide)
  rcases hfault with ⟨rfl, rfl, hopen, hret⟩ | ⟨hs, rfl, hwrite⟩ | ⟨rfl, rfl, hread⟩ |
    ⟨hs, rfl⟩ | ⟨hs, rfl, hclose⟩
  · obtain ⟨hr, hc⟩ := (leaf_links m hwf _ hleaf).1 rfl
    have g := not_le.mpr hopen
    by_cases herr : m.ethernet_communication_module_data.error = 0 <;>
      simp [process_event, pop_event, hq, state_machine_process_event, process_event_with,
        active_leaf, active_path, active_path_from, current_state, hr, hc, chain_to_root,
        path_to_root, parent, bubble, invoke, handler, state_socket_closed,
        state_opening_socket, call_open_socket, g, hret, herr, n1,
        set_ethernet_communication_module_error, flush, circular_buffer_clear,
        transition, transition_with, target_path, shared_length, emit, set_links,
        set_current_state, h1]
  · rcases hs with rfl | rfl | rfl
    · obtain ⟨hr, hc⟩ := (leaf_links m hwf _ hleaf).1 rfl
      by_cases herr : m.ethernet_communication_module_data.error = 0 <;>
      cases hclose : deps.close_socket m.close_socket_calls m.open_socket_id <;>
        simp [process_event, pop_event, hq, state_machine_process_event, process_event_with,
          active_leaf, active_path, active_path_from, current_state, hr, hc, chain_to_root,
          path_to_root, parent, bubble, invoke, handler, state_socket_closed,
          state_socket_opened, state_send, state_closing_socket, call_send, call_close_socket,
          hwrite, hclose, herr, n3, n6, schedule_timeout,
          set_ethernet_communication_module_error, flush, circular_buffer_clear,
          transition, transition_with, target_path, shared_length, emit, set_links,
          set_current_state, h1, h3, h5]
    · obtain ⟨hr, ho, hc⟩ := (leaf_links m hwf _ hleaf).2 rfl
      by_cases herr : m.ethernet_communication_module_data.error = 0 <;>
      cases hclose : deps.close_socket m.close_socket_calls m.open_socket_id <;>
        simp [process_event, pop_event, hq, state_machine_process_event, process_event_with,
          active_leaf, active_path, active_path_from, current_state, hr, ho, hc, chain_to_root,
          path_to_root, parent, bubble, invoke, handler, state_socket_closed,
          state_socket_opened, state_send, state_closing_socket, call_send, call_close_socket,
          hwrite, hclose, herr, n3, n6, schedule_timeout,
          set_ethernet_communication_module_error, flush, circular_buffer_clear,
          transition, transition_with, target_path, shared_length, emit, set_links,
          set_current_state, h1, h3, h5]
    · obtain ⟨hr, ho, hc⟩ := (leaf_links m hwf _ hleaf).2 rfl
      by_cases herr : m.ethernet_communication_module_data.error = 0 <;>
      cases hclose : deps.close_socket m.close_socket_calls m.open_socket_id <;>
        simp [process_event, pop_event, hq, state_machine_process_event, process_event_with,
          active_leaf, active_path, active_path_from, current_state, hr, ho, hc, chain_to_root,
          path_to_root, parent, bubble, invoke, handler, state_socket_closed,
          state_socket_opened, state_send, state_receive, state_closing_socket, call_send,
          call_close_socket, hwrite, hclose, herr, n3, n6, schedule_timeout,
          set_ethernet_communication_module_error, flush, circular_buffer_clear,
          transition, transition_with, target_path, shared_length, emit, set_links,
          set_current_state, h1, h3, h5]
  · obtain ⟨hr, ho, hc⟩ := (leaf_links m hwf _ hleaf).2 rfl
    have g : ¬ (0 < deps.receive m.receive_calls m.open_socket_id m.buffer m.buffer_size) := by
      omega
    have g0 : deps.receive m.receive_calls m.open_socket_id m.buffer m.buffer_size ≠ 0 := by
      omega
    by_cases herr : m.ethernet_communication_module_data.error = 0 <;>
    cases hclose : deps.close_socket m.close_socket_calls m.open_socket_id <;>
      simp [process_event, pop_event, hq, state_machine_process_event, process_event_with,
        active_leaf, active_path, active_path_from, current_state, hr, ho, hc, chain_to_root,
        path_to_root, parent, bubble, invoke, handler, state_socket_closed,
        state_socket_opened, state_receive, state_closing_socket, call_receive,
        call_close_socket, g, g0, hclose, herr, n4, n6, schedule_timeout,
        store_received_data_size,
        set_ethernet_communication_module_error, flush, circular_buffer_clear,
        transition, transition_with, target_path, shared_length, emit, set_links,
        set_current_state, h1, h5]
  · rcases hs with rfl | rfl | rfl
    · obtain ⟨hr, hc⟩ := (leaf_links m hwf _ hleaf).1 rfl
      by_cases herr : m.ethernet_communication_module_data.error = 0 <;>
        simp [process_event, pop_event, hq, state_machine_process_event, process_event_with,
          active_leaf, active_path, active_path_from, current_state, hr, hc, chain_to_root,
          path_to_root, parent, bubble, invoke, handler, state_socket_closed,
          state_socket_opened, herr, n2,
          set_ethernet_communication_module_error, flush, circular_buffer_clear,
          transition, transition_with, target_path, shared_length, emit, set_links,
          set_current_state, h1]
    · obtain ⟨hr, ho, hc⟩ := (leaf_links m hwf _ hleaf).2 rfl
      by_cases herr : m.ethernet_communication_module_data.error = 0 <;>
        simp [process_event, pop_event, hq, state_machine_process_event, process_event_with,
          active_leaf, active_path, active_path_from, current_state, hr, ho, hc, chain_to_root,
          path_to_root, parent, bubble, invoke, handler, state_socket_closed,
          state_socket_opened, state_send, herr, n2,
          set_ethernet_communication_module_error, flush, circular_buffer_clear,
          transition, transition_with, target_path, shared_length, emit, set_links,
          set_current_state, h1]
    · obtain ⟨hr, ho, hc⟩ := (leaf_links m hwf _ hleaf).2 rfl
      by_cases herr : m.ethernet_communication_module_data.error = 0 <;>
        simp [process_event, pop_event, hq, state_machine_process_event, process_event_with,
          active_leaf, active_path, active_path_from, current_state, hr, ho, hc, chain_to_root,
          path_to_root, parent, bubble, invoke, handler, state_socket_closed,
          state_socket_opened, state_receive, herr, n5, schedule_timeout,
          set_ethernet_communication_module_error, flush, circular_buffer_clear,
          transition, transition_with, target_path, shared_length, emit, set_links,
          set_current_state, h1]
  · rcases hs with rfl | rfl | rfl
    · obtain ⟨hr, hc⟩ := (leaf_links m hwf _ hleaf).1 rfl
      by_cases herr : m.ethernet_communication_module_data.error = 0 <;>
        simp [process_event, pop_event, hq, state_machine_process_event, process_event_with,
          active_leaf, active_path, active_path_from, current_state, hr, hc, chain_to_root,
          path_to_root, parent, bubble, invoke, handler, state_socket_closed,
          state_socket_opened, state_closing_socket, call_close_socket, hclose, herr, n6,
          set_ethernet_communication_module_error, flush, circular_buffer_clear,
          transition, transition_with, target_path, shared_length, emit, set_links,
          set_current_state, h1, h5]
    · obtain ⟨hr, ho, hc⟩ := (leaf_links m hwf _ hleaf).2 rfl
      by_cases herr : m.ethernet_communication_module_data.error = 0 <;>
        simp [process_event, pop_event, hq, state_machine_process_event, process_event_with,
          active_leaf, active_path, active_path_from, current_state, hr, ho, hc, chain_to_root,
          path_to_root, parent, bubble, invoke, handler, state_socket_closed,
          state_socket_opened, state_send, state_closing_socket, call_close_socket, hclose,
          herr, n6,
          set_ethernet_communication_module_error, flush, circular_buffer_clear,
          transition, transition_with, target_path, shared_length, emit, set_links,
          set_current_state, h1, h5]
    · obtain ⟨hr, ho, hc⟩ := (leaf_links m hwf _ hleaf).2 rfl
      by_cases herr : m.ethernet_communication_module_data.error = 0 <;>
        simp [process_event, pop_event, hq, state_machine_process_event, process_event_with,
          active_leaf, active_path, active_path_from, current_state, hr, ho, hc, chain_to_root,
          path_to_root, parent, bubble, invoke, handler, state_socket_closed,
          state_socket_opened, state_receive, state_closing_socket, call_close_socket, hclose,
          herr, n6, schedule_timeout,
          set_ethernet_communication_module_error, flush, circular_buffer_clear,
          transition, transition_with, target_path, shared_length, emit, set_links,
          set_current_state, h1, h5]

/-- Witness of C12: a negative read in Receiving with two more events pending,
and a close that fails. -/
theorem faults_converge_on_closed_witness :
    links_well_formed (sample_module STATE_SOCKET_OPENED (some STATE_RECEIVE) [49] 80
      [EVENT_RECEIVE, EVENT_SEND, EVENT_TIMEOUT]) = true ∧
    active_leaf (sample_module STATE_SOCKET_OPENED (some STATE_RECEIVE) [49] 80
      [EVENT_RECEIVE, EVENT_SEND, EVENT_TIMEOUT]) = some (some STATE_RECEIVE) ∧
    ({ sample_dependencies 0 true false with receive := fun _ _ _ _ => -1 } :
      ethernet_communication_module_dependencies_t).receive 0 0 0 0 < 0 ∧
    (∃ m1, process_event
        { sample_dependencies 0 true false with receive := fun _ _ _ _ => -1 } 3
        (sample_module STATE_SOCKET_OPENED (some STATE_RECEIVE) [49] 80
          [EVENT_RECEIVE, EVENT_SEND, EVENT_TIMEOUT]) = some (true, m1) ∧
      m1.events_buffer = [] ∧
      active_leaf m1 = some (some STATE_SOCKET_CLOSED) ∧
      m1.ethernet_communication_module_data.error ≠ 0) :=
  ⟨by decide, by decide, by decide,
   faults_converge_on_closed
     { sample_dependencies 0 true false with receive := fun _ _ _ _ => -1 } 3
     (sample_module STATE_SOCKET_OPENED (some STATE_RECEIVE) [49] 80
       [EVENT_RECEIVE, EVENT_SEND, EVENT_TIMEOUT])
     STATE_RECEIVE EVENT_RECEIVE [EVENT_SEND, EVENT_TIMEOUT] (le_refl 3) (by decide) (by decide)
     rfl (Or.inr (Or.inr (Or.inl ⟨rfl, rfl, by decide⟩)))⟩

/-! ## Self-transitions -/

/-- In a well-formed configuration the active path is the root-to-leaf path of
the active leaf. -/
theorem leaf_active_path (m : Module) (hwf : links_well_formed m = true)
    (s : ethernet_communication_module_states_t) (hleaf : active_leaf m = some (some s)) :
    active_path m = some (target_path s) := by
  have hl := leaf_links m hwf s hleaf
  cases s
  case STATE_SEND =>
    obtain ⟨hr, ho, hc⟩ := hl.2 rfl
    simp [active_path, active_path_from, current_state, hr, ho, hc, target_path, path_to_root,
      parent]
  case STATE_RECEIVE =>
    obtain ⟨hr, ho, hc⟩ := hl.2 rfl
    simp [active_path, active_path_from, current_state, hr, ho, hc, target_path, path_to_root,
      parent]
  all_goals
    obtain ⟨hr, hc⟩ := hl.1 rfl
    simp [active_path, active_path_from, current_state, hr, hc, target_path, path_to_root,
      parent]

/-- C18: a transition whose target is the currently active leaf `s`, for every
state `s` and every table of handlers: the engine emits the leaving-state event
to `s`, sets the links along the path of `s`, and emits the entering-state
event to `s`; it emits nothing to the ancestors of `s` or to the root, the
unchanged shared part of the path.  For the states whose entry action requests
no further transition (Closed, Opening, Opened, Receiving) the log of handler
invocations grows by exactly these two entries and the links are unchanged. -/
theorem self_transition_events (m : Module) (s : ethernet_communication_module_states_t)
    (hwf : links_well_formed m = true)
    (hleaf : active_leaf m = some (some s)) :
    (∀ h : Node → event_t → Module → Option (Bool × Module),
      transition_with h s m =
        match invoke h (some s) EVENT_LEAVING_STATE m with
        | none => none
        | some r =>
          match invoke h (some s) EVENT_ENTERING_STATE (set_links none (target_path s) r.2) with
          | none => none
          | some r1 => some r1.2) ∧
    (∀ (deps : ethernet_communication_module_dependencies_t)
       (tr : ethernet_communication_module_states_t → Module → Option Module),
      s = STATE_SOCKET_CLOSED ∨ s = STATE_OPENING_SOCKET ∨ s = STATE_SOCKET_OPENED ∨
        s = STATE_RECEIVE →
      ∃ m1, transition_with (handler deps tr) s m = some m1 ∧
        m1.dispatch_log = m.dispatch_log ++
          [(some s, EVENT_LEAVING_STATE), (some s, EVENT_ENTERING_STATE)] ∧
        m1.state_machine_current_state = m.state_machine_current_state ∧
        m1.states_current_state = m.states_current_state) := by
  have hp := leaf_active_path m hwf s hleaf
  have hl := leaf_links m hwf s hleaf
  constructor
  · intro h
    cases hi : invoke h (some s) EVENT_LEAVING_STATE m
    · cases s <;>
        simp [transition_with, hp, target_path, path_to_root, parent, shared_length, emit, hi]
    · cases s <;>
        simp only [transition_with, hp, target_path, path_to_root, parent, shared_length, emit,
          hi, List.reverse_cons, List.reverse_nil, List.nil_append, List.dropLast,
          List.drop, ite_true, List.reverse_append]
  · intro deps tr hs
    rcases hs with rfl | rfl | rfl | rfl
    · obtain ⟨hr, hc⟩ := hl.1 rfl
      simp [transition_with, hp, target_path, path_to_root, parent, shared_length, emit,
        invoke, handler, state_socket_closed, set_links, set_current_state, hr]
    · obtain ⟨hr, hc⟩ := hl.1 rfl
      simp [transition_with, hp, target_path, path_to_root, parent, shared_length, emit,
        invoke, handler, state_opening_socket, set_links, set_current_state, hr,
        send_command_response_string, push]
    · obtain ⟨hr, hc⟩ := hl.1 rfl
      simp [transition_with, hp, target_path, path_to_root, parent, shared_length, emit,
        invoke, handler, state_socket_opened, set_links, set_current_state, hr]
      exact hc.symm
    · obtain ⟨hr, ho, hc⟩ := hl.2 rfl
      simp [transition_with, hp, target_path, path_to_root, parent, shared_length, emit,
        invoke, handler, state_receive, set_links, set_current_state, hr, schedule_timeout,
        push]
      exact ho.symm

/-- Witness of C18: the transition to Closed that `init_ethernet_communication_module`
performs while Closed is already the active child of the root invokes the
handler of Closed twice and the handler of the root not at all. -/
theorem self_transition_events_witness :
    links_well_formed
      { power_on [49] 80 (fun _ => 0) with
        state_machine_current_state := some STATE_SOCKET_CLOSED } = true ∧
    active_leaf
      { power_on [49] 80 (fun _ => 0) with
        state_machine_current_state := some STATE_SOCKET_CLOSED }
      = some (some STATE_SOCKET_CLOSED) ∧
    (∃ m1, init_ethernet_communication_module (sample_dependencies 0 true true) 1
        (power_on [49] 80 (fun _ => 0)) = some m1 ∧
      m1.dispatch_log =
        [(some STATE_SOCKET_CLOSED, EVENT_LEAVING_STATE),
         (some STATE_SOCKET_CLOSED, EVENT_ENTERING_STATE)]) := by
  refine ⟨by decide, by decide, ?_⟩
  obtain ⟨m1, h1, h2, _, _⟩ :=
    (self_transition_events
      { power_on [49] 80 (fun _ => 0) with
        state_machine_current_state := some STATE_SOCKET_CLOSED }
      STATE_SOCKET_CLOSED (by decide) (by decide)).2
      (sample_dependencies 0 true true) (transition (sample_dependencies 0 true true) 0)
      (Or.inl rfl)
  exact ⟨m1, h1, h2⟩

/-! ## Deferred operations -/

/-- C19: end-to-end deferral.  A send issued while the active leaf is Closed
with the connection parameters configured and an empty queue, when
`open_socket` first succeeds on its `k`-th call (`k` = 1, 2 or 3) and the write
on the opened socket returns the full length: polling reaches quiescence after
`2 k + 2` events with an empty record, the active leaf Opened, an empty queue,
exactly `k` calls of `open_socket` and exactly one write, on the handle that
`open_socket` returned. -/
theorem deferred_send_is_executed_once (deps : ethernet_communication_module_dependencies_t)
    (fuel bound : Nat) (m : Module) (d n k : Nat)
    (hfuel : 3 ≤ fuel)
    (hwf : links_well_formed m = true)
    (hleaf : active_leaf m = some (some STATE_SOCKET_CLOSED))
    (hq : m.events_buffer = [])
    (hip : first_byte m.server_ip ≠ 0) (hport : m.server_port ≠ 0)
    (hk : k = 1 ∨ k = 2 ∨ k = 3)
    (hfail : ∀ i, i + 1 < k →
      deps.open_socket (m.open_socket_calls + i) m.server_ip m.server_port < 0)
    (hok : 0 ≤ deps.open_socket (m.open_socket_calls + (k - 1)) m.server_ip m.server_port)
    (hwrite : deps.send m.send_calls
      (deps.open_socket (m.open_socket_calls + (k - 1)) m.server_ip m.server_port) d n
        = (n : Int)) :
    ∃ m1, poll deps fuel (bound + 2 * k + 3) (ethernet_communication_module_send d n m)
        = some (2 * k + 2, m1) ∧
      m1.ethernet_communication_module_data = { error := 0, platform_specific_error_code := 0 } ∧
      active_leaf m1 = some (some STATE_SOCKET_OPENED) ∧
      m1.events_buffer = [] ∧
      m1.open_socket_calls = m.open_socket_calls + k ∧
      m1.send_calls = m.send_calls + 1 ∧
      m1.adapter_log = m.adapter_log ++ [Call.send_response] ++
        List.replicate k (Call.open_socket m.server_ip m.server_port) ++
        [Call.send (deps.open_socket (m.open_socket_calls + (k - 1)) m.server_ip m.server_port)
          d n] := by
  obtain ⟨hr, hc⟩ := (leaf_links m hwf _ hleaf).1 rfl
  obtain ⟨h1, h2, h3, h4, h5, -, -⟩ := wf_cases m hwf
  obtain ⟨f, rfl⟩ : ∃ f, fuel = f + 3 := ⟨fuel - 3, by omega⟩
  rcases hk with rfl | rfl | rfl
  · simp only [Nat.sub_self, Nat.add_zero] at hok hwrite
    simp [poll, process_event, pop_event, ethernet_communication_module_send, push,
      add_event_type, hq, EVENTS_BUFFER_SIZE, state_machine_process_event, process_event_with,
      active_leaf, active_path, active_path_from, current_state, hr, chain_to_root,
      path_to_root, parent, bubble, invoke, handler, state_socket_closed,
      state_opening_socket, state_socket_opened, state_send, connection_parameters_set,
      zero_data, hip, hport, transition, transition_with, target_path, shared_length, emit,
      set_links, set_current_state, h1, h2, h3, send_command_response_string,
      call_open_socket, call_send, hok, hwrite, OPEN_SOCKET_MAX_RETRIES, Nat.add_assoc,
      List.replicate]
  · have g0 := not_le.mpr (hfail 0 (by omega))
    simp only [Nat.add_zero] at g0
    have hok1 : 0 ≤ deps.open_socket (m.open_socket_calls + 1) m.server_ip m.server_port := hok
    have hwrite1 : deps.send m.send_calls
        (deps.open_socket (m.open_socket_calls + 1) m.server_ip m.server_port) d n = (n : Int) :=
      hwrite
    simp [poll, process_event, pop_event, ethernet_communication_module_send, push,
      add_event_type, hq, EVENTS_BUFFER_SIZE, state_machine_process_event, process_event_with,
      active_leaf, active_path, active_path_from, current_state, hr, chain_to_root,
      path_to_root, parent, bubble, invoke, handler, state_socket_closed,
      state_opening_socket, state_socket_opened, state_send, connection_parameters_set,
      zero_data, hip, hport, transition, transition_with, target_path, shared_length, emit,
      set_links, set_current_state, h1, h2, h3, send_command_response_string,
      call_open_socket, call_send, g0, hok1, hwrite1, OPEN_SOCKET_MAX_RETRIES, Nat.add_assoc,
      List.replicate]
  · have g0 := not_le.mpr (hfail 0 (by omega))
    have g1 := not_le.mpr (hfail 1 (by omega))
    simp only [Nat.add_zero] at g0
    have hok2 : 0 ≤ deps.open_socket (m.open_socket_calls + 2) m.server_ip m.server_port := hok
    have hwrite2 : deps.send m.send_calls
        (deps.open_socket (m.open_socket_calls + 2) m.server_ip m.server_port) d n = (n : Int) :=
      hwrite
    simp [poll, process_event, pop_event, ethernet_communication_module_send, push,
      add_event_type, hq, EVENTS_BUFFER_SIZE, state_machine_process_event, process_event_with,
      active_leaf, active_path, active_path_from, current_state, hr, chain_to_root,
      path_to_root, parent, bubble, invoke, handler, state_socket_closed,
      state_opening_socket, state_socket_opened, state_send, connection_parameters_set,
      zero_data, hip, hport, transition, transition_with, target_path, shared_length, emit,
      set_links, set_current_state, h1, h2, h3, send_command_response_string,
      call_open_socket, call_send, g0, g1, hok2, hwrite2, OPEN_SOCKET_MAX_RETRIES,
      Nat.add_assoc, List.replicate]

/-- Witness of C19: the first two calls of `open_socket` fail, the third returns
handle 7, and the write of five bytes is complete. -/
theorem deferred_send_is_executed_once_witness :
    links_well_formed (sample_module STATE_SOCKET_CLOSED none [49] 80 []) = true ∧
    active_leaf (sample_module STATE_SOCKET_CLOSED none [49] 80 [])
      = some (some STATE_SOCKET_CLOSED) ∧
    (∃ m1, poll
        { sample_dependencies 0 true true with
          open_socket := fun i _ _ => if i < 2 then -1 else 7 } 3 9
        (ethernet_communication_module_send 100 5 (sample_module STATE_SOCKET_CLOSED none [49] 80 []))
        = some (8, m1) ∧
      m1.ethernet_communication_module_data = { error := 0, platform_specific_error_code := 0 } ∧
      active_leaf m1 = some (some STATE_SOCKET_OPENED) ∧
      m1.events_buffer = [] ∧
      m1.open_socket_calls = 3 ∧
      m1.send_calls = 1) := by
  refine ⟨by decide, by decide, ?_⟩
  obtain ⟨m1, h1, h2, h3, h4, h5, h6, _⟩ :=
    deferred_send_is_executed_once
      { sample_dependencies 0 true true with
        open_socket := fun i _ _ => if i < 2 then -1 else 7 } 3 0
      (sample_module STATE_SOCKET_CLOSED none [49] 80 []) 100 5 3
      (le_refl 3) (by decide) (by decide) rfl (by decide) (by decide)
      (Or.inr (Or.inr rfl))
      (fun i hi => by
        have hi2 : i < 2 := by omega
        show (if 0 + i < 2 then (-1 : Int) else 7) < 0
        simp [hi2])
      (by decide) (by decide)
  exact ⟨m1, h1, h2, h3, h4, h5, h6⟩

/-! ## One sojourn in Opening -/

/-- A push of one of the six module events keeps the queue free of pseudo-events. -/
theorem no_pseudo_add (q : List event_t) (e : event_t)
    (hq : no_pseudo_events q = true)
    (he : e ≠ EVENT_ENTERING_STATE ∧ e ≠ EVENT_LEAVING_STATE) :
    no_pseudo_events (add_event_type q e) = true := by
  unfold no_pseudo_events at hq ⊢
  unfold add_event_type
  rw [List.all_eq_true] at hq ⊢
  intro x hx
  split at hx
  · rcases List.mem_append.mp hx with h | h
    · exact hq x h
    · simp only [List.mem_singleton] at h
      subst h
      simp [he.1, he.2]
  · rcases List.mem_append.mp hx with h | h
    · exact hq x (List.mem_of_mem_drop h)
    · simp only [List.mem_singleton] at h
      subst h
      simp [he.1, he.2]

/-- The head and the rest of a queue free of pseudo-events. -/
theorem no_pseudo_cons (e : event_t) (rest : List event_t)
    (hq : no_pseudo_events (e :: rest) = true) :
    (e ≠ EVENT_ENTERING_STATE ∧ e ≠ EVENT_LEAVING_STATE) ∧ no_pseudo_events rest = true := by
  simp only [no_pseudo_events, List.all_cons, Bool.and_eq_true, bne_iff_ne, ne_eq] at hq ⊢
  exact ⟨hq.1, hq.2⟩

/-- A sojourn in Opening goes on in a state that differs from a state of the
sojourn only in fields that the sojourn does not depend on. -/
theorem opening_sojourn_stays (deps : ethernet_communication_module_dependencies_t)
    (c0 : Nat) (m m1 : Module) (hin : in_opening_sojourn deps c0 m)
    (h1 : m1.state_machine_current_state = m.state_machine_current_state)
    (h2 : m1.states_current_state = m.states_current_state)
    (h3 : no_pseudo_events m1.events_buffer = true)
    (h4 : m1.open_socket_retries = m.open_socket_retries)
    (h5 : m1.open_socket_calls = m.open_socket_calls)
    (h6 : m1.server_ip = m.server_ip)
    (h7 : m1.server_port = m.server_port) :
    in_opening_sojourn deps c0 m1 := by
  obtain ⟨hr, hc, hcl, _, hret, hcalls, hneg⟩ := hin
  refine ⟨by rw [h1, hr], by rw [h2, hc], by rw [h2, hcl], h3, by rw [h4]; exact hret,
    by rw [h5, h4]; exact hcalls, ?_⟩
  intro i hi
  rw [h6, h7]
  exact hneg i (by rw [← h4]; exact hi)

/-- The tick signal does not end a sojourn in Opening. -/
theorem opening_sojourn_tick (deps : ethernet_communication_module_dependencies_t)
    (c0 : Nat) (m : Module) (hin : in_opening_sojourn deps c0 m) :
    in_opening_sojourn deps c0 (second_expired_listener m) := by
  have hnp := hin.2.2.2.1
  unfold second_expired_listener
  split
  · simp only
    split
    · exact opening_sojourn_stays deps c0 m _ hin rfl rfl
        (no_pseudo_add _ _ hnp (by decide)) rfl rfl rfl rfl
    · exact opening_sojourn_stays deps c0 m _ hin rfl rfl hnp rfl rfl rfl rfl
  · exact hin

/-- One action during a sojourn in Opening: the action returns, and the sojourn
goes on or ends in Opened or ends in Closed. -/
theorem opening_sojourn_step (deps : ethernet_communication_module_dependencies_t)
    (fuel c0 : Nat) (m : Module) (a : Action) (hfuel : 3 ≤ fuel)
    (hin : in_opening_sojourn deps c0 m) :
    ∃ m1, perform deps fuel a m = some m1 ∧
      (in_opening_sojourn deps c0 m1 ∨ opening_sojourn_ended_in_opened deps c0 m1 ∨
        opening_sojourn_ended_in_closed deps c0 m1) := by
  have hin0 := hin
  obtain ⟨hr, hc, hcl, hnp, hret, hcalls, hneg⟩ := hin
  obtain ⟨f, rfl⟩ : ∃ f, fuel = f + 3 := ⟨fuel - 3, by omega⟩
  cases a with
  | send d n =>
    exact ⟨_, rfl, Or.inl (opening_sojourn_stays deps c0 m _ hin0 rfl rfl
      (no_pseudo_add _ _ hnp (by decide)) rfl rfl rfl rfl)⟩
  | receive b cap out =>
    exact ⟨_, rfl, Or.inl (opening_sojourn_stays deps c0 m _ hin0 rfl rfl
      (no_pseudo_add _ _ hnp (by decide)) rfl rfl rfl rfl)⟩
  | close_socket =>
    exact ⟨_, rfl, Or.inl (opening_sojourn_stays deps c0 m _ hin0 rfl rfl
      (no_pseudo_add _ _ hnp (by decide)) rfl rfl rfl rfl)⟩
  | tick => exact ⟨_, rfl, Or.inl (opening_sojourn_tick deps c0 m hin0)⟩
  | socket_closed =>
    exact ⟨_, rfl, Or.inl (opening_sojourn_stays deps c0 m _ hin0 rfl rfl
      (no_pseudo_add _ _ hnp (by decide)) rfl rfl rfl rfl)⟩
  | error_code code =>
    exact ⟨_, rfl, Or.inl (opening_sojourn_stays deps c0 m _ hin0 rfl rfl hnp rfl rfl rfl rfl)⟩
  | poll =>
    cases hq : m.events_buffer with
    | nil =>
      refine ⟨m, ?_, Or.inl hin0⟩
      simp [perform, process_event, pop_event, hq]
    | cons e rest =>
      rw [hq] at hnp
      obtain ⟨he, hrest⟩ := no_pseudo_cons e rest hnp
      cases e with
      | EVENT_ENTERING_STATE => exact absurd rfl he.1
      | EVENT_LEAVING_STATE => exact absurd rfl he.2
      | EVENT_SEND =>
        refine ⟨{ m with
          events_buffer := add_event_type rest EVENT_SEND,
          dispatch_log := m.dispatch_log ++ [(some STATE_OPENING_SOCKET, EVENT_SEND)] }, ?_,
          Or.inl (opening_sojourn_stays deps c0 m _ hin0 rfl rfl
            (no_pseudo_add _ _ hrest (by decide)) rfl rfl rfl rfl)⟩
        simp [perform, process_event, pop_event, hq, state_machine_process_event,
          process_event_with, active_leaf, active_path, active_path_from, current_state, hr,
          hc, chain_to_root, path_to_root, parent, bubble, invoke, handler,
          state_opening_socket, push]
      | EVENT_RECEIVE =>
        refine ⟨{ m with
          events_buffer := add_event_type rest EVENT_RECEIVE,
          dispatch_log := m.dispatch_log ++ [(some STATE_OPENING_SOCKET, EVENT_RECEIVE)] }, ?_,
          Or.inl (opening_sojourn_stays deps c0 m _ hin0 rfl rfl
            (no_pseudo_add _ _ hrest (by decide)) rfl rfl rfl rfl)⟩
        simp [perform, process_event, pop_event, hq, state_machine_process_event,
          process_event_with, active_leaf, active_path, active_path_from, current_state, hr,
          hc, chain_to_root, path_to_root, parent, bubble, invoke, handler,
          state_opening_socket, push]
      | EVENT_CLOSE_SOCKET =>
        refine ⟨{ m with
          events_buffer := rest,
          dispatch_log := m.dispatch_log ++
            [(some STATE_OPENING_SOCKET, EVENT_CLOSE_SOCKET), (none, EVENT_CLOSE_SOCKET)] }, ?_,
          Or.inl (opening_sojourn_stays deps c0 m _ hin0 rfl rfl hrest rfl rfl rfl rfl)⟩
        simp [perform, process_event, pop_event, hq, state_machine_process_event,
          process_event_with, active_leaf, active_path, active_path_from, current_state, hr,
          hc, chain_to_root, path_to_root, parent, bubble, invoke, handler,
          state_opening_socket, ethernet_communication_module_handler]
      | EVENT_SOCKET_CLOSED =>
        refine ⟨{ m with
          events_buffer := rest,
          dispatch_log := m.dispatch_log ++
            [(some STATE_OPENING_SOCKET, EVENT_SOCKET_CLOSED), (none, EVENT_SOCKET_CLOSED)] }, ?_,
          Or.inl (opening_sojourn_stays deps c0 m _ hin0 rfl rfl hrest rfl rfl rfl rfl)⟩
        simp [perform, process_event, pop_event, hq, state_machine_process_event,
          process_event_with, active_leaf, active_path, active_path_from, current_state, hr,
          hc, chain_to_root, path_to_root, parent, bubble, invoke, handler,
          state_opening_socket, ethernet_communication_module_handler]
      | EVENT_TIMEOUT =>
        refine ⟨{ m with
          events_buffer := rest,
          dispatch_log := m.dispatch_log ++
            [(some STATE_OPENING_SOCKET, EVENT_TIMEOUT), (none, EVENT_TIMEOUT)] }, ?_,
          Or.inl (opening_sojourn_stays deps c0 m _ hin0 rfl rfl hrest rfl rfl rfl rfl)⟩
        simp [perform, process_event, pop_event, hq, state_machine_process_event,
          process_event_with, active_leaf, active_path, active_path_from, current_state, hr,
          hc, chain_to_root, path_to_root, parent, bubble, invoke, handler,
          state_opening_socket, ethernet_communication_module_handler]
      | EVENT_OPEN_SOCKET =>
        by_cases hok : 0 ≤ deps.open_socket m.open_socket_calls m.server_ip m.server_port
        · have hstep : ∃ m1, perform deps (f + 3) Action.poll m = some m1 ∧
              active_leaf m1 = some (some STATE_SOCKET_OPENED) ∧
              m1.open_socket_calls = m.open_socket_calls + 1 ∧
              m1.server_ip = m.server_ip ∧ m1.server_port = m.server_port := by
            simp [perform, process_event, pop_event, hq, state_machine_process_event,
              process_event_with, active_leaf, active_path, active_path_from, current_state,
              hr, hc, chain_to_root, path_to_root, parent, bubble, invoke, handler,
              state_opening_socket, state_socket_opened, call_open_socket, hok,
              transition, transition_with, target_path, shared_length, emit, set_links,
              set_current_state]
          obtain ⟨m1, h1, h2, h3, h4, h5⟩ := hstep
          refine ⟨m1, h1, Or.inr (Or.inl ⟨h2, m.open_socket_retries, hret, ?_, ?_, ?_⟩)⟩
          · rw [h3, hcalls]
          · intro i hi
            rw [h4, h5]
            exact hneg i hi
          · rw [h4, h5, ← hcalls]
            exact hok
        · have hlt : deps.open_socket m.open_socket_calls m.server_ip m.server_port < 0 :=
            not_le.mp hok
          have hval : m.open_socket_retries = 0 ∨ m.open_socket_retries = 1 ∨
              m.open_socket_retries = 2 := by
            simp only [OPEN_SOCKET_MAX_RETRIES] at hret
            omega
          have hnegs : ∀ i, i < m.open_socket_retries + 1 →
              deps.open_socket (c0 + i) m.server_ip m.server_port < 0 := by
            intro i hi
            by_cases hi2 : i < m.open_socket_retries
            · exact hneg i hi2
            · have : i = m.open_socket_retries := by omega
              rw [this, ← hcalls]
              exact hlt
          have hgo : m.open_socket_retries = 0 ∨ m.open_socket_retries = 1 →
              ∃ m1, perform deps (f + 3) Action.poll m = some m1 ∧
                m1.state_machine_current_state = m.state_machine_current_state ∧
                m1.states_current_state = m.states_current_state ∧
                m1.events_buffer = add_event_type rest EVENT_OPEN_SOCKET ∧
                m1.open_socket_retries = m.open_socket_retries + 1 ∧
                m1.open_socket_calls = m.open_socket_calls + 1 ∧
                m1.server_ip = m.server_ip ∧ m1.server_port = m.server_port := by
            intro h01
            rcases h01 with h01 | h01 <;>
              simp [perform, process_event, pop_event, hq, state_machine_process_event,
                process_event_with, active_leaf, active_path, active_path_from, current_state,
                hr, hc, chain_to_root, path_to_root, parent, bubble, invoke, handler,
                state_opening_socket, call_open_socket, hok, h01, OPEN_SOCKET_MAX_RETRIES,
                push]
          rcases hval with hv | hv | hv
          · obtain ⟨m1, g1, g2, g3, g4, g5, g6, g7, g8⟩ := hgo (Or.inl hv)
            refine ⟨m1, g1, Or.inl ⟨by rw [g2, hr], by rw [g3, hc], by rw [g3, hcl], ?_, ?_, ?_,
              ?_⟩⟩
            · rw [g4]; exact no_pseudo_add _ _ hrest (by decide)
            · rw [g5, hv]; decide
            · rw [g6, g5, hcalls]; omega
            · intro i hi
              rw [g7, g8]
              exact hnegs i (by rw [← g5]; exact hi)
          · obtain ⟨m1, g1, g2, g3, g4, g5, g6, g7, g8⟩ := hgo (Or.inr hv)
            refine ⟨m1, g1, Or.inl ⟨by rw [g2, hr], by rw [g3, hc], by rw [g3, hcl], ?_, ?_, ?_,
              ?_⟩⟩
            · rw [g4]; exact no_pseudo_add _ _ hrest (by decide)
            · rw [g5, hv]; decide
            · rw [g6, g5, hcalls]; omega
            · intro i hi
              rw [g7, g8]
              exact hnegs i (by rw [← g5]; exact hi)
          · have hstep : ∃ m1, perform deps (f + 3) Action.poll m = some m1 ∧
                active_leaf m1 = some (some STATE_SOCKET_CLOSED) ∧
                m1.open_socket_calls = m.open_socket_calls + 1 ∧
                m1.server_ip = m.server_ip ∧ m1.server_port = m.server_port := by
              by_cases herr : m.ethernet_communication_module_data.error = 0 <;>
                simp [perform, process_event, pop_event, hq, state_machine_process_event,
                  process_event_with, active_leaf, active_path, active_path_from,
                  current_state, hr, hc, hcl, chain_to_root, path_to_root, parent, bubble,
                  invoke, handler, state_opening_socket, state_socket_closed,
                  call_open_socket, hok, hv, OPEN_SOCKET_MAX_RETRIES, herr,
                  set_ethernet_communication_module_error, flush, circular_buffer_clear,
                  transition, transition_with, target_path, shared_length, emit, set_links,
                  set_current_state]
            obtain ⟨m1, g1, g2, g3, g4, g5⟩ := hstep
            refine ⟨m1, g1, Or.inr (Or.inr ⟨g2, ?_, ?_⟩)⟩
            · rw [g3, hcalls, hv]; rfl
            · intro i hi
              rw [g4, g5]
              exact hnegs i (by rw [hv]; exact hi)

/-- Every run of actions, cut at the end of the sojourn, returns in one of the
three situations of a sojourn in Opening. -/
theorem run_in_opening_outcome (deps : ethernet_communication_module_dependencies_t)
    (fuel c0 : Nat) (hfuel : 3 ≤ fuel) :
    ∀ (as : List Action) (m : Module),
      (in_opening_sojourn deps c0 m ∨ opening_sojourn_ended_in_opened deps c0 m ∨
        opening_sojourn_ended_in_closed deps c0 m) →
      ∃ m1, run_in_opening deps fuel as m = some m1 ∧
        (in_opening_sojourn deps c0 m1 ∨ opening_sojourn_ended_in_opened deps c0 m1 ∨
          opening_sojourn_ended_in_closed deps c0 m1) := by
  intro as
  induction as with
  | nil => intro m hs; exact ⟨m, rfl, hs⟩
  | cons a rest ih =>
    intro m hs
    rcases hs with hin | hend | hend
    · have hleaf : active_leaf m = some (some STATE_OPENING_SOCKET) := by
        obtain ⟨hr, hc, -⟩ := hin
        simp [active_leaf, active_path, active_path_from, current_state, hr, hc]
      obtain ⟨m1, h1, hs1⟩ := opening_sojourn_step deps fuel c0 m a hfuel hin
      obtain ⟨m2, h2, hs2⟩ := ih m1 hs1
      refine ⟨m2, ?_, hs2⟩
      simp only [run_in_opening, hleaf, if_true, h1]
      exact h2
    · refine ⟨m, ?_, Or.inr (Or.inl hend)⟩
      simp [run_in_opening, hend.1]
    · refine ⟨m, ?_, Or.inr (Or.inr hend)⟩
      simp [run_in_opening, hend.1]

/-- C13: one sojourn in Opening, from its entering-state event on.  The entry
action resets the retry counter and queues OpenSocket.  From there, for every
adapter and every sequence of public operations, poll steps and asynchronous
signals, the run up to the end of the sojourn returns with at most three calls
of `open_socket` made since the entry, and either the sojourn still goes on
(all calls so far returned a negative value, fewer than three), or it has ended
in Opened at the first non-negative result, or it has ended in Closed after
exactly three negative results. -/
theorem opening_sojourn_bounded (deps : ethernet_communication_module_dependencies_t)
    (fuel : Nat) (m : Module)
    (hfuel : 3 ≤ fuel)
    (hwf : links_well_formed m = true)
    (hleaf : active_leaf m = some (some STATE_OPENING_SOCKET))
    (hretries : m.open_socket_retries = 0)
    (hqueue : no_pseudo_events m.events_buffer = true) :
    (∀ (tr : ethernet_communication_module_states_t → Module → Option Module) (m0 : Module),
      ∃ m1, state_opening_socket deps tr STATE_OPENING_SOCKET EVENT_ENTERING_STATE m0
          = some (true, m1) ∧
        m1.open_socket_retries = 0 ∧
        m1.open_socket_calls = m0.open_socket_calls ∧
        m1.events_buffer = add_event_type m0.events_buffer EVENT_OPEN_SOCKET) ∧
    (∀ as : List Action,
      ∃ m1, run_in_opening deps fuel as m = some m1 ∧
        m1.open_socket_calls ≤ m.open_socket_calls + 3 ∧
        (in_opening_sojourn deps m.open_socket_calls m1 ∨
          opening_sojourn_ended_in_opened deps m.open_socket_calls m1 ∨
          opening_sojourn_ended_in_closed deps m.open_socket_calls m1)) := by
  constructor
  · intro tr m0
    exact ⟨_, rfl, rfl, rfl, rfl⟩
  · intro as
    obtain ⟨hr, hc⟩ := (leaf_links m hwf _ hleaf).1 rfl
    obtain ⟨h1, -⟩ := wf_cases m hwf
    have hin : in_opening_sojourn deps m.open_socket_calls m :=
      ⟨hr, hc, h1, hqueue, by rw [hretries]; decide, by rw [hretries]; rfl,
        fun i hi => by rw [hretries] at hi; exact absurd hi (Nat.not_lt_zero i)⟩
    obtain ⟨m1, hrun, hs⟩ := run_in_opening_outcome deps fuel m.open_socket_calls hfuel as m
      (Or.inl hin)
    refine ⟨m1, hrun, ?_, hs⟩
    rcases hs with h | h | h
    · obtain ⟨-, -, -, -, hret, hcalls, -⟩ := h
      simp only [OPEN_SOCKET_MAX_RETRIES] at hret
      omega
    · obtain ⟨-, j, hj, hcalls, -⟩ := h
      simp only [OPEN_SOCKET_MAX_RETRIES] at hj
      omega
    · obtain ⟨-, hcalls, -⟩ := h
      simp only [OPEN_SOCKET_MAX_RETRIES] at hcalls
      omega

/-- Witness of C13: a sojourn in Opening with a Send deferred, an adapter that
never opens a socket, and a run of polls mixed with a public send, a tick and a
socket-closed signal: `open_socket` is called three times and the machine ends
in Closed. -/
theorem opening_sojourn_bounded_witness :
    links_well_formed (sample_module STATE_OPENING_SOCKET none [49] 80
      [EVENT_SEND, EVENT_OPEN_SOCKET]) = true ∧
    active_leaf (sample_module STATE_OPENING_SOCKET none [49] 80
      [EVENT_SEND, EVENT_OPEN_SOCKET]) = some (some STATE_OPENING_SOCKET) ∧
    (∃ m1, run_in_opening (sample_dependencies (-1) true true) 3
        [Action.poll, Action.send 100 5, Action.poll, Action.tick, Action.poll,
         Action.socket_closed, Action.poll, Action.poll, Action.poll, Action.poll,
         Action.poll, Action.poll, Action.poll, Action.poll]
        (sample_module STATE_OPENING_SOCKET none [49] 80 [EVENT_SEND, EVENT_OPEN_SOCKET])
        = some m1 ∧
      m1.open_socket_calls ≤ 0 + 3) ∧
    (run_in_opening (sample_dependencies (-1) true true) 3
        [Action.poll, Action.send 100 5, Action.poll, Action.tick, Action.poll,
         Action.socket_closed, Action.poll, Action.poll, Action.poll, Action.poll,
         Action.poll, Action.poll, Action.poll, Action.poll]
        (sample_module STATE_OPENING_SOCKET none [49] 80 [EVENT_SEND, EVENT_OPEN_SOCKET])).map
      (fun m => (active_leaf m, m.open_socket_calls))
      = some (some (some STATE_SOCKET_CLOSED), 3) := by
  refine ⟨by decide, by decide, ?_, by decide⟩
  obtain ⟨m1, h1, h2, _⟩ :=
    (opening_sojourn_bounded (sample_dependencies (-1) true true) 3
      (sample_module STATE_OPENING_SOCKET none [49] 80 [EVENT_SEND, EVENT_OPEN_SOCKET])
      (le_refl 3) (by decide) (by decide) rfl (by decide)).2
      [Action.poll, Action.send 100 5, Action.poll, Action.tick, Action.poll,
       Action.socket_closed, Action.poll, Action.poll, Action.poll, Action.poll,
       Action.poll, Action.poll, Action.poll, Action.poll]
  exact ⟨m1, h1, h2⟩

/-! ## The Timeout step and the pending Receive -/

/-- A record of the queue after a push was in the queue before it or is the
pushed record. -/
theorem add_event_type_mem (q : List event_t) (type e : event_t)
    (h : e ∈ add_event_type q type) : e ∈ q ∨ e = type := by
  unfold add_event_type at h
  split at h
  · simpa using h
  · rcases List.mem_append.mp h with h | h
    · exact Or.inl (List.mem_of_mem_drop h)
    · exact Or.inr (by simpa using h)

/-- The pushed record is in the queue after the push. -/
theorem add_event_type_self_mem (q : List event_t) (type : event_t) :
    type ∈ add_event_type q type := by
  unfold add_event_type
  split <;> simp

/-- A push onto a queue that is not full appends the record. -/
theorem add_event_type_room (q : List event_t) (type : event_t)
    (h : q.length < EVENTS_BUFFER_SIZE) : add_event_type q type = q ++ [type] := by
  simp [add_event_type, h]

/-- A push keeps a record that is in the queue, unless the queue is full and
the record is only at its head. -/
theorem add_event_type_keeps (q : List event_t) (type e : event_t) (h : e ∈ q)
    (hroom : q.length < EVENTS_BUFFER_SIZE ∨ ∃ x, q.head? = some x ∧ x ≠ e) :
    e ∈ add_event_type q type := by
  unfold add_event_type
  split
  · exact List.mem_append_left _ h
  · rcases hroom with hroom | ⟨x, hx, hne⟩
    · contradiction
    · cases q with
      | nil => cases h
      | cons a rest =>
        simp only [List.head?_cons, Option.some.injEq] at hx
        subst hx
        rcases List.mem_cons.mp h with h | h
        · exact absurd h.symm hne
        · simpa using Or.inl h

/-- The queue of a configuration in the loop `receive_cycle` after one more
push of Receive or Timeout still holds only Receive and Timeout events. -/
theorem add_event_type_only (q : List event_t) (type : event_t)
    (hq : ∀ e ∈ q, e = EVENT_RECEIVE ∨ e = EVENT_TIMEOUT)
    (ht : type = EVENT_RECEIVE ∨ type = EVENT_TIMEOUT) :
    ∀ e ∈ add_event_type q type, e = EVENT_RECEIVE ∨ e = EVENT_TIMEOUT := by
  intro e he
  rcases add_event_type_mem q type e he with h | h
  · exact hq e h
  · rw [h]; exact ht

/-- One invocation of the polling handle inside the loop `receive_cycle`, for an
adapter whose `receive` always returns 0: an event is processed and the
configuration stays in the loop. -/
theorem receive_cycle_poll (deps : ethernet_communication_module_dependencies_t)
    (fuel : Nat) (hfuel : 3 ≤ fuel) (m : Module)
    (hzero : ∀ i s b c, deps.receive i s b c = 0) (h : receive_cycle m) :
    ∃ m1, process_event deps fuel m = some (true, m1) ∧ receive_cycle m1 := by
  obtain ⟨hr, hc, honly, hmem, h⟩ := h
  obtain ⟨f, rfl⟩ : ∃ f, fuel = f + 3 := ⟨fuel - 3, by omega⟩
  have hz := hzero m.receive_calls m.open_socket_id m.buffer m.buffer_size
  cases hq : m.events_buffer with
  | nil => rw [hq] at hmem; cases hmem
  | cons e rest =>
    rw [hq] at honly hmem h
    have hrest : ∀ x ∈ rest, x = EVENT_RECEIVE ∨ x = EVENT_TIMEOUT :=
      fun x hx => honly x (List.mem_cons_of_mem e hx)
    have hlen : (e :: rest).length = rest.length + 1 := List.length_cons e rest
    rcases honly e (List.mem_cons_self e rest) with rfl | rfl
    · -- a Receive event is popped
      have hroom : rest.length < EVENTS_BUFFER_SIZE ∧
          (m.states_current_state STATE_SOCKET_OPENED = none ∨
            m.states_current_state STATE_SOCKET_OPENED = some STATE_RECEIVE) := by
        rcases h with ⟨ho, -, hl⟩ | ⟨ho, -, hl⟩ | ⟨ho, hl⟩ | ⟨ho, -, hh⟩
        · exact ⟨by omega, Or.inl ho⟩
        · exact ⟨by omega, Or.inr ho⟩
        · exact ⟨by omega, Or.inr ho⟩
        · simp at hh
      obtain ⟨hroom, ho⟩ := hroom
      have hpush : (add_event_type rest EVENT_RECEIVE).length = rest.length + 1 := by
        rw [add_event_type_room rest _ hroom]; simp
      rcases ho with ho | ho
      · have ht : m.timeout_timer = 0 := by
          rcases h with ⟨-, ht, -⟩ | ⟨ho1, -, -⟩ | ⟨ho1, -⟩ | ⟨ho1, -, -⟩
          · exact ht
          all_goals rw [ho] at ho1; cases ho1
        have hstep : ∃ m1, process_event deps (f + 3) m = some (true, m1) ∧
            m1.state_machine_current_state = some STATE_SOCKET_OPENED ∧
            m1.states_current_state STATE_RECEIVE = none ∧
            m1.states_current_state STATE_SOCKET_OPENED = some STATE_RECEIVE ∧
            m1.events_buffer = add_event_type rest EVENT_RECEIVE := by
          simp [process_event, pop_event, hq, state_machine_process_event,
            process_event_with, active_leaf, active_path, active_path_from, current_state, hr,
            ho, hc, chain_to_root, path_to_root, parent, bubble, invoke, handler,
            state_socket_opened, state_receive, push, schedule_timeout, RECEIVE_TIMEOUT,
            transition, transition_with, target_path, shared_length, emit, set_links,
            set_current_state]
        obtain ⟨m1, hm1, hr1, hc1, ho1, hq1⟩ := hstep
        refine ⟨m1, hm1, hr1, hc1, ?_, ?_, Or.inr (Or.inr (Or.inl ⟨ho1, ?_⟩))⟩
        · rw [hq1]; exact add_event_type_only rest _ hrest (Or.inl rfl)
        · rw [hq1]; exact add_event_type_self_mem rest _
        · rw [hq1, hpush]
          rcases h with ⟨-, -, hl⟩ | ⟨ho2, -, -⟩ | ⟨ho2, -⟩ | ⟨ho2, -, -⟩
          · omega
          all_goals rw [ho] at ho2; cases ho2
      · have hstep : ∃ m1, process_event deps (f + 3) m = some (true, m1) ∧
            m1.state_machine_current_state = some STATE_SOCKET_OPENED ∧
            m1.states_current_state STATE_RECEIVE = none ∧
            m1.states_current_state STATE_SOCKET_OPENED = some STATE_RECEIVE ∧
            m1.timeout_timer = m.timeout_timer ∧
            m1.events_buffer = add_event_type rest EVENT_RECEIVE := by
          simp [process_event, pop_event, hq, state_machine_process_event,
            process_event_with, active_leaf, active_path, active_path_from, current_state, hr,
            ho, hc, chain_to_root, path_to_root, parent, bubble, invoke, handler,
            state_receive, call_receive, hz, store_received_data_size, push]
        obtain ⟨m1, hm1, hr1, hc1, ho1, ht1, hq1⟩ := hstep
        refine ⟨m1, hm1, hr1, hc1, ?_, ?_, ?_⟩
        · rw [hq1]; exact add_event_type_only rest _ hrest (Or.inl rfl)
        · rw [hq1]; exact add_event_type_self_mem rest _
        · rw [hq1, hpush, ht1]
          rcases h with ⟨ho2, -, -⟩ | ⟨-, ht, hl⟩ | ⟨-, hl⟩ | ⟨-, -, hh⟩
          · rw [ho] at ho2; cases ho2
          · exact Or.inr (Or.inl ⟨ho1, ht, by omega⟩)
          · exact Or.inr (Or.inr (Or.inl ⟨ho1, by omega⟩))
          · simp at hh
    · -- a Timeout event is popped
      have hmem1 : EVENT_RECEIVE ∈ rest := by
        rcases List.mem_cons.mp hmem with h0 | h0
        · cases h0
        · exact h0
      have hroom : rest.length < EVENTS_BUFFER_SIZE := by
        rcases h with ⟨-, -, hl⟩ | ⟨-, -, hl⟩ | ⟨-, hl⟩ | ⟨-, hl, -⟩ <;> omega
      have ho : m.states_current_state STATE_SOCKET_OPENED = none ∨
          m.states_current_state STATE_SOCKET_OPENED = some STATE_RECEIVE := by
        rcases h with ⟨ho, -, -⟩ | ⟨ho, -, -⟩ | ⟨ho, -⟩ | ⟨ho, -, -⟩
        · exact Or.inl ho
        all_goals exact Or.inr ho
      rcases ho with ho | ho
      · have ht : m.timeout_timer = 0 := by
          rcases h with ⟨-, ht, -⟩ | ⟨ho1, -, -⟩ | ⟨ho1, -⟩ | ⟨ho1, -, -⟩
          · exact ht
          all_goals rw [ho] at ho1; cases ho1
        have hstep : ∃ m1, process_event deps (f + 3) m = some (true, m1) ∧
            m1.state_machine_current_state = some STATE_SOCKET_OPENED ∧
            m1.states_current_state STATE_RECEIVE = none ∧
            m1.states_current_state STATE_SOCKET_OPENED = none ∧
            m1.timeout_timer = 0 ∧
            m1.events_buffer = rest := by
          simp [process_event, pop_event, hq, state_machine_process_event,
            process_event_with, active_leaf, active_path, active_path_from, current_state, hr,
            ho, hc, ht, chain_to_root, path_to_root, parent, bubble, invoke, handler,
            state_socket_opened, ethernet_communication_module_handler]
        obtain ⟨m1, hm1, hr1, hc1, ho1, ht1, hq1⟩ := hstep
        refine ⟨m1, hm1, hr1, hc1, ?_, ?_, Or.inl ⟨ho1, ht1, ?_⟩⟩
        · rw [hq1]; exact hrest
        · rw [hq1]; exact hmem1
        · rw [hq1]; exact hroom
      · have hstep : ∃ m1, process_event deps (f + 3) m = some (true, m1) ∧
            m1.state_machine_current_state = some STATE_SOCKET_OPENED ∧
            m1.states_current_state STATE_RECEIVE = none ∧
            m1.states_current_state STATE_SOCKET_OPENED = none ∧
            m1.timeout_timer = 0 ∧
            m1.events_buffer = rest := by
          simp [process_event, pop_event, hq, state_machine_process_event,
            process_event_with, active_leaf, active_path, active_path_from, current_state, hr,
            ho, hc, chain_to_root, path_to_root, parent, bubble, invoke, handler,
            state_socket_opened, state_receive, schedule_timeout, transition,
            transition_with, target_path, shared_length, emit, set_links, set_current_state]
        obtain ⟨m1, hm1, hr1, hc1, ho1, ht1, hq1⟩ := hstep
        refine ⟨m1, hm1, hr1, hc1, ?_, ?_, Or.inl ⟨ho1, ht1, ?_⟩⟩
        · rw [hq1]; exact hrest
        · rw [hq1]; exact hmem1
        · rw [hq1]; exact hroom

/-- One tick inside the loop `receive_cycle` keeps the configuration in the loop. -/
theorem receive_cycle_tick (m : Module) (h : receive_cycle m) :
    receive_cycle (second_expired_listener m) := by
  obtain ⟨hr, hc, honly, hmem, h⟩ := h
  by_cases ht0 : m.timeout_timer = 0
  · have he : second_expired_listener m = m := by simp [second_expired_listener, ht0]
    rw [he]; exact ⟨hr, hc, honly, hmem, h⟩
  · by_cases ht1 : m.timeout_timer - 1 = 0
    · have he : second_expired_listener m =
          push EVENT_TIMEOUT { m with timeout_timer := m.timeout_timer - 1 } := by
        simp [second_expired_listener, ht0, ht1]
      rw [he]
      have hkeep : EVENT_RECEIVE ∈ add_event_type m.events_buffer EVENT_TIMEOUT ∧
          m.states_current_state STATE_SOCKET_OPENED = some STATE_RECEIVE ∧
          m.events_buffer.length ≤ EVENTS_BUFFER_SIZE := by
        rcases h with ⟨-, ht, -⟩ | ⟨-, ht, -⟩ | ⟨ho, hl⟩ | ⟨ho, hl, hh⟩
        · exact absurd ht ht0
        · exact absurd ht ht0
        · exact ⟨add_event_type_keeps _ _ _ hmem (Or.inl hl), ho, Nat.le_of_lt hl⟩
        · exact ⟨add_event_type_keeps _ _ _ hmem
            (Or.inr ⟨EVENT_TIMEOUT, hh, by decide⟩), ho, hl⟩
      obtain ⟨hkeep, ho, hl⟩ := hkeep
      exact ⟨hr, hc, add_event_type_only _ _ honly (Or.inr rfl), hkeep,
        Or.inr (Or.inl ⟨ho, ht1, add_event_type_length _ _ hl⟩)⟩
    · have he : second_expired_listener m =
          { m with timeout_timer := m.timeout_timer - 1 } := by
        simp [second_expired_listener, ht0, ht1]
      rw [he]
      refine ⟨hr, hc, honly, hmem, ?_⟩
      rcases h with ⟨-, ht, -⟩ | ⟨-, ht, -⟩ | ⟨ho, hl⟩ | ⟨ho, hl, hh⟩
      · exact absurd ht ht0
      · exact absurd ht ht0
      · exact Or.inr (Or.inr (Or.inl ⟨ho, hl⟩))
      · exact Or.inr (Or.inr (Or.inr ⟨ho, hl, hh⟩))

/-- Every sequence of handle invocations, ticks and error-code notifications
inside the loop `receive_cycle` returns and keeps the configuration in the
loop. -/
theorem receive_cycle_run (deps : ethernet_communication_module_dependencies_t)
    (fuel : Nat) (hfuel : 3 ≤ fuel) (hzero : ∀ i s b c, deps.receive i s b c = 0)
    (actions : List Action) :
    (∀ a ∈ actions, a.is_passive = true) →
    ∀ m, receive_cycle m → ∃ m1, run deps fuel actions m = some m1 ∧ receive_cycle m1 := by
  induction actions with
  | nil => intro _ m h; exact ⟨m, rfl, h⟩
  | cons a rest ih =>
    intro hall m h
    have hrest : ∀ a ∈ rest, a.is_passive = true :=
      fun b hb => hall b (List.mem_cons_of_mem a hb)
    have ha := hall a (List.mem_cons_self a rest)
    cases a with
    | poll =>
      obtain ⟨m1, hm1, hc1⟩ := receive_cycle_poll deps fuel hfuel m hzero h
      obtain ⟨m2, hm2, hc2⟩ := ih hrest m1 hc1
      exact ⟨m2, by simp [run, perform, hm1, hm2], hc2⟩
    | tick =>
      obtain ⟨m2, hm2, hc2⟩ := ih hrest _ (receive_cycle_tick m h)
      exact ⟨m2, by simp [run, perform, hm2], hc2⟩
    | error_code code =>
      obtain ⟨m2, hm2, hc2⟩ := ih hrest (platform_specific_error_code_listener code m) h
      exact ⟨m2, by simp [run, perform, hm2], hc2⟩
    | send d n => simp [Action.is_passive] at ha
    | receive b cap out => simp [Action.is_passive] at ha
    | close_socket => simp [Action.is_passive] at ha
    | socket_closed => simp [Action.is_passive] at ha

/-- A Receive event dispatched while the active leaf is Opened: Opened handles
it, Receiving is entered, the timer is armed at `RECEIVE_TIMEOUT` and a new
Receive event is queued. -/
theorem receive_in_opened (deps : ethernet_communication_module_dependencies_t)
    (fuel : Nat) (hfuel : 3 ≤ fuel) (m : Module) (rest : List event_t)
    (hwf : links_well_formed m = true)
    (hleaf : active_leaf m = some (some STATE_SOCKET_OPENED))
    (hq : m.events_buffer = EVENT_RECEIVE :: rest) :
    ∃ m1, process_event deps fuel m = some (true, m1) ∧
      m1.dispatch_log = m.dispatch_log ++
        [(some STATE_SOCKET_OPENED, EVENT_RECEIVE), (some STATE_RECEIVE, EVENT_ENTERING_STATE)] ∧
      active_leaf m1 = some (some STATE_RECEIVE) ∧
      m1.timeout_timer = 3 ∧
      m1.events_buffer = add_event_type rest EVENT_RECEIVE := by
  obtain ⟨hr, hc⟩ := (leaf_links m hwf _ hleaf).1 rfl
  obtain ⟨-, -, -, h4, -, -, -⟩ := wf_cases m hwf
  obtain ⟨f, rfl⟩ : ∃ f, fuel = f + 3 := ⟨fuel - 3, by omega⟩
  simp [process_event, pop_event, hq, state_machine_process_event, process_event_with,
    active_leaf, active_path, active_path_from, current_state, hr, hc, h4, chain_to_root,
    path_to_root, parent, bubble, invoke, handler, state_socket_opened, state_receive, push,
    schedule_timeout, RECEIVE_TIMEOUT, transition, transition_with, target_path,
    shared_length, emit, set_links, set_current_state]

/-- C21, amended in two places (the Receive is next in the queue; nothing but
Receive and Timeout events is queued and no public operation or socket-closed
notification arrives).  When the polling handle pops a Timeout event while the
active leaf is Receiving, the step leaves Opened as the active leaf with the
timer stopped, and the queue after the step is the queue before it minus the
popped Timeout.  If a Receive event is the next one in that queue, the next step
is handled by Opened, enters Receiving, arms the timer at 3 and queues a new
Receive behind the remaining events.  If the events left behind the Timeout are
Receive and Timeout events only, at least one of them a Receive, the queue is
within its capacity and `receive` of the adapter always returns 0, then every
sequence of handle invocations, ticks and error-code notifications returns and
leaves a Receive event queued, so that the next invocation of the handle
processes an event: polling never reaches quiescence. -/
theorem timeout_keeps_pending_receive (deps : ethernet_communication_module_dependencies_t)
    (fuel : Nat) (m : Module) (rest : List event_t)
    (hfuel : 3 ≤ fuel)
    (hwf : links_well_formed m = true)
    (hleaf : active_leaf m = some (some STATE_RECEIVE))
    (hq : m.events_buffer = EVENT_TIMEOUT :: rest) :
    ∃ m1, process_event deps fuel m = some (true, m1) ∧
      m1.events_buffer = rest ∧
      active_leaf m1 = some (some STATE_SOCKET_OPENED) ∧
      m1.timeout_timer = 0 ∧
      (∀ rest1, rest = EVENT_RECEIVE :: rest1 →
        ∃ m2, process_event deps fuel m1 = some (true, m2) ∧
          m2.dispatch_log = m1.dispatch_log ++
            [(some STATE_SOCKET_OPENED, EVENT_RECEIVE),
             (some STATE_RECEIVE, EVENT_ENTERING_STATE)] ∧
          active_leaf m2 = some (some STATE_RECEIVE) ∧
          m2.timeout_timer = 3 ∧
          m2.events_buffer = add_event_type rest1 EVENT_RECEIVE) ∧
      (EVENT_RECEIVE ∈ rest → (∀ e ∈ rest, e = EVENT_RECEIVE ∨ e = EVENT_TIMEOUT) →
        m.events_buffer.length ≤ EVENTS_BUFFER_SIZE →
        (∀ i s b c, deps.receive i s b c = 0) →
        ∀ actions : List Action, (∀ a ∈ actions, a.is_passive = true) →
          ∃ m3, run deps fuel actions m = some m3 ∧
            EVENT_RECEIVE ∈ m3.events_buffer ∧
            ∃ m4, process_event deps fuel m3 = some (true, m4)) := by
  obtain ⟨hr, ho, hc⟩ := (leaf_links m hwf _ hleaf).2 rfl
  have hstep : ∃ m1, process_event deps fuel m = some (true, m1) ∧
      m1.events_buffer = rest ∧
      active_leaf m1 = some (some STATE_SOCKET_OPENED) ∧
      m1.timeout_timer = 0 ∧ links_well_formed m1 = true := by
    obtain ⟨h1, h2, h3, h4, h5, -, -⟩ := wf_cases m hwf
    obtain ⟨f, rfl⟩ : ∃ f, fuel = f + 3 := ⟨fuel - 3, by omega⟩
    simp [process_event, pop_event, hq, state_machine_process_event, process_event_with,
      active_leaf, active_path, active_path_from, current_state, hr, ho, hc, chain_to_root,
      path_to_root, parent, bubble, invoke, handler, state_socket_opened, state_receive,
      schedule_timeout, transition, transition_with, target_path, shared_length, emit,
      set_links, set_current_state, links_well_formed, all_nodes, h1, h2, h3, h5]
  obtain ⟨m1, hm1, hq1, hleaf1, ht1, hwf1⟩ := hstep
  refine ⟨m1, hm1, hq1, hleaf1, ht1, ?_, ?_⟩
  · intro rest1 hrest
    exact receive_in_opened deps fuel hfuel m1 rest1 hwf1 hleaf1 (hq1.trans hrest)
  · intro hmem honly hlen hzero actions hall
    have hcycle : receive_cycle m := by
      refine ⟨hr, hc, ?_, ?_, Or.inr (Or.inr (Or.inr ⟨ho, hlen, by rw [hq]; rfl⟩))⟩
      · intro e he
        rw [hq] at he
        rcases List.mem_cons.mp he with h0 | h0
        · exact Or.inr h0
        · exact honly e h0
      · rw [hq]; exact List.mem_cons_of_mem _ hmem
    obtain ⟨m3, hm3, hc3⟩ := receive_cycle_run deps fuel hfuel hzero actions hall m hcycle
    obtain ⟨m4, hm4, -⟩ := receive_cycle_poll deps fuel hfuel m3 hzero hc3
    exact ⟨m3, hm3, hc3.2.2.2.1, m4, hm4⟩

/-- Witness of C21: Receiving with Timeout, Receive and a second Timeout queued
and an adapter whose `receive` never returns a byte.  The Timeout step leaves
the Receive next in the queue, the next step re-enters Receiving with the timer
at 3, and after a run of handle invocations, ticks and an error-code
notification the handle still finds an event. -/
theorem timeout_keeps_pending_receive_witness :
    links_well_formed (sample_module STATE_SOCKET_OPENED (some STATE_RECEIVE) [49] 80
      [EVENT_TIMEOUT, EVENT_RECEIVE, EVENT_TIMEOUT]) = true ∧
    active_leaf (sample_module STATE_SOCKET_OPENED (some STATE_RECEIVE) [49] 80
      [EVENT_TIMEOUT, EVENT_RECEIVE, EVENT_TIMEOUT]) = some (some STATE_RECEIVE) ∧
    (∃ m1, process_event (silent_dependencies true) 3
        (sample_module STATE_SOCKET_OPENED (some STATE_RECEIVE) [49] 80
          [EVENT_TIMEOUT, EVENT_RECEIVE, EVENT_TIMEOUT]) = some (true, m1) ∧
      m1.events_buffer = [EVENT_RECEIVE, EVENT_TIMEOUT] ∧
      (∃ m2, process_event (silent_dependencies true) 3 m1 = some (true, m2) ∧
        active_leaf m2 = some (some STATE_RECEIVE) ∧ m2.timeout_timer = 3 ∧
        m2.events_buffer = [EVENT_TIMEOUT, EVENT_RECEIVE]) ∧
      (∃ m3, run (silent_dependencies true) 3
          [Action.poll, Action.poll, Action.tick, Action.poll, Action.tick, Action.tick,
           Action.error_code 7, Action.poll, Action.poll, Action.poll, Action.tick,
           Action.poll]
          (sample_module STATE_SOCKET_OPENED (some STATE_RECEIVE) [49] 80
            [EVENT_TIMEOUT, EVENT_RECEIVE, EVENT_TIMEOUT]) = some m3 ∧
        EVENT_RECEIVE ∈ m3.events_buffer ∧
        ∃ m4, process_event (silent_dependencies true) 3 m3 = some (true, m4))) := by
  refine ⟨by decide, by decide, ?_⟩
  obtain ⟨m1, h1, h2, -, -, h5, h6⟩ :=
    timeout_keeps_pending_receive (silent_dependencies true) 3
      (sample_module STATE_SOCKET_OPENED (some STATE_RECEIVE) [49] 80
        [EVENT_TIMEOUT, EVENT_RECEIVE, EVENT_TIMEOUT])
      [EVENT_RECEIVE, EVENT_TIMEOUT] (le_refl 3) (by decide) (by decide) rfl
  obtain ⟨m2, g1, -, g3, g4, g5⟩ := h5 [EVENT_TIMEOUT] rfl
  exact ⟨m1, h1, h2, ⟨m2, g1, g3, g4, g5⟩,
    h6 (by decide) (by decide) (by decide) (fun _ _ _ _ => rfl) _ (by decide)⟩

/-- C21 as stated fails on the code, in two places.  First, in the run
`close_before_receive_run` from initialisation the active leaf is Receiving and
the queue holds Timeout, CloseSocket, Receive.  The step that handles the
Timeout leaves CloseSocket and Receive queued, so a Receive event is still
pending; the next step is the CloseSocket event, which ends in Closed with the
timer at 0 and the Receive still queued: Receiving is not re-entered and the
timer is not re-armed.  Second, with an adapter whose `receive` always returns 0
and ticks between the steps, in the run `socket_closed_behind_receive_run` from
initialisation the active leaf is Receiving and the queue holds Timeout,
Receive, SocketClosed.  The Timeout step leaves the Receive next in the queue
and the next step re-enters Receiving with the timer at 3, but the step after
it handles SocketClosed, which flushes the queue and ends in Closed; the next
invocation of the handle finds no event and returns false: polling has reached
quiescence.  The same happens in the run `close_behind_receive_run`, where the
caller's CloseSocket is queued behind the Receive and `close_socket` of the
adapter fails. -/
theorem pending_receive_overtaken_or_flushed :
    (run_from_power_on (sample_dependencies 0 true true) 3 [49] 80 (fun _ => 7)
        close_before_receive_run).map (fun m => (active_leaf m, m.events_buffer))
      = some (some (some STATE_RECEIVE),
          [EVENT_TIMEOUT, EVENT_CLOSE_SOCKET, EVENT_RECEIVE]) ∧
    (run_from_power_on (sample_dependencies 0 true true) 3 [49] 80 (fun _ => 7)
        (close_before_receive_run ++ [Action.poll])).map
        (fun m => (active_leaf m, m.events_buffer))
      = some (some (some STATE_SOCKET_OPENED), [EVENT_CLOSE_SOCKET, EVENT_RECEIVE]) ∧
    (run_from_power_on (sample_dependencies 0 true true) 3 [49] 80 (fun _ => 7)
        (close_before_receive_run ++ [Action.poll, Action.poll])).map
        (fun m => (active_leaf m, m.timeout_timer, m.events_buffer))
      = some (some (some STATE_SOCKET_CLOSED), 0, [EVENT_RECEIVE]) ∧
    (run_from_power_on (silent_dependencies true) 3 [49] 80 (fun _ => 7)
        socket_closed_behind_receive_run).map (fun m => (active_leaf m, m.events_buffer))
      = some (some (some STATE_RECEIVE),
          [EVENT_TIMEOUT, EVENT_RECEIVE, EVENT_SOCKET_CLOSED]) ∧
    (run_from_power_on (silent_dependencies true) 3 [49] 80 (fun _ => 7)
        (socket_closed_behind_receive_run ++ [Action.poll])).map
        (fun m => (active_leaf m, m.events_buffer))
      = some (some (some STATE_SOCKET_OPENED), [EVENT_RECEIVE, EVENT_SOCKET_CLOSED]) ∧
    (run_from_power_on (silent_dependencies true) 3 [49] 80 (fun _ => 7)
        (socket_closed_behind_receive_run ++ [Action.poll, Action.tick, Action.poll])).map
        (fun m => (active_leaf m, m.timeout_timer, m.events_buffer))
      = some (some (some STATE_RECEIVE), 3, [EVENT_SOCKET_CLOSED, EVENT_RECEIVE]) ∧
    (run_from_power_on (silent_dependencies true) 3 [49] 80 (fun _ => 7)
        (socket_closed_behind_receive_run ++
          [Action.poll, Action.tick, Action.poll, Action.tick, Action.poll, Action.tick])).map
        (fun m => (active_leaf m, m.events_buffer))
      = some (some (some STATE_SOCKET_CLOSED), []) ∧
    ((run_from_power_on (silent_dependencies true) 3 [49] 80 (fun _ => 7)
        (socket_closed_behind_receive_run ++
          [Action.poll, Action.tick, Action.poll, Action.tick, Action.poll, Action.tick])).bind
        (process_event (silent_dependencies true) 3)).map (fun r => r.1)
      = some false ∧
    (run_from_power_on (silent_dependencies false) 3 [49] 80 (fun _ => 7)
        close_behind_receive_run).map (fun m => (active_leaf m, m.events_buffer))
      = some (some (some STATE_RECEIVE),
          [EVENT_TIMEOUT, EVENT_RECEIVE, EVENT_CLOSE_SOCKET]) ∧
    (run_from_power_on (silent_dependencies false) 3 [49] 80 (fun _ => 7)
        (close_behind_receive_run ++
          [Action.poll, Action.tick, Action.poll, Action.tick, Action.poll, Action.tick])).map
        (fun m => (active_leaf m, m.events_buffer))
      = some (some (some STATE_SOCKET_CLOSED), []) ∧
    ((run_from_power_on (silent_dependencies false) 3 [49] 80 (fun _ => 7)
        (close_behind_receive_run ++
          [Action.poll, Action.tick, Action.poll, Action.tick, Action.poll, Action.tick])).bind
        (process_event (silent_dependencies false) 3)).map (fun r => r.1)
      = some false := by
  refine ⟨by decide, by decide, by decide, by decide, by decide, by decide, by decide,
    by decide, by decide, by decide, by decide⟩

/-! ## Invariant of the configurations reachable from initialisation -/

/-- Dispatch of any event while the root's active child is Closed and the timer
is stopped: the dispatch returns, the root keeps an active child, and the timer
runs afterwards only if the active leaf is Receiving. -/
theorem dispatch_from_closed (deps : ethernet_communication_module_dependencies_t)
    (f : Nat) (event : event_t) (m : Module) (hwf : links_well_formed m = true)
    (hr : m.state_machine_current_state = some STATE_SOCKET_CLOSED)
    (ht : m.timeout_timer = 0) :
    ∃ m1, state_machine_process_event deps (f + 3) event m = some m1 ∧
      m1.state_machine_current_state ≠ none ∧
      (m1.timeout_timer ≠ 0 → active_leaf m1 = some (some STATE_RECEIVE)) := by
  obtain ⟨h1, h2, -, -, -, -, -⟩ := wf_cases m hwf
  cases event
  case EVENT_SEND | EVENT_RECEIVE =>
    by_cases hip : first_byte m.server_ip = 0 <;>
    by_cases hport : m.server_port = 0 <;>
    by_cases herr : m.ethernet_communication_module_data.error = 0 <;>
    simp [state_machine_process_event, process_event_with, active_leaf, active_path,
      active_path_from, current_state, chain_to_root, path_to_root, parent, bubble, invoke,
      handler, state_socket_closed, state_opening_socket, connection_parameters_set,
      send_command_response_string, push, set_ethernet_communication_module_error,
      transition, transition_with, target_path, shared_length, emit, set_links,
      set_current_state, h1, h2, hr, ht, hip, hport, herr]
  all_goals
    simp [state_machine_process_event, process_event_with, active_leaf, active_path,
      active_path_from, current_state, chain_to_root, path_to_root, parent, bubble, invoke,
      handler, state_socket_closed, ethernet_communication_module_handler, h1, hr, ht]

/-- Dispatch of any event while the root's active child is Opening and the
timer is stopped: the dispatch returns, the root keeps an active child, and
the timer runs afterwards only if the active leaf is Receiving. -/
theorem dispatch_from_opening (deps : ethernet_communication_module_dependencies_t)
    (f : Nat) (event : event_t) (m : Module) (hwf : links_well_formed m = true)
    (hr : m.state_machine_current_state = some STATE_OPENING_SOCKET)
    (ht : m.timeout_timer = 0) :
    ∃ m1, state_machine_process_event deps (f + 3) event m = some m1 ∧
      m1.state_machine_current_state ≠ none ∧
      (m1.timeout_timer ≠ 0 → active_leaf m1 = some (some STATE_RECEIVE)) := by
  obtain ⟨h1, h2, -, -, -, -, -⟩ := wf_cases m hwf
  have n1 : deps.error_value ETHERNET_OPERATION_FAILED ||| state_id STATE_OPENING_SOCKET ≠ 0 :=
    or_ne_zero_of_right _ _ (by decide)
  cases event
  case EVENT_OPEN_SOCKET =>
    by_cases hok : 0 ≤ deps.open_socket m.open_socket_calls m.server_ip m.server_port <;>
    by_cases hret : (m.open_socket_retries + 1) % 256 = OPEN_SOCKET_MAX_RETRIES <;>
    by_cases herr : m.ethernet_communication_module_data.error = 0 <;>
    simp [state_machine_process_event, process_event_with, active_leaf, active_path,
      active_path_from, current_state, chain_to_root, path_to_root, parent, bubble, invoke,
      handler, state_socket_closed, state_opening_socket, state_socket_opened,
      call_open_socket, push, set_ethernet_communication_module_error, flush,
      circular_buffer_clear, transition, transition_with, target_path, shared_length, emit,
      set_links, set_current_state, h1, h2, n1, hr, ht, hok, hret, herr]
  all_goals
    simp [state_machine_process_event, process_event_with, active_leaf, active_path,
      active_path_from, current_state, chain_to_root, path_to_root, parent, bubble, invoke,
      handler, state_opening_socket, ethernet_communication_module_handler,
      send_command_response_string, push, h2, hr, ht]

/-- Dispatch of any event while the root's active child is Closing and the
timer is stopped: the dispatch returns, the root keeps an active child, and
the timer runs afterwards only if the active leaf is Receiving. -/
theorem dispatch_from_closing (deps : ethernet_communication_module_dependencies_t)
    (f : Nat) (event : event_t) (m : Module) (hwf : links_well_formed m = true)
    (hr : m.state_machine_current_state = some STATE_CLOSING_SOCKET)
    (ht : m.timeout_timer = 0) :
    ∃ m1, state_machine_process_event deps (f + 3) event m = some m1 ∧
      m1.state_machine_current_state ≠ none ∧
      (m1.timeout_timer ≠ 0 → active_leaf m1 = some (some STATE_RECEIVE)) := by
  obtain ⟨h1, -, -, -, h5, -, -⟩ := wf_cases m hwf
  have n6 : deps.error_value ETHERNET_OPERATION_FAILED ||| state_id STATE_CLOSING_SOCKET ≠ 0 :=
    or_ne_zero_of_right _ _ (by decide)
  cases event
  case EVENT_ENTERING_STATE =>
    cases hclose : deps.close_socket m.close_socket_calls m.open_socket_id <;>
    by_cases herr : m.ethernet_communication_module_data.error = 0 <;>
    simp [state_machine_process_event, process_event_with, active_leaf, active_path,
      active_path_from, current_state, chain_to_root, path_to_root, parent, bubble, invoke,
      handler, state_socket_closed, state_closing_socket, call_close_socket,
      set_ethernet_communication_module_error, flush, circular_buffer_clear, transition,
      transition_with, target_path, shared_length, emit, set_links, set_current_state,
      h1, h5, n6, hr, ht, hclose, herr]
  all_goals
    simp [state_machine_process_event, process_event_with, active_leaf, active_path,
      active_path_from, current_state, chain_to_root, path_to_root, parent, bubble, invoke,
      handler, state_closing_socket, ethernet_communication_module_handler, h5, hr, ht]

/-- Dispatch of any event while the active leaf is Opened and the timer is
stopped: the dispatch returns, the root keeps an active child, and the timer
runs afterwards only if the active leaf is Receiving. -/
theorem dispatch_from_opened (deps : ethernet_communication_module_dependencies_t)
    (f : Nat) (event : event_t) (m : Module) (hwf : links_well_formed m = true)
    (hr : m.state_machine_current_state = some STATE_SOCKET_OPENED)
    (ho : m.states_current_state STATE_SOCKET_OPENED = none)
    (ht : m.timeout_timer = 0) :
    ∃ m1, state_machine_process_event deps (f + 3) event m = some m1 ∧
      m1.state_machine_current_state ≠ none ∧
      (m1.timeout_timer ≠ 0 → active_leaf m1 = some (some STATE_RECEIVE)) := by
  obtain ⟨h1, -, h3, h4, h5, -, -⟩ := wf_cases m hwf
  have n2 : deps.error_value ETHERNET_SOCKET_CLOSED ||| state_id STATE_SOCKET_OPENED ≠ 0 :=
    or_ne_zero_of_right _ _ (by decide)
  have n3 : deps.error_value ETHERNET_OPERATION_FAILED ||| state_id STATE_SEND ≠ 0 :=
    or_ne_zero_of_right _ _ (by decide)
  have n6 : deps.error_value ETHERNET_OPERATION_FAILED ||| state_id STATE_CLOSING_SOCKET ≠ 0 :=
    or_ne_zero_of_right _ _ (by decide)
  cases event
  case EVENT_SEND =>
    by_cases hwrite :
      deps.send m.send_calls m.open_socket_id m.data m.data_size = (m.data_size : Int) <;>
    cases hclose : deps.close_socket m.close_socket_calls m.open_socket_id <;>
    by_cases herr : m.ethernet_communication_module_data.error = 0 <;>
    simp [state_machine_process_event, process_event_with, active_leaf, active_path,
      active_path_from, current_state, chain_to_root, path_to_root, parent, bubble, invoke,
      handler, state_socket_closed, state_socket_opened, state_send, state_closing_socket,
      call_send, call_close_socket, set_ethernet_communication_module_error, flush,
      circular_buffer_clear, transition, transition_with, target_path, shared_length, emit,
      set_links, set_current_state, h1, h3, h5, n3, n6, hr, ho, ht, hwrite, hclose, herr]
  case EVENT_CLOSE_SOCKET | EVENT_SOCKET_CLOSED =>
    cases hclose : deps.close_socket m.close_socket_calls m.open_socket_id <;>
    by_cases herr : m.ethernet_communication_module_data.error = 0 <;>
    simp [state_machine_process_event, process_event_with, active_leaf, active_path,
      active_path_from, current_state, chain_to_root, path_to_root, parent, bubble, invoke,
      handler, state_socket_closed, state_socket_opened, state_closing_socket,
      call_close_socket, set_ethernet_communication_module_error, flush,
      circular_buffer_clear, transition, transition_with, target_path, shared_length, emit,
      set_links, set_current_state, h1, h5, n2, n6, hr, ho, ht, hclose, herr]
  all_goals
    simp [state_machine_process_event, process_event_with, active_leaf, active_path,
      active_path_from, current_state, chain_to_root, path_to_root, parent, bubble, invoke,
      handler, state_socket_opened, state_receive, ethernet_communication_module_handler,
      push, schedule_timeout, RECEIVE_TIMEOUT, transition, transition_with, target_path,
      shared_length, emit, set_links, set_current_state, h4, hr, ho, ht]

/-- Dispatch of any event while the active leaf is Sending and the timer is
stopped: the dispatch returns, the root keeps an active child, and the timer
runs afterwards only if the active leaf is Receiving. -/
theorem dispatch_from_sending (deps : ethernet_communication_module_dependencies_t)
    (f : Nat) (event : event_t) (m : Module) (hwf : links_well_formed m = true)
    (hr : m.state_machine_current_state = some STATE_SOCKET_OPENED)
    (ho : m.states_current_state STATE_SOCKET_OPENED = some STATE_SEND)
    (ht : m.timeout_timer = 0) :
    ∃ m1, state_machine_process_event deps (f + 3) event m = some m1 ∧
      m1.state_machine_current_state ≠ none ∧
      (m1.timeout_timer ≠ 0 → active_leaf m1 = some (some STATE_RECEIVE)) := by
  obtain ⟨h1, -, h3, h4, h5, -, -⟩ := wf_cases m hwf
  have n2 : deps.error_value ETHERNET_SOCKET_CLOSED ||| state_id STATE_SOCKET_OPENED ≠ 0 :=
    or_ne_zero_of_right _ _ (by decide)
  have n3 : deps.error_value ETHERNET_OPERATION_FAILED ||| state_id STATE_SEND ≠ 0 :=
    or_ne_zero_of_right _ _ (by decide)
  have n6 : deps.error_value ETHERNET_OPERATION_FAILED ||| state_id STATE_CLOSING_SOCKET ≠ 0 :=
    or_ne_zero_of_right _ _ (by decide)
  cases event
  case EVENT_SEND | EVENT_ENTERING_STATE =>
    by_cases hwrite :
      deps.send m.send_calls m.open_socket_id m.data m.data_size = (m.data_size : Int) <;>
    cases hclose : deps.close_socket m.close_socket_calls m.open_socket_id <;>
    by_cases herr : m.ethernet_communication_module_data.error = 0 <;>
    simp [state_machine_process_event, process_event_with, active_leaf, active_path,
      active_path_from, current_state, chain_to_root, path_to_root, parent, bubble, invoke,
      handler, state_socket_closed, state_socket_opened, state_send, state_closing_socket,
      call_send, call_close_socket, set_ethernet_communication_module_error, flush,
      circular_buffer_clear, transition, transition_with, target_path, shared_length, emit,
      set_links, set_current_state, h1, h3, h5, n3, n6, hr, ho, ht, hwrite, hclose, herr]
  case EVENT_CLOSE_SOCKET | EVENT_SOCKET_CLOSED =>
    cases hclose : deps.close_socket m.close_socket_calls m.open_socket_id <;>
    by_cases herr : m.ethernet_communication_module_data.error = 0 <;>
    simp [state_machine_process_event, process_event_with, active_leaf, active_path,
      active_path_from, current_state, chain_to_root, path_to_root, parent, bubble, invoke,
      handler, state_socket_closed, state_socket_opened, state_send, state_closing_socket,
      call_close_socket, set_ethernet_communication_module_error, flush,
      circular_buffer_clear, transition, transition_with, target_path, shared_length, emit,
      set_links, set_current_state, h1, h3, h5, n2, n6, hr, ho, ht, hclose, herr]
  all_goals
    simp [state_machine_process_event, process_event_with, active_leaf, active_path,
      active_path_from, current_state, chain_to_root, path_to_root, parent, bubble, invoke,
      handler, state_socket_opened, state_send, state_receive,
      ethernet_communication_module_handler, push, schedule_timeout, RECEIVE_TIMEOUT,
      transition, transition_with, target_path, shared_length, emit, set_links,
      set_current_state, h3, h4, hr, ho, ht]

/-- Dispatch of any event while the active leaf is Receiving, whatever the
timer holds: the dispatch returns, the root keeps an active child, and the
timer runs afterwards only if the active leaf is Receiving. -/
theorem dispatch_from_receiving (deps : ethernet_communication_module_dependencies_t)
    (f : Nat) (event : event_t) (m : Module) (hwf : links_well_formed m = true)
    (hr : m.state_machine_current_state = some STATE_SOCKET_OPENED)
    (ho : m.states_current_state STATE_SOCKET_OPENED = some STATE_RECEIVE) :
    ∃ m1, state_machine_process_event deps (f + 3) event m = some m1 ∧
      m1.state_machine_current_state ≠ none ∧
      (m1.timeout_timer ≠ 0 → active_leaf m1 = some (some STATE_RECEIVE)) := by
  obtain ⟨h1, -, h3, h4, h5, -, -⟩ := wf_cases m hwf
  have n2 : deps.error_value ETHERNET_SOCKET_CLOSED ||| state_id STATE_SOCKET_OPENED ≠ 0 :=
    or_ne_zero_of_right _ _ (by decide)
  have n3 : deps.error_value ETHERNET_OPERATION_FAILED ||| state_id STATE_SEND ≠ 0 :=
    or_ne_zero_of_right _ _ (by decide)
  have n4 : deps.error_value ETHERNET_OPERATION_FAILED ||| state_id STATE_RECEIVE ≠ 0 :=
    or_ne_zero_of_right _ _ (by decide)
  have n5 : deps.error_value ETHERNET_SOCKET_CLOSED ||| state_id STATE_RECEIVE ≠ 0 :=
    or_ne_zero_of_right _ _ (by decide)
  have n6 : deps.error_value ETHERNET_OPERATION_FAILED ||| state_id STATE_CLOSING_SOCKET ≠ 0 :=
    or_ne_zero_of_right _ _ (by decide)
  cases event
  case EVENT_RECEIVE =>
    by_cases hpos :
      0 < deps.receive m.receive_calls m.open_socket_id m.buffer m.buffer_size <;>
    by_cases hzero :
      deps.receive m.receive_calls m.open_socket_id m.buffer m.buffer_size = 0 <;>
    cases hclose : deps.close_socket m.close_socket_calls m.open_socket_id <;>
    by_cases herr : m.ethernet_communication_module_data.error = 0 <;>
    simp [state_machine_process_event, process_event_with, active_leaf, active_path,
      active_path_from, current_state, chain_to_root, path_to_root, parent, bubble, invoke,
      handler, state_socket_closed, state_socket_opened, state_receive,
      state_closing_socket, call_receive, call_close_socket, store_received_data_size, push,
      schedule_timeout, set_ethernet_communication_module_error, flush,
      circular_buffer_clear, transition, transition_with, target_path, shared_length, emit,
      set_links, set_current_state, h1, h4, h5, n4, n6, hr, ho, hpos, hzero, hclose, herr]
  case EVENT_SEND =>
    by_cases hwrite :
      deps.send m.send_calls m.open_socket_id m.data m.data_size = (m.data_size : Int) <;>
    cases hclose : deps.close_socket m.close_socket_calls m.open_socket_id <;>
    by_cases herr : m.ethernet_communication_module_data.error = 0 <;>
    simp [state_machine_process_event, process_event_with, active_leaf, active_path,
      active_path_from, current_state, chain_to_root, path_to_root, parent, bubble, invoke,
      handler, state_socket_closed, state_socket_opened, state_send, state_receive,
      state_closing_socket, call_send, call_close_socket, schedule_timeout,
      set_ethernet_communication_module_error, flush, circular_buffer_clear, transition,
      transition_with, target_path, shared_length, emit, set_links, set_current_state,
      h1, h3, h4, h5, n3, n6, hr, ho, hwrite, hclose, herr]
  case EVENT_CLOSE_SOCKET | EVENT_SOCKET_CLOSED =>
    cases hclose : deps.close_socket m.close_socket_calls m.open_socket_id <;>
    by_cases herr : m.ethernet_communication_module_data.error = 0 <;>
    simp [state_machine_process_event, process_event_with, active_leaf, active_path,
      active_path_from, current_state, chain_to_root, path_to_root, parent, bubble, invoke,
      handler, state_socket_closed, state_socket_opened, state_receive,
      state_closing_socket, call_close_socket, schedule_timeout,
      set_ethernet_communication_module_error, flush, circular_buffer_clear, transition,
      transition_with, target_path, shared_length, emit, set_links, set_current_state,
      h1, h4, h5, n2, n5, n6, hr, ho, hclose, herr]
  all_goals
    simp [state_machine_process_event, process_event_with, active_leaf, active_path,
      active_path_from, current_state, chain_to_root, path_to_root, parent, bubble, invoke,
      handler, state_socket_opened, state_receive, ethernet_communication_module_handler,
      push, schedule_timeout, RECEIVE_TIMEOUT, transition, transition_with, target_path,
      shared_length, emit, set_links, set_current_state, h4, hr, ho]

/-- The active leaf depends on the active-child links only. -/
theorem active_leaf_congr (m1 m2 : Module)
    (h1 : m1.state_machine_current_state = m2.state_machine_current_state)
    (h2 : m1.states_current_state = m2.states_current_state) :
    active_leaf m1 = active_leaf m2 := by
  simp only [active_leaf, active_path, active_path_from, current_state, h1, h2]

/-- The invariant `settled` depends on the links and on the timer only. -/
theorem settled_congr (m1 m2 : Module) (h : settled m1)
    (h1 : m2.state_machine_current_state = m1.state_machine_current_state)
    (h2 : m2.states_current_state = m1.states_current_state)
    (h3 : m2.timeout_timer = m1.timeout_timer) : settled m2 := by
  obtain ⟨hwf, hroot, htimer⟩ := h
  refine ⟨?_, ?_, ?_⟩
  · rw [wf_congr m2 m1 h1 h2]; exact hwf
  · rw [h1]; exact hroot
  · rw [h3, active_leaf_congr m2 m1 h1 h2]; exact htimer

/-- Dispatch of any event keeps the invariant `settled`, and returns. -/
theorem dispatch_settled (deps : ethernet_communication_module_dependencies_t)
    (fuel : Nat) (hfuel : 3 ≤ fuel) (event : event_t) (m : Module) (h : settled m) :
    ∃ m1, state_machine_process_event deps fuel event m = some m1 ∧ settled m1 := by
  obtain ⟨hwf, hroot, htimer⟩ := h
  obtain ⟨m1, hm1, hwf1⟩ := state_machine_process_event_total deps fuel hfuel event m hwf
  obtain ⟨f, rfl⟩ : ∃ f, fuel = f + 3 := ⟨fuel - 3, by omega⟩
  have key : ∃ m2, state_machine_process_event deps (f + 3) event m = some m2 ∧
      m2.state_machine_current_state ≠ none ∧
      (m2.timeout_timer ≠ 0 → active_leaf m2 = some (some STATE_RECEIVE)) := by
    obtain ⟨h1, h2, h3, h4, h5, h6, h7⟩ := wf_cases m hwf
    rcases h7 with h7 | h7 | h7 | h7 | h7
    · exact absurd h7 hroot
    · refine dispatch_from_closed deps f event m hwf h7 ?_
      by_contra ht
      have := htimer ht
      simp [active_leaf, active_path, active_path_from, current_state, h7, h1] at this
    · refine dispatch_from_opening deps f event m hwf h7 ?_
      by_contra ht
      have := htimer ht
      simp [active_leaf, active_path, active_path_from, current_state, h7, h2] at this
    · rcases h6 with h6 | h6 | h6
      · refine dispatch_from_opened deps f event m hwf h7 h6 ?_
        by_contra ht
        have := htimer ht
        simp [active_leaf, active_path, active_path_from, current_state, h7, h6] at this
      · refine dispatch_from_sending deps f event m hwf h7 h6 ?_
        by_contra ht
        have := htimer ht
        simp [active_leaf, active_path, active_path_from, current_state, h7, h6, h3] at this
      · exact dispatch_from_receiving deps f event m hwf h7 h6
    · refine dispatch_from_closing deps f event m hwf h7 ?_
      by_contra ht
      have := htimer ht
      simp [active_leaf, active_path, active_path_from, current_state, h7, h5] at this
  obtain ⟨m2, hm2, hroot2, htimer2⟩ := key
  have he : m1 = m2 := Option.some.inj (hm1.symm.trans hm2)
  subst he
  exact ⟨m1, hm1, hwf1, hroot2, htimer2⟩

/-- Every action keeps the invariant `settled`, and returns. -/
theorem perform_settled (deps : ethernet_communication_module_dependencies_t)
    (fuel : Nat) (hfuel : 3 ≤ fuel) (a : Action) (m : Module) (h : settled m) :
    ∃ m1, perform deps fuel a m = some m1 ∧ settled m1 := by
  cases a with
  | send d n => exact ⟨_, rfl, settled_congr m _ h rfl rfl rfl⟩
  | receive b cap out => exact ⟨_, rfl, settled_congr m _ h rfl rfl rfl⟩
  | close_socket => exact ⟨_, rfl, settled_congr m _ h rfl rfl rfl⟩
  | socket_closed => exact ⟨_, rfl, settled_congr m _ h rfl rfl rfl⟩
  | error_code code => exact ⟨_, rfl, settled_congr m _ h rfl rfl rfl⟩
  | tick =>
    refine ⟨_, rfl, ?_⟩
    by_cases ht : m.timeout_timer = 0
    · have he : second_expired_listener m = m := by simp [second_expired_listener, ht]
      rw [he]; exact h
    · obtain ⟨hwf, hroot, htimer⟩ := h
      have hleaf := htimer ht
      by_cases ht1 : m.timeout_timer - 1 = 0
      · have he : second_expired_listener m =
            push EVENT_TIMEOUT { m with timeout_timer := m.timeout_timer - 1 } := by
          simp [second_expired_listener, ht, ht1]
        rw [he]
        refine ⟨?_, hroot, fun _ => ?_⟩
        · exact (wf_congr _ m rfl rfl).trans hwf
        · exact (active_leaf_congr _ m rfl rfl).trans hleaf
      · have he : second_expired_listener m =
            { m with timeout_timer := m.timeout_timer - 1 } := by
          simp [second_expired_listener, ht, ht1]
        rw [he]
        refine ⟨?_, hroot, fun _ => ?_⟩
        · exact (wf_congr _ m rfl rfl).trans hwf
        · exact (active_leaf_congr _ m rfl rfl).trans hleaf
  | poll =>
    cases hq : m.events_buffer with
    | nil =>
      refine ⟨m, ?_, h⟩
      simp [perform, process_event, pop_event, hq]
    | cons e rest =>
      obtain ⟨m1, hm1, hs1⟩ := dispatch_settled deps fuel hfuel e
        { m with events_buffer := rest } (settled_congr m _ h rfl rfl rfl)
      refine ⟨m1, ?_, hs1⟩
      simp [perform, process_event, pop_event, hq, hm1]

/-- Every sequence of actions keeps the invariant `settled`, and returns. -/
theorem run_settled (deps : ethernet_communication_module_dependencies_t)
    (fuel : Nat) (hfuel : 3 ≤ fuel) (actions : List Action) :
    ∀ m, settled m → ∃ m1, run deps fuel actions m = some m1 ∧ settled m1 := by
  induction actions with
  | nil => intro m h; exact ⟨m, rfl, h⟩
  | cons a rest ih =>
    intro m h
    obtain ⟨m1, hm1, hs1⟩ := perform_settled deps fuel hfuel a m h
    obtain ⟨m2, hm2, hs2⟩ := ih m1 hs1
    exact ⟨m2, by simp [run, hm1, hm2], hs2⟩

/-- Initialisation from the static initialisers returns a configuration that
satisfies `settled`, whose active leaf is Closed and whose queue is empty. -/
theorem init_settled (deps : ethernet_communication_module_dependencies_t)
    (fuel : Nat) (hfuel : 1 ≤ fuel) (server_ip : List Nat) (server_port : Nat)
    (memory : Nat → Nat) :
    ∃ m0, init_ethernet_communication_module deps fuel
        (power_on server_ip server_port memory) = some m0 ∧
      settled m0 ∧ active_leaf m0 = some (some STATE_SOCKET_CLOSED) ∧
      m0.events_buffer = [] := by
  obtain ⟨f, rfl⟩ : ∃ f, fuel = f + 1 := ⟨fuel - 1, by omega⟩
  simp [init_ethernet_communication_module, power_on, transition, transition_with,
    active_path, active_path_from, current_state, target_path, path_to_root, parent,
    shared_length, emit, invoke, handler, state_socket_closed, set_links, set_current_state,
    settled, links_well_formed, all_nodes, active_leaf]

/-- Every run from the static initialisers returns a configuration that
satisfies `settled`. -/
theorem run_from_power_on_settled (deps : ethernet_communication_module_dependencies_t)
    (fuel : Nat) (hfuel : 3 ≤ fuel) (server_ip : List Nat) (server_port : Nat)
    (memory : Nat → Nat) (actions : List Action) :
    ∃ m, run_from_power_on deps fuel server_ip server_port memory actions = some m ∧
      settled m := by
  obtain ⟨m0, hm0, hs0, -, -⟩ :=
    init_settled deps fuel (by omega) server_ip server_port memory
  obtain ⟨m, hm, hs⟩ := run_settled deps fuel hfuel actions m0 hs0
  exact ⟨m, by simp [run_from_power_on, hm0, hm], hs⟩

/-- C22: every run from initialisation made of public-operation calls,
invocations of the polling handle, ticks, socket-closed notifications and
error-code notifications returns, and in the configuration it reaches a
non-zero timeout timer implies that the active leaf is Receiving; so a tick
that arrives while the active leaf is not Receiving changes nothing, and in
particular queues no Timeout event. -/
theorem timer_runs_only_in_receiving (deps : ethernet_communication_module_dependencies_t)
    (fuel : Nat) (hfuel : 3 ≤ fuel) (server_ip : List Nat) (server_port : Nat)
    (memory : Nat → Nat) (actions : List Action) :
    ∃ m, run_from_power_on deps fuel server_ip server_port memory actions = some m ∧
      (m.timeout_timer ≠ 0 → active_leaf m = some (some STATE_RECEIVE)) ∧
      (active_leaf m ≠ some (some STATE_RECEIVE) →
        second_expired_listener m = m ∧
        (second_expired_listener m).events_buffer = m.events_buffer) := by
  obtain ⟨m, hm, -, -, htimer⟩ :=
    run_from_power_on_settled deps fuel hfuel server_ip server_port memory actions
  refine ⟨m, hm, htimer, fun hleaf => ?_⟩
  have ht : m.timeout_timer = 0 := by
    by_contra h
    exact hleaf (htimer h)
  have he : second_expired_listener m = m := by simp [second_expired_listener, ht]
  exact ⟨he, by rw [he]⟩

/-- Witness of C22: a receive polled into Receiving, where the timer runs, then
abandoned by a socket-closed notification; the run ends in Closed with the
timer at 0, and a tick there changes nothing. -/
theorem timer_runs_only_in_receiving_witness :
    (run_from_power_on (sample_dependencies 0 true true) 3 [49] 80 (fun _ => 7)
        [Action.receive 200 64 300, Action.poll, Action.poll, Action.poll, Action.poll,
         Action.tick]).map
        (fun m => (active_leaf m, m.timeout_timer))
      = some (some (some STATE_RECEIVE), 2) ∧
    (∃ m, run_from_power_on (sample_dependencies 0 true true) 3 [49] 80 (fun _ => 7)
        [Action.receive 200 64 300, Action.poll, Action.poll, Action.poll, Action.poll,
         Action.tick, Action.socket_closed, Action.poll, Action.poll, Action.tick] = some m ∧
      (m.timeout_timer ≠ 0 → active_leaf m = some (some STATE_RECEIVE)) ∧
      (active_leaf m ≠ some (some STATE_RECEIVE) →
        second_expired_listener m = m ∧
        (second_expired_listener m).events_buffer = m.events_buffer)) ∧
    (run_from_power_on (sample_dependencies 0 true true) 3 [49] 80 (fun _ => 7)
        [Action.receive 200 64 300, Action.poll, Action.poll, Action.poll, Action.poll,
         Action.tick, Action.socket_closed, Action.poll, Action.poll, Action.tick]).map
        (fun m => (active_leaf m, m.timeout_timer, m.events_buffer))
      = some (some (some STATE_SOCKET_CLOSED), 0, []) :=
  ⟨by decide,
   timer_runs_only_in_receiving (sample_dependencies 0 true true) 3 (le_refl 3) [49] 80
     (fun _ => 7) _,
   by decide⟩

/-- C23: initialisation returns with Closed as the active leaf, and every run
from initialisation returns a configuration in which the root's active child is
Closed, Opening, Opened or Closing, the active child of Opened is none, Sending
or Receiving, and the active child of Closed, Opening, Sending, Receiving and
Closing is none; the walk along the active-child links from the root ends
within the bound 3, it visits one or two states, and the last of them is the
active leaf. -/
theorem active_path_well_formed (deps : ethernet_communication_module_dependencies_t)
    (fuel : Nat) (hfuel : 3 ≤ fuel) (server_ip : List Nat) (server_port : Nat)
    (memory : Nat → Nat) :
    (∃ m0, init_ethernet_communication_module deps fuel
        (power_on server_ip server_port memory) = some m0 ∧
      active_leaf m0 = some (some STATE_SOCKET_CLOSED)) ∧
    ∀ actions : List Action,
      ∃ m, run_from_power_on deps fuel server_ip server_port memory actions = some m ∧
        (m.state_machine_current_state = some STATE_SOCKET_CLOSED ∨
          m.state_machine_current_state = some STATE_OPENING_SOCKET ∨
          m.state_machine_current_state = some STATE_SOCKET_OPENED ∨
          m.state_machine_current_state = some STATE_CLOSING_SOCKET) ∧
        (m.states_current_state STATE_SOCKET_OPENED = none ∨
          m.states_current_state STATE_SOCKET_OPENED = some STATE_SEND ∨
          m.states_current_state STATE_SOCKET_OPENED = some STATE_RECEIVE) ∧
        m.states_current_state STATE_SOCKET_CLOSED = none ∧
        m.states_current_state STATE_OPENING_SOCKET = none ∧
        m.states_current_state STATE_SEND = none ∧
        m.states_current_state STATE_RECEIVE = none ∧
        m.states_current_state STATE_CLOSING_SOCKET = none ∧
        ∃ path s, active_path_from m 3 none = some path ∧ active_path m = some path ∧
          1 ≤ path.length ∧ path.length ≤ 2 ∧ path.getLast? = some s ∧
          active_leaf m = some (some s) := by
  constructor
  · obtain ⟨m0, hm0, -, hleaf, -⟩ :=
      init_settled deps fuel (by omega) server_ip server_port memory
    exact ⟨m0, hm0, hleaf⟩
  · intro actions
    obtain ⟨m, hm, hwf, hroot, -⟩ :=
      run_from_power_on_settled deps fuel hfuel server_ip server_port memory actions
    obtain ⟨h1, h2, h3, h4, h5, h6, h7⟩ := wf_cases m hwf
    have h7a : m.state_machine_current_state = some STATE_SOCKET_CLOSED ∨
        m.state_machine_current_state = some STATE_OPENING_SOCKET ∨
        m.state_machine_current_state = some STATE_SOCKET_OPENED ∨
        m.state_machine_current_state = some STATE_CLOSING_SOCKET := by
      rcases h7 with h7 | h7 | h7 | h7 | h7
      · exact absurd h7 hroot
      · exact Or.inl h7
      · exact Or.inr (Or.inl h7)
      · exact Or.inr (Or.inr (Or.inl h7))
      · exact Or.inr (Or.inr (Or.inr h7))
    refine ⟨m, hm, h7a, h6, h1, h2, h3, h4, h5, ?_⟩
    rcases h7a with h7 | h7 | h7 | h7
    · exact ⟨[STATE_SOCKET_CLOSED], STATE_SOCKET_CLOSED, by
        simp [active_leaf, active_path, active_path_from, current_state, h7, h1]⟩
    · exact ⟨[STATE_OPENING_SOCKET], STATE_OPENING_SOCKET, by
        simp [active_leaf, active_path, active_path_from, current_state, h7, h2]⟩
    · rcases h6 with h6 | h6 | h6
      · exact ⟨[STATE_SOCKET_OPENED], STATE_SOCKET_OPENED, by
          simp [active_leaf, active_path, active_path_from, current_state, h7, h6]⟩
      · exact ⟨[STATE_SOCKET_OPENED, STATE_SEND], STATE_SEND, by
          simp [active_leaf, active_path, active_path_from, current_state, h7, h6, h3]⟩
      · exact ⟨[STATE_SOCKET_OPENED, STATE_RECEIVE], STATE_RECEIVE, by
          simp [active_leaf, active_path, active_path_from, current_state, h7, h6, h4]⟩
    · exact ⟨[STATE_CLOSING_SOCKET], STATE_CLOSING_SOCKET, by
        simp [active_leaf, active_path, active_path_from, current_state, h7, h5]⟩

/-- Witness of C23: a run from initialisation that opens the socket, enters
Receiving and is then told that the socket closed; the walk from the root ends
at Closed after one step, while the link of Opened still names Receiving. -/
theorem active_path_well_formed_witness :
    (∃ m, run_from_power_on (sample_dependencies 0 true true) 3 [49] 80 (fun _ => 7)
        [Action.receive 200 64 300, Action.poll, Action.poll, Action.poll, Action.poll,
         Action.socket_closed, Action.poll, Action.poll] = some m ∧
      ∃ path s, active_path_from m 3 none = some path ∧ active_path m = some path ∧
        1 ≤ path.length ∧ path.length ≤ 2 ∧ path.getLast? = some s ∧
        active_leaf m = some (some s)) ∧
    (run_from_power_on (sample_dependencies 0 true true) 3 [49] 80 (fun _ => 7)
        [Action.receive 200 64 300, Action.poll, Action.poll, Action.poll, Action.poll]).map
        (fun m => active_path m) = some (some [STATE_SOCKET_OPENED, STATE_RECEIVE]) ∧
    (run_from_power_on (sample_dependencies 0 true true) 3 [49] 80 (fun _ => 7)
        [Action.receive 200 64 300, Action.poll, Action.poll, Action.poll, Action.poll,
         Action.socket_closed, Action.poll, Action.poll]).map
        (fun m => (active_path m, m.states_current_state STATE_SOCKET_OPENED))
      = some (some [STATE_SOCKET_CLOSED], some STATE_RECEIVE) := by
  refine ⟨?_, by decide, by decide⟩
  obtain ⟨m, hm, -, -, -, -, -, -, -, hpath⟩ :=
    (active_path_well_formed (sample_dependencies 0 true true) 3 (le_refl 3) [49] 80
      (fun _ => 7)).2
      [Action.receive 200 64 300, Action.poll, Action.poll, Action.poll, Action.poll,
       Action.socket_closed, Action.poll, Action.poll]
  exact ⟨m, hm, hpath⟩

end Ethernet
